import Mathlib

/-!
# Moon: orbit / walk scene controller

A shallow embedding of `src/components/MoonScene.jsx` (and of the mode state of
`src/App.jsx`).  JavaScript numbers are modelled as exact real numbers, the
closure variables of the scene effect together with the `window` globals and
the registered DOM listeners as one record `Scene`, and every function of the
source as a function on that record.  What the rendering engine computes
(ray casts, camera orientation, pointer-lock status, random draws, texture
loads) enters as an explicit argument.
-/

namespace Moon

noncomputable section

/-! ## Engine vectors (`THREE.Vector3`) -/

/-- A `THREE.Vector3`. -/
structure Vec3 where
  x : ℝ
  y : ℝ
  z : ℝ

namespace Vec3

/-- The vector `new THREE.Vector3()`. -/
def zero : Vec3 := ⟨0, 0, 0⟩

/-- The method `add`. -/
def add (a b : Vec3) : Vec3 := ⟨a.x + b.x, a.y + b.y, a.z + b.z⟩

/-- The method `sub`. -/
def sub (a b : Vec3) : Vec3 := ⟨a.x - b.x, a.y - b.y, a.z - b.z⟩

/-- The method `multiplyScalar`. -/
def multiplyScalar (a : Vec3) (k : ℝ) : Vec3 := ⟨a.x * k, a.y * k, a.z * k⟩

/-- The method `divideScalar`, which multiplies by the reciprocal. -/
def divideScalar (a : Vec3) (k : ℝ) : Vec3 := a.multiplyScalar (1 / k)

/-- The method `negate`. -/
def negate (a : Vec3) : Vec3 := ⟨-a.x, -a.y, -a.z⟩

/-- The method `lengthSq`. -/
def lengthSq (a : Vec3) : ℝ := a.x * a.x + a.y * a.y + a.z * a.z

/-- The method `length`. -/
def length (a : Vec3) : ℝ := Real.sqrt (a.x * a.x + a.y * a.y + a.z * a.z)

/-- The method `normalize`: `divideScalar(length() || 1)`. -/
def normalize (a : Vec3) : Vec3 :=
  a.divideScalar (if a.length = 0 then 1 else a.length)

/-- The method `distanceToSquared`. -/
def distanceToSquared (a b : Vec3) : ℝ :=
  (a.x - b.x) * (a.x - b.x) + (a.y - b.y) * (a.y - b.y) + (a.z - b.z) * (a.z - b.z)

/-- The method `distanceTo`. -/
def distanceTo (a b : Vec3) : ℝ := Real.sqrt (a.distanceToSquared b)

/-- The method `lerp`: move the fraction `alpha` of the way toward `v`. -/
def lerp (a v : Vec3) (alpha : ℝ) : Vec3 :=
  ⟨a.x + (v.x - a.x) * alpha, a.y + (v.y - a.y) * alpha, a.z + (v.z - a.z) * alpha⟩

end Vec3

/-! ## Constants of the scene effect -/

/-- Radius of the planetary body. -/
def moonRadius : ℝ := 500

/-- Maximum walking speed per axis. -/
def moveSpeed : ℝ := 0.2

/-- Eye height above the surface. -/
def eyeHeight : ℝ := 1.7

/-- Vertical velocity given by a jump. -/
def jumpSpeed : ℝ := 0.4

/-- Gravity subtracted from the vertical velocity on every airborne tick. -/
def moonGravity : ℝ := 0.01

/-- Height above the radius beyond which the vertical velocity is zeroed. -/
def maxJumpHeight : ℝ := 15

/-! ## DOM listeners and engine controls -/

/-- Event targets the source attaches listeners to; `canvas g` is the
`renderer.domElement` created by the `g`-th run of the scene effect. -/
inductive Target
  | window
  | document
  | canvas (gen : Nat)
  deriving DecidableEq

/-- Event types used by the source. -/
inductive EventType
  | resize
  | click
  | keydown
  | keyup
  | touchstart
  | touchmove
  | touchend
  | touchcancel
  deriving DecidableEq

/-- The function expression of the source a listener closure was created from
(`orbitHandleClick` is `handleClick` of `setupOrbitControls`,
`pointerLockHandleClick` is `handleClick` of `setupFirstPersonControls`). -/
inductive HandlerFn
  | checkMobile
  | handleResize
  | orbitHandleClick
  | pointerLockHandleClick
  | handleSkyClick
  | onKeyDown
  | onKeyUp
  | onTouchStart
  | onTouchMove
  | onTouchEnd
  deriving DecidableEq

/-- A registered event listener; `id` is the identity of the closure, so that
`removeEventListener` removes exactly the closure it is given. -/
structure Listener where
  target : Target
  type : EventType
  fn : HandlerFn
  id : Nat
  deriving DecidableEq

/-- The two camera-control schemes of the engine. -/
inductive ControlKind
  | orbit
  | pointerLock
  deriving DecidableEq

/-- An `OrbitControls` object held in the variable `controls`. -/
structure OrbitControls where
  id : Nat
  enabled : Bool
  autoRotate : Bool
  minDistance : ℝ
  maxDistance : ℝ

/-! ## Walk state -/

/-- The closure variable `moveState`. -/
structure MoveState where
  forward : Bool
  backward : Bool
  left : Bool
  right : Bool
  jump : Bool
  deriving DecidableEq

/-- The closure variable `jumpState`. -/
structure JumpState where
  verticalVelocity : ℝ
  isGrounded : Bool

/-- The global `window.mobileMoveState`. -/
structure MobileMoveState where
  forward : Bool
  backward : Bool
  left : Bool
  right : Bool
  deriving DecidableEq

/-- The global `window.mobileJumpState`. -/
structure MobileJumpState where
  jumping : Bool
  verticalVelocity : ℝ
  isGrounded : Bool

/-- The object `touchRotation` published as `window.mobileTouchRotation`. -/
structure TouchRotation where
  x : ℝ
  y : ℝ

/-- A joystick offset, the value of `joystickPosition.current`. -/
structure Offset where
  x : ℝ
  y : ℝ

/-- An entry of the side list `terrainPositions`. -/
inductive TerrainPosition
  | crater (position : Vec3) (radius : ℝ)
  | mountain (position : Vec3) (height : ℝ)
  | hill (position : Vec3) (height : ℝ)

/-- The anchor recorded in an entry of `terrainPositions`. -/
def TerrainPosition.position : TerrainPosition → Vec3
  | .crater p _ => p
  | .mountain p _ => p
  | .hill p _ => p

/-- The three kinds of terrain feature. -/
inductive TerrainKind
  | crater
  | mountain
  | hill
  deriving DecidableEq

/-- The field `type` of an entry of `terrainPositions`. -/
def TerrainPosition.kind : TerrainPosition → TerrainKind
  | .crater _ _ => .crater
  | .mountain _ _ => .mountain
  | .hill _ _ => .hill

/-- Everything the scene effect, its handlers and its frame callback read and
write: the React state captured by the current render, the DOM, the `window`
globals and the closure variables of the current effect run. -/
structure Scene where
  /-- React state `isFirstPerson` as captured by the current closures. -/
  isFirstPerson : Bool
  /-- React state `isMobile` as captured by the current closures. -/
  isMobile : Bool
  /-- Listeners currently registered through `addEventListener`. -/
  listeners : List Listener
  /-- Engine control objects whose own DOM listeners are attached. -/
  connected : List (ControlKind × Nat)
  /-- Next fresh identity for a closure or an engine object. -/
  nextId : Nat
  /-- Generation of the current `renderer.domElement`. -/
  canvas : Nat
  /-- The canvas generation holding the pointer lock, if any. -/
  pointerLockElement : Option Nat
  /-- The global `window.orbitCleanup`: the listeners it removes. -/
  orbitCleanup : Option (List Listener)
  /-- The global `window.toggleFirstPersonMode`: the mode its closure captured. -/
  toggleFirstPersonMode : Option Bool
  /-- The global `window.mobileMoveState`. -/
  mobileMoveState : Option MobileMoveState
  /-- The global `window.mobileJumpState`. -/
  mobileJumpState : Option MobileJumpState
  /-- The global `window.mobileTouchRotation`. -/
  mobileTouchRotation : Option TouchRotation
  /-- The variable `controls`. -/
  controls : Option OrbitControls
  /-- The variable `pointerLockControls`. -/
  pointerLockControls : Option Nat
  /-- The flag `terrainGroup.visible`, `none` while `terrainGroup` is null. -/
  terrainVisible : Option Bool
  /-- The angle `moon.rotation.y`. -/
  moonRotationY : ℝ
  /-- The vector `camera.position`. -/
  cameraPosition : Vec3
  /-- The last argument of `camera.lookAt`. -/
  cameraLookAt : Vec3
  /-- The variable `moveState`. -/
  moveState : MoveState
  /-- The variable `velocity`. -/
  velocity : Vec3
  /-- The variable `jumpState`. -/
  jumpState : JumpState
  /-- The variable `direction`. -/
  direction : Vec3
  /-- The list `terrainPositions`. -/
  terrainPositions : List TerrainPosition
  /-- The vertex positions of the moon geometry. -/
  moonVertices : List Vec3
  /-- The variable `firstPersonCleanup`: the listeners it removes. -/
  firstPersonCleanup : Option (List Listener)
  /-- The closure `handleResize` registered by the current effect run. -/
  resizeListener : Option Listener
  /-- The ref `joystickPosition.current`. -/
  joystickPosition : Offset
  /-- The ref `isJoystickActive.current`. -/
  isJoystickActive : Bool
  /-- The translation of the joystick knob, `none` while the knob is not mounted. -/
  joystickKnob : Option Offset
  /-- The variable `lastTouch` of the touch handlers. -/
  lastTouch : Offset
  /-- The ref `touchStartRef.current`. -/
  touchStartRef : Option Offset
  /-- The ref `touchMoveRef.current`. -/
  touchMoveRef : Option Offset

/-! ## The frame callback `animate` -/

/-- First intersection returned by `raycaster.intersectObjects`. -/
structure Hit where
  /-- The field `point`. -/
  point : Vec3
  /-- The face normal already transformed by the object's world matrix,
  `none` when the intersection has no face. -/
  faceNormal : Option Vec3

/-- What the engine supplies to one frame. -/
structure Frame where
  /-- The flag `pointerLockControls.isLocked`. -/
  isLocked : Bool
  /-- The unit vector along which a forward displacement is applied. -/
  forward : Vec3
  /-- The unit vector along which a rightward displacement is applied. -/
  right : Vec3
  /-- Nearest intersection of the ray (origin, direction) with the moon mesh
  and the children of the terrain group. -/
  intersect : Vec3 → Vec3 → Option Hit

/-- JavaScript `Number(b)` for a boolean. -/
def b2r (b : Bool) : ℝ := if b then 1 else 0

/-- The directional flags of `activeMoveState`. -/
def activeMoveState (s : Scene) : MobileMoveState :=
  match s.isMobile, s.mobileMoveState with
  | true, some m => m
  | _, _ => ⟨s.moveState.forward, s.moveState.backward, s.moveState.left, s.moveState.right⟩

/-- The field `activeJumpState.verticalVelocity`. -/
def activeVerticalVelocity (s : Scene) : ℝ :=
  match s.isMobile, s.mobileJumpState with
  | true, some j => j.verticalVelocity
  | _, _ => s.jumpState.verticalVelocity

/-- The field `activeJumpState.isGrounded`. -/
def activeIsGrounded (s : Scene) : Bool :=
  match s.isMobile, s.mobileJumpState with
  | true, some j => j.isGrounded
  | _, _ => s.jumpState.isGrounded

/-- The jump-in-progress flag of the active adapter:
`window.mobileJumpState.jumping` on mobile, `moveState.jump` otherwise. -/
def activeJumping (s : Scene) : Bool :=
  match s.isMobile, s.mobileJumpState with
  | true, some j => j.jumping
  | _, _ => s.moveState.jump

/-- Assignment to `activeJumpState.verticalVelocity`. -/
def setActiveVerticalVelocity (s : Scene) (v : ℝ) : Scene :=
  match s.isMobile, s.mobileJumpState with
  | true, some j => { s with mobileJumpState := some { j with verticalVelocity := v } }
  | _, _ => { s with jumpState := { s.jumpState with verticalVelocity := v } }

/-- Assignment to `activeJumpState.isGrounded`. -/
def setActiveIsGrounded (s : Scene) (g : Bool) : Scene :=
  match s.isMobile, s.mobileJumpState with
  | true, some j => { s with mobileJumpState := some { j with isGrounded := g } }
  | _, _ => { s with jumpState := { s.jumpState with isGrounded := g } }

/-- The landing branch's flag reset: `window.mobileJumpState.jumping = false`
on mobile, `moveState.jump = false` otherwise. -/
def clearJumping (s : Scene) : Scene :=
  match s.isMobile, s.mobileJumpState with
  | true, some j => { s with mobileJumpState := some { j with jumping := false } }
  | _, _ => { s with moveState := { s.moveState with jump := false } }

/-- Lines 1014-1057 of `animate`: damping, acceleration, per-axis clamp and the
horizontal displacement of the camera. -/
def moveStep (f : Frame) (s : Scene) : Scene :=
  let isLocked := match s.pointerLockControls with
    | some _ => f.isLocked
    | none => true
  let a := activeMoveState s
  if isLocked || s.isMobile then
    let vx0 := s.velocity.x - s.velocity.x * 0.1
    let vz0 := s.velocity.z - s.velocity.z * 0.1
    let dir := Vec3.normalize
      ⟨b2r a.right - b2r a.left, s.direction.y, b2r a.forward - b2r a.backward⟩
    let acceleration := moveSpeed * 0.1
    let vz1 := if a.forward || a.backward then vz0 - dir.z * acceleration else vz0
    let vx1 := if a.left || a.right then vx0 - dir.x * acceleration else vx0
    let maxSpeed := moveSpeed
    let vx := max (-maxSpeed) (min maxSpeed vx1)
    let vz := max (-maxSpeed) (min maxSpeed vz1)
    let pos :=
      if s.isMobile then
        s.cameraPosition.add
          ((Vec3.zero.add (f.forward.multiplyScalar (-vz))).add (f.right.multiplyScalar (-vx)))
      else
        match s.pointerLockControls with
        | some _ =>
          (s.cameraPosition.add (f.right.multiplyScalar (-vx))).add
            (f.forward.multiplyScalar (-vz))
        | none => s.cameraPosition
    { s with velocity := ⟨vx, s.velocity.y, vz⟩, direction := dir, cameraPosition := pos }
  else s

/-- Lines 1059-1071 of `animate`: gravity and the vertical displacement while
airborne. -/
def gravityStep (s : Scene) : Scene :=
  if activeIsGrounded s then s
  else
    let s1 := setActiveVerticalVelocity s (activeVerticalVelocity s - moonGravity)
    let surfaceNormal := s1.cameraPosition.normalize
    let verticalOffset := surfaceNormal.multiplyScalar (activeVerticalVelocity s1)
    { s1 with cameraPosition := s1.cameraPosition.add verticalOffset }

/-- Lines 1073-1135 of `animate`: the grounding probe and its three branches,
with the sphere fallback when the probe finds nothing. -/
def groundingStep (f : Frame) (s : Scene) : Scene :=
  let currentPos := s.cameraPosition
  let surfaceNormal := currentPos.normalize
  let rayOrigin := currentPos.add (surfaceNormal.multiplyScalar 100)
  let rayDirection := surfaceNormal.negate
  match f.intersect rayOrigin rayDirection with
  | some hit =>
    let hitNormal := match hit.faceNormal with
      | some n => n
      | none => surfaceNormal
    let distanceToTerrain := currentPos.distanceTo hit.point
    let targetHeight := eyeHeight
    if distanceToTerrain ≤ targetHeight + 0.5 ∧ activeVerticalVelocity s ≤ 0 then
      let s1 := clearJumping (setActiveVerticalVelocity (setActiveIsGrounded s true) 0)
      let targetPos := hit.point.add (hitNormal.multiplyScalar targetHeight)
      { s1 with cameraPosition := s1.cameraPosition.lerp targetPos 0.5 }
    else if activeIsGrounded s then
      let targetPos := hit.point.add (hitNormal.multiplyScalar targetHeight)
      { s with cameraPosition := s.cameraPosition.lerp targetPos 0.4 }
    else s
  | none =>
    if activeIsGrounded s then
      let targetDistance := moonRadius + eyeHeight
      let targetPos := surfaceNormal.multiplyScalar targetDistance
      { s with cameraPosition := s.cameraPosition.lerp targetPos 0.4 }
    else s

/-- Lines 1137-1141 of `animate`: the ceiling clamp. -/
def ceilingStep (s : Scene) : Scene :=
  if s.cameraPosition.length > moonRadius + maxJumpHeight then
    setActiveVerticalVelocity s 0
  else s

/-- Assignment to `controls.enabled` when `controls` is not null. -/
def setControlsEnabled (s : Scene) (e : Bool) : Scene :=
  match s.controls with
  | some c => { s with controls := some { c with enabled := e } }
  | none => s

/-- One call of `animate`: the first-person branch runs the four steps above,
the orbit branch enables the orbit controls and rotates the moon (what
`controls.update()` does to the camera is the engine's business). -/
def animate (f : Frame) (s : Scene) : Scene :=
  if s.isFirstPerson then
    ceilingStep (groundingStep f (gravityStep (moveStep f (setControlsEnabled s false))))
  else
    { setControlsEnabled s true with moonRotationY := s.moonRotationY + 0.001 }

/-! ## Input handlers -/

/-- The values of `event.code` the keyboard handlers distinguish. -/
inductive KeyCode
  | KeyW
  | KeyS
  | KeyA
  | KeyD
  | Space
  | other
  deriving DecidableEq

/-- The handler `onKeyDown` of the desktop adapter. -/
def onKeyDown (code : KeyCode) (s : Scene) : Scene :=
  match code with
  | .KeyW => { s with moveState := { s.moveState with forward := true } }
  | .KeyS => { s with moveState := { s.moveState with backward := true } }
  | .KeyA => { s with moveState := { s.moveState with left := true } }
  | .KeyD => { s with moveState := { s.moveState with right := true } }
  | .Space =>
    if s.jumpState.isGrounded && !s.moveState.jump then
      { s with
        moveState := { s.moveState with jump := true }
        jumpState := ⟨jumpSpeed, false⟩ }
    else s
  | .other => s

/-- The handler `onKeyUp` of the desktop adapter. -/
def onKeyUp (code : KeyCode) (s : Scene) : Scene :=
  match code with
  | .KeyW => { s with moveState := { s.moveState with forward := false } }
  | .KeyS => { s with moveState := { s.moveState with backward := false } }
  | .KeyA => { s with moveState := { s.moveState with left := false } }
  | .KeyD => { s with moveState := { s.moveState with right := false } }
  | .Space => { s with moveState := { s.moveState with jump := false } }
  | .other => s

/-- The handler `handleJump` of the on-screen jump button. -/
def handleJump (s : Scene) : Scene :=
  if !s.isMobile || !s.isFirstPerson then s
  else
    match s.mobileJumpState with
    | some j =>
      if j.isGrounded && !j.jumping then
        { s with mobileJumpState := some ⟨true, 0.4, false⟩ }
      else s
    | none => s

/-- JavaScript `Math.atan2(y, x)`, the argument of the point `(x, y)`. -/
def atan2 (y x : ℝ) : ℝ := Complex.arg ⟨x, y⟩

/-- The function `updateJoystickPosition`. -/
def updateJoystickPosition (x y : ℝ) (s : Scene) : Scene :=
  let maxDistance : ℝ := 50
  let distance := Real.sqrt (x * x + y * y)
  let angle := atan2 y x
  let x1 := if distance > maxDistance then Real.cos angle * maxDistance else x
  let y1 := if distance > maxDistance then Real.sin angle * maxDistance else y
  let s1 := { s with joystickPosition := ⟨x1, y1⟩ }
  let s2 := match s1.joystickKnob with
    | some _ => { s1 with joystickKnob := some ⟨x1, y1⟩ }
    | none => s1
  match s2.mobileMoveState with
  | some _ =>
    let threshold : ℝ := 10
    let flags : MobileMoveState :=
      ⟨decide (y1 < -threshold), decide (y1 > threshold),
       decide (x1 < -threshold), decide (x1 > threshold)⟩
    { s2 with mobileMoveState := some flags }
  | none => s2

/-- The handler `handleJoystickStart`; `offset` is the touch position relative
to the centre of the joystick, `none` when the joystick has no bounding rect. -/
def handleJoystickStart (offset : Option Offset) (s : Scene) : Scene :=
  if !s.isMobile || !s.isFirstPerson then s
  else
    match offset with
    | some o =>
      updateJoystickPosition o.x o.y
        { s with isJoystickActive := true, joystickPosition := o }
    | none => s

/-- The handler `handleJoystickMove`. -/
def handleJoystickMove (offset : Option Offset) (s : Scene) : Scene :=
  if !s.isMobile || !s.isFirstPerson || !s.isJoystickActive then s
  else
    match offset with
    | some o => updateJoystickPosition o.x o.y s
    | none => s

/-- The handler `handleJoystickEnd`. -/
def handleJoystickEnd (s : Scene) : Scene :=
  if !s.isMobile || !s.isFirstPerson then s
  else
    let s1 := { s with isJoystickActive := false, joystickPosition := ⟨0, 0⟩ }
    let s2 := match s1.joystickKnob with
      | some _ => { s1 with joystickKnob := some ⟨0, 0⟩ }
      | none => s1
    match s2.mobileMoveState with
    | some _ => { s2 with mobileMoveState := some ⟨false, false, false, false⟩ }
    | none => s2

/-! ## Control setup -/

/-- The call `addEventListener`. -/
def addListener (l : Listener) (s : Scene) : Scene :=
  { s with listeners := s.listeners ++ [l] }

/-- The call `removeEventListener`. -/
def removeListener (l : Listener) (s : Scene) : Scene :=
  { s with listeners := s.listeners.erase l }

/-- Running a teardown callback: it removes its listeners in order. -/
def runCleanup (c : List Listener) (s : Scene) : Scene :=
  c.foldl (fun t l => removeListener l t) s

/-- The function `setupOrbitControls`; the second component is the teardown
callback it returns. -/
def setupOrbitControls (s : Scene) : Scene × List Listener :=
  let s1 := match s.pointerLockControls with
    | some p =>
      { s with connected := s.connected.erase (ControlKind.pointerLock, p)
               pointerLockControls := none }
    | none => s
  let s2 := match s1.controls with
    | some c => { s1 with connected := s1.connected.erase (ControlKind.orbit, c.id) }
    | none => s1
  let c : OrbitControls := ⟨s2.nextId, true, true, 600, 5000⟩
  let s3 := { s2 with
    controls := some c
    connected := s2.connected ++ [(ControlKind.orbit, c.id)]
    nextId := s2.nextId + 1
    cameraPosition := ⟨0, 200, 800⟩
    cameraLookAt := ⟨0, 0, 0⟩ }
  let handleClick : Listener := ⟨.canvas s3.canvas, .click, .orbitHandleClick, s3.nextId⟩
  (addListener handleClick { s3 with nextId := s3.nextId + 1 }, [handleClick])

/-- The function `setupFirstPersonControls`; the second component is the
teardown callback it returns (the concatenation of `cleanupFunctions`). -/
def setupFirstPersonControls (s : Scene) : Scene × List Listener :=
  let s1 := match s.controls with
    | some c => { s with connected := s.connected.erase (ControlKind.orbit, c.id)
                         controls := none }
    | none => s
  let position : Vec3 := ⟨0, moonRadius + eyeHeight, 0⟩
  let forwardDirection : Vec3 := ⟨0, 0, 1⟩
  let lookAtPos := position.add (forwardDirection.multiplyScalar 10)
  let s2 := { s1 with
    cameraPosition := position
    cameraLookAt := lookAtPos
    velocity := ⟨0, 0, 0⟩
    jumpState := ⟨0, true⟩
    moveState := ⟨false, false, false, false, false⟩ }
  let s3 := if s2.isMobile then
      { s2 with
        mobileMoveState := some ⟨false, false, false, false⟩
        mobileJumpState := some ⟨false, 0, true⟩ }
    else s2
  let c := s3.canvas
  let n := s3.nextId
  let (s4, cleanup1) :=
    if s3.isMobile then
      let onTouchStart : Listener := ⟨.canvas c, .touchstart, .onTouchStart, n⟩
      let onTouchMove : Listener := ⟨.canvas c, .touchmove, .onTouchMove, n + 1⟩
      let onTouchEnd : Listener := ⟨.canvas c, .touchend, .onTouchEnd, n + 2⟩
      let onTouchCancel : Listener := ⟨.canvas c, .touchcancel, .onTouchEnd, n + 2⟩
      let t := addListener onTouchCancel (addListener onTouchEnd
        (addListener onTouchMove (addListener onTouchStart s3)))
      ({ t with nextId := n + 3, mobileTouchRotation := some ⟨0, 0⟩, lastTouch := ⟨0, 0⟩ },
        [onTouchStart, onTouchMove, onTouchEnd, onTouchCancel])
    else
      let handleClick : Listener := ⟨.canvas c, .click, .pointerLockHandleClick, n + 1⟩
      let t := { s3 with
        pointerLockControls := some n
        connected := s3.connected ++ [(ControlKind.pointerLock, n)]
        nextId := n + 2 }
      (addListener handleClick t, [handleClick])
  let handleSkyClick : Listener := ⟨.canvas c, .click, .handleSkyClick, s4.nextId⟩
  let s5 := addListener handleSkyClick { s4 with nextId := s4.nextId + 1 }
  let cleanup2 := cleanup1 ++ [handleSkyClick]
  if s5.isMobile then (s5, cleanup2)
  else
    let onKeyDown : Listener := ⟨.document, .keydown, .onKeyDown, s5.nextId⟩
    let onKeyUp : Listener := ⟨.document, .keyup, .onKeyUp, s5.nextId + 1⟩
    (addListener onKeyUp (addListener onKeyDown { s5 with nextId := s5.nextId + 2 }),
      cleanup2 ++ [onKeyDown, onKeyUp])

/-! ## Procedural surface generation -/

/-- The point of the sphere of radius `moonRadius` at azimuth `theta` and
polar angle `phi`, as every generation loop of the source computes it. -/
def surfacePoint (theta phi : ℝ) : Vec3 :=
  ⟨Real.sin phi * Real.cos theta * moonRadius,
   Real.cos phi * moonRadius,
   Real.sin phi * Real.sin theta * moonRadius⟩

/-- The vertex buffer of the engine's `SphereGeometry(radius, w, h)`: rows of
`w + 1` vertices for each of the `h + 1` polar steps. -/
def sphereGeometry (radius : ℝ) (w h : Nat) : List Vec3 :=
  (List.range (h + 1)).flatMap fun (iy : Nat) =>
    (List.range (w + 1)).map fun (ix : Nat) =>
      let u : ℝ := (ix : ℝ) / (w : ℝ)
      let v : ℝ := (iy : ℝ) / (h : ℝ)
      ⟨-radius * Real.cos (u * (Real.pi * 2)) * Real.sin (v * Real.pi),
       radius * Real.cos (v * Real.pi),
       radius * Real.sin (u * (Real.pi * 2)) * Real.sin (v * Real.pi)⟩

/-- An entry of `craterLocations`. -/
structure Crater where
  pos : Vec3
  radius : ℝ
  depth : ℝ

/-- The list `craterLocations` of `createMoonHoles`: 20 large craters, then 40
medium ones; `rand n` is the `n`-th value returned by `Math.random()`. -/
def craterLocations (rand : Nat → ℝ) : List Crater :=
  ((List.range 20).map fun j =>
    let theta := rand (4 * j) * Real.pi * 2
    let phi := rand (4 * j + 1) * Real.pi
    (⟨surfacePoint theta phi, rand (4 * j + 2) * 20 + 15, rand (4 * j + 3) * 6 + 4⟩ : Crater))
  ++
  ((List.range 40).map fun j =>
    let theta := rand (80 + 4 * j) * Real.pi * 2
    let phi := rand (80 + 4 * j + 1) * Real.pi
    (⟨surfacePoint theta phi, rand (80 + 4 * j + 2) * 10 + 6,
      rand (80 + 4 * j + 3) * 3 + 2⟩ : Crater))

/-- The displacement depth of a vertex at distance `distance < crater.radius`
from the anchor of `crater`: quadratic falloff, organic variation, rim. -/
def craterDepth (vertex : Vec3) (crater : Crater) (distance : ℝ) : ℝ :=
  let factor := 1 - distance / crater.radius
  let depth0 := factor * factor * crater.depth
  let angle := atan2 (vertex.z - crater.pos.z) (vertex.x - crater.pos.x)
  let organicVariation := Real.sin (angle * 4) * 0.3 + Real.cos (angle * 6) * 0.2
  let depth1 := depth0 * (1 + organicVariation * factor)
  if factor > 0.7 ∧ factor < 0.95 then
    depth1 - Real.sin ((factor - 0.7) * Real.pi / 0.25) * 0.5
  else depth1

/-- The body of the loop `for (const crater of craterLocations)`. -/
def carve (vertex : Vec3) (crater : Crater) : Vec3 :=
  let distance := vertex.distanceTo crater.pos
  if distance < crater.radius then
    let depth := craterDepth vertex crater distance
    let direction := vertex.normalize
    vertex.sub (direction.multiplyScalar depth)
  else vertex

/-- The body of the surface-noise loop of `createMoonHoles`. -/
def surfaceNoise (v : Vec3) : Vec3 :=
  let originalDistance := v.length
  let noise := (Real.sin (v.x * 0.1) * Real.cos (v.y * 0.1) * Real.sin (v.z * 0.1)) * 0.3
  let direction := v.normalize
  let offset := direction.multiplyScalar noise
  let v1 := v.add offset
  let newDistance := v1.length
  if newDistance > 0 then v1.normalize.multiplyScalar originalDistance else v1

/-- The function `createMoonHoles` applied to the vertex buffer `positions`:
crater carving of every vertex, then the noise pass. -/
def createMoonHoles (rand : Nat → ℝ) (positions : List Vec3) : List Vec3 :=
  let craters := craterLocations rand
  let vertices := positions.map fun vertex => craters.foldl carve vertex
  vertices.map surfaceNoise

/-- The list `terrainPositions` built by `createTerrainFeatures`: 20 craters,
15 mountains, 25 hills, five random draws each (two sizes, two angles, spin). -/
def createTerrainFeatures (rand : Nat → ℝ) : List TerrainPosition :=
  ((List.range 20).map fun i =>
    let craterRadius := rand (5 * i) * 12 + 5
    let theta := rand (5 * i + 2) * Real.pi * 2
    let phi := rand (5 * i + 3) * Real.pi
    TerrainPosition.crater (surfacePoint theta phi) craterRadius)
  ++
  ((List.range 15).map fun i =>
    let mountainHeight := rand (100 + 5 * i) * 15 + 8
    let theta := rand (100 + 5 * i + 2) * Real.pi * 2
    let phi := rand (100 + 5 * i + 3) * Real.pi
    TerrainPosition.mountain (surfacePoint theta phi) mountainHeight)
  ++
  ((List.range 25).map fun i =>
    let hillHeight := rand (175 + 5 * i) * 8 + 4
    let theta := rand (175 + 5 * i + 2) * Real.pi * 2
    let phi := rand (175 + 5 * i + 3) * Real.pi
    TerrainPosition.hill (surfacePoint theta phi) hillHeight)

/-! ## Surface material -/

/-- A texture object. -/
inductive Texture
  | proceduralTexture
  | normalMap
  | roughnessMap
  | loaded (url : String)
  deriving DecidableEq

/-- The three maps of `moonMaterial`; `none` is an unset map. -/
structure Material where
  map : Option Texture
  normalMap : Option Texture
  roughnessMap : Option Texture
  deriving DecidableEq

/-- The list `moonTextureUrls`. -/
def moonTextureUrls : List String :=
  ["https://raw.githubusercontent.com/mrdoob/three.js/dev/examples/textures/planets/moon_1024.jpg",
   "https://s3-us-west-2.amazonaws.com/s.cdpn.io/17271/lroc_color_poles_1k.jpg",
   "https://threejs.org/examples/textures/planets/moon_1024.jpg"]

/-- The material, the flag `textureLoaded` and the indices handed to
`textureLoader.load` so far. -/
structure Loader where
  material : Material
  textureLoaded : Bool
  requested : List Nat
  deriving DecidableEq

/-- The material and flag of `createMoon` just before `tryLoadTexture()`. -/
def initialLoader : Loader :=
  ⟨⟨some .proceduralTexture, some .normalMap, some .roughnessMap⟩, false, []⟩

/-- The function `tryLoadTexture`; `succeeds i` tells whether the load of
source `i` ends in its success callback (otherwise in its error callback). -/
def tryLoadTexture (succeeds : Nat → Bool) (urlIndex : Nat) (st : Loader) : Loader :=
  if h : urlIndex ≥ moonTextureUrls.length || st.textureLoaded then st
  else
    have hlt : urlIndex < moonTextureUrls.length := by
      simp only [Bool.or_eq_true, decide_eq_true_eq, not_or, not_le] at h
      exact h.1
    let st1 := { st with requested := st.requested ++ [urlIndex] }
    if succeeds urlIndex then
      { st1 with
        material := ⟨some (.loaded moonTextureUrls[urlIndex]), some .normalMap,
          some .roughnessMap⟩
        textureLoaded := true }
    else tryLoadTexture succeeds (urlIndex + 1) st1
termination_by moonTextureUrls.length - urlIndex
decreasing_by
  simp only [Bool.or_eq_true, decide_eq_true_eq, not_or, not_le] at h
  omega

/-! ## The scene effect and the React life cycle -/

/-- The random draws consumed by one run of the scene effect. -/
structure Draws where
  /-- Values of `Math.random()` inside `createMoonHoles`. -/
  moon : Nat → ℝ
  /-- Values of `Math.random()` inside `createTerrainFeatures`. -/
  terrain : Nat → ℝ

/-- Assignment to `terrainGroup.visible` guarded by `if (terrainGroup)`. -/
def setTerrainVisible (s : Scene) (v : Bool) : Scene :=
  match s.terrainVisible with
  | some _ => { s with terrainVisible := some v }
  | none => s

/-- The body of the scene effect (the `useEffect` with dependencies
`[isFirstPerson, isMobile]`), run with the mount point present: fresh closure
variables, scene construction, the initial `setupOrbitControls`, the first
call of `animate`, the resize listener and the mode branch. -/
def sceneEffect (isFirstPerson isMobile : Bool) (d : Draws) (f : Frame) (w : Scene) : Scene :=
  let s0 : Scene := { w with
    isFirstPerson := isFirstPerson
    isMobile := isMobile
    canvas := w.canvas + 1
    controls := none
    pointerLockControls := none
    terrainVisible := none
    moonRotationY := 0
    cameraPosition := Vec3.zero
    cameraLookAt := ⟨0, 0, -1⟩
    moveState := ⟨false, false, false, false, false⟩
    velocity := Vec3.zero
    jumpState := ⟨0, true⟩
    direction := Vec3.zero
    terrainPositions := []
    moonVertices := []
    firstPersonCleanup := none
    resizeListener := none }
  let s1 : Scene := { s0 with moonVertices := createMoonHoles d.moon (sphereGeometry moonRadius 64 64) }
  let s2 : Scene := { s1 with
    terrainPositions := createTerrainFeatures d.terrain
    terrainVisible := some false }
  let r := setupOrbitControls s2
  let s3 : Scene := { r.1 with orbitCleanup := some r.2 }
  let s4 := animate f s3
  let handleResize : Listener := ⟨.window, .resize, .handleResize, s4.nextId⟩
  let s5 := addListener handleResize
    { s4 with nextId := s4.nextId + 1, resizeListener := some handleResize }
  if isFirstPerson then
    let s6 : Scene := match s5.firstPersonCleanup with
      | some c => { runCleanup c s5 with firstPersonCleanup := none }
      | none => s5
    let s7 : Scene := match s6.orbitCleanup with
      | some c => { runCleanup c s6 with orbitCleanup := none }
      | none => s6
    let r1 := setupFirstPersonControls s7
    setTerrainVisible { r1.1 with firstPersonCleanup := some r1.2 } true
  else
    let s6 : Scene := match s5.firstPersonCleanup with
      | some c => { runCleanup c s5 with firstPersonCleanup := none }
      | none => s5
    let s7 : Scene := match s6.pointerLockControls with
      | some p =>
        { s6 with connected := s6.connected.erase (ControlKind.pointerLock, p)
                  pointerLockControls := none }
      | none => s6
    let s8 : Scene := if s7.pointerLockElement = some s7.canvas then
        { s7 with pointerLockElement := none }
      else s7
    let s9 : Scene := match s8.orbitCleanup with
      | some c => runCleanup c s8
      | none => s8
    let r1 := setupOrbitControls s9
    setTerrainVisible { r1.1 with orbitCleanup := some r1.2 } false

/-- The teardown callback returned by the scene effect. -/
def sceneEffectCleanup (s : Scene) : Scene :=
  let s1 : Scene := match s.resizeListener with
    | some l => removeListener l s
    | none => s
  let s2 : Scene := match s1.firstPersonCleanup with
    | some c => runCleanup c s1
    | none => s1
  let s3 : Scene := match s2.controls with
    | some c => { s2 with connected := s2.connected.erase (ControlKind.orbit, c.id) }
    | none => s2
  let s4 : Scene := match s3.pointerLockControls with
    | some p => { s3 with connected := s3.connected.erase (ControlKind.pointerLock, p) }
    | none => s3
  match s4.orbitCleanup with
  | some c => { runCleanup c s4 with orbitCleanup := none }
  | none => s4

/-- The page before the component mounts: nothing registered, no globals. -/
def emptyPage : Scene where
  isFirstPerson := false
  isMobile := false
  listeners := []
  connected := []
  nextId := 0
  canvas := 0
  pointerLockElement := none
  orbitCleanup := none
  toggleFirstPersonMode := none
  mobileMoveState := none
  mobileJumpState := none
  mobileTouchRotation := none
  controls := none
  pointerLockControls := none
  terrainVisible := none
  moonRotationY := 0
  cameraPosition := Vec3.zero
  cameraLookAt := ⟨0, 0, -1⟩
  moveState := ⟨false, false, false, false, false⟩
  velocity := Vec3.zero
  jumpState := ⟨0, true⟩
  direction := Vec3.zero
  terrainPositions := []
  moonVertices := []
  firstPersonCleanup := none
  resizeListener := none
  joystickPosition := ⟨0, 0⟩
  isJoystickActive := false
  joystickKnob := none
  lastTouch := ⟨0, 0⟩
  touchStartRef := none
  touchMoveRef := none

/-- First render of `MoonScene` (`isFirstPerson = false`, `isMobile = false`):
the device-detection effect registers `checkMobile`, the scene effect runs,
the toggle effect publishes `window.toggleFirstPersonMode`. -/
def mount (d : Draws) (f : Frame) : Scene :=
  let checkMobile : Listener := ⟨.window, .resize, .checkMobile, 0⟩
  let w := addListener checkMobile { emptyPage with nextId := 1 }
  { sceneEffect false false d f w with toggleFirstPersonMode := some false }

/-- Re-render after `setIsFirstPerson(v)`: when the value changes, the scene
effect and the toggle effect are torn down and run again; the joystick knob is
mounted exactly in mobile first-person renders. -/
def setIsFirstPerson (v : Bool) (d : Draws) (f : Frame) (s : Scene) : Scene :=
  if v = s.isFirstPerson then s
  else
    let s1 := { sceneEffectCleanup s with toggleFirstPersonMode := none }
    let s2 := { s1 with
      joystickKnob := if s.isMobile && v then some ⟨0, 0⟩ else none }
    { sceneEffect v s.isMobile d f s2 with toggleFirstPersonMode := some v }

/-- Re-render after `setIsMobile(v)`: when the value changes, the scene effect
is torn down and run again. -/
def setIsMobile (v : Bool) (d : Draws) (f : Frame) (s : Scene) : Scene :=
  if v = s.isMobile then s
  else
    let s1 := sceneEffectCleanup s
    let s2 := { s1 with
      joystickKnob := if v && s.isFirstPerson then some ⟨0, 0⟩ else none }
    sceneEffect s.isFirstPerson v d f s2

/-- The Orbit state the page settles in after loading on a desktop
(`mobile = false`) or on a mobile device (`mobile = true`, where
`checkMobile` sets `isMobile` and the scene effect runs a second time). -/
def loadPage (mobile : Bool) (d : Draws) (f : Frame) : Scene :=
  setIsMobile mobile d f (mount d f)

/-! ## Runs of Walk-mode ticks -/

/-- Overwrite the four directional flags of both adapters. -/
def setDirectionalFlags (m : MobileMoveState) (s : Scene) : Scene :=
  { s with
    moveState := ⟨m.forward, m.backward, m.left, m.right, s.moveState.jump⟩
    mobileMoveState := s.mobileMoveState.map fun _ => m }

/-- A run of ticks, each preceded by a choice of the directional flags. -/
def runTicks (s : Scene) : List (MobileMoveState × Frame) → Scene
  | [] => s
  | (m, f) :: rest => runTicks (animate f (setDirectionalFlags m s)) rest

/-- The horizontal speed `sqrt(velocity.x^2 + velocity.z^2)`. -/
def horizontalSpeed (s : Scene) : ℝ :=
  Real.sqrt (s.velocity.x ^ 2 + s.velocity.z ^ 2)

/-- The state of a first-person tick at the moment of the grounding probe:
after the movement step and the gravity step. -/
def probeState (f : Frame) (s : Scene) : Scene :=
  gravityStep (moveStep f (setControlsEnabled s false))

/-- The result of the grounding probe cast from the camera position of `s`:
origin 100 units above the camera along the outward radial, pointing inward. -/
def groundingProbe (f : Frame) (s : Scene) : Option Hit :=
  f.intersect (s.cameraPosition.add (s.cameraPosition.normalize.multiplyScalar 100))
    s.cameraPosition.normalize.negate

/-- A jump request: the Space keydown of the desktop adapter, the touch of the
jump button on the mobile adapter. -/
def jumpRequest (s : Scene) : Scene :=
  if s.isMobile then handleJump s else onKeyDown .Space s

/-- Walk mode with its adapter installed: the captured mode is first-person
and, on a mobile device, `window.mobileJumpState` has been initialised. -/
def walkReady (s : Scene) : Bool :=
  s.isFirstPerson && (!s.isMobile || s.mobileJumpState.isSome)

/-- A desktop Walk scene standing at the canonical pose on the pole. -/
def walkSample : Scene :=
  { emptyPage with isFirstPerson := true, cameraPosition := ⟨0, moonRadius + eyeHeight, 0⟩ }

/-- A frame whose grounding probe hits the ideal sphere under the pole. -/
def poleFrame : Frame :=
  ⟨true, ⟨0, 0, 1⟩, ⟨1, 0, 0⟩, fun _ _ => some ⟨⟨0, moonRadius, 0⟩, none⟩⟩

/-- The part of a scene that the frame callback never writes, apart from the
flag `controls.enabled`: modes, listeners, controls, cleanups, visibility. -/
structure Wiring where
  isFirstPerson : Bool
  isMobile : Bool
  listeners : List Listener
  connected : List (ControlKind × Nat)
  nextId : Nat
  canvas : Nat
  pointerLockElement : Option Nat
  orbitCleanup : Option (List Listener)
  toggleFirstPersonMode : Option Bool
  controlsId : Option Nat
  pointerLockControls : Option Nat
  terrainVisible : Option Bool
  firstPersonCleanup : Option (List Listener)
  resizeListener : Option Listener
  deriving DecidableEq

/-- The wiring of a scene. -/
def Scene.wiring (s : Scene) : Wiring :=
  { isFirstPerson := s.isFirstPerson
    isMobile := s.isMobile
    listeners := s.listeners
    connected := s.connected
    nextId := s.nextId
    canvas := s.canvas
    pointerLockElement := s.pointerLockElement
    orbitCleanup := s.orbitCleanup
    toggleFirstPersonMode := s.toggleFirstPersonMode
    controlsId := s.controls.map fun c => c.id
    pointerLockControls := s.pointerLockControls
    terrainVisible := s.terrainVisible
    firstPersonCleanup := s.firstPersonCleanup
    resizeListener := s.resizeListener }

/-- The wiring of an Orbit-mode scene as the scene effect leaves it: three
listeners (`checkMobile`, the current `handleResize`, the current orbit
`handleClick` on the current canvas), the teardown handles pointing at them,
the orbit controls as the only connected control object, no pointer lock, the
terrain group hidden. -/
def OrbitShape (s : Scene) : Prop :=
  ∃ i r c k : Nat,
    s.isFirstPerson = false
    ∧ s.pointerLockElement = none
    ∧ s.listeners = [⟨.window, .resize, .checkMobile, i⟩, ⟨.window, .resize, .handleResize, r⟩,
        ⟨.canvas s.canvas, .click, .orbitHandleClick, c⟩]
    ∧ s.resizeListener = some ⟨.window, .resize, .handleResize, r⟩
    ∧ s.orbitCleanup = some [⟨.canvas s.canvas, .click, .orbitHandleClick, c⟩]
    ∧ s.firstPersonCleanup = none
    ∧ s.controls.map (fun o => o.id) = some k
    ∧ s.connected = [(ControlKind.orbit, k)]
    ∧ s.pointerLockControls = none
    ∧ s.terrainVisible = some false

/-- A stream of random draws, every draw equal to one half. -/
def sampleDraws : Draws := ⟨fun _ => 1 / 2, fun _ => 1 / 2⟩

/-! ## Touch look handlers of the mobile adapter -/

/-- The constant `rotationSpeed` of the touch handlers. -/
def rotationSpeed : ℝ := 0.002

/-- The handler `onTouchStart`; `touches` are the client coordinates of
`e.touches`. -/
def onTouchStart (touches : List Offset) (s : Scene) : Scene :=
  match touches with
  | [t] => { s with lastTouch := ⟨t.x, t.y⟩, touchStartRef := some ⟨t.x, t.y⟩ }
  | _ => s

/-- The handler `onTouchMove`: with one finger down after a touch start, the
yaw and the pitch take the scaled deltas and the pitch is clamped. -/
def onTouchMove (touches : List Offset) (s : Scene) : Scene :=
  match touches, s.touchStartRef, s.mobileTouchRotation with
  | [t], some _, some r =>
    let deltaX := t.x - s.lastTouch.x
    let deltaY := t.y - s.lastTouch.y
    let yaw := r.y - deltaX * rotationSpeed
    let pitch := r.x - deltaY * rotationSpeed
    let pitch1 := max (-Real.pi / 2) (min (Real.pi / 2) pitch)
    { s with
      mobileTouchRotation := some ⟨pitch1, yaw⟩
      lastTouch := ⟨t.x, t.y⟩
      touchMoveRef := some ⟨deltaX, deltaY⟩ }
  | _, _, _ => s

/-- The handler `onTouchEnd` (also registered for `touchcancel`). -/
def onTouchEnd (s : Scene) : Scene :=
  { s with touchStartRef := none, touchMoveRef := none }

/-- A run of touch-move events, each with its list of touches. -/
def runTouchMoves (s : Scene) : List (List Offset) → Scene
  | [] => s
  | e :: rest => runTouchMoves (onTouchMove e s) rest

/-- The values `deltaX` computed by a run of single-finger touch-move events
at the given points, `last` being `lastTouch.x` before the run. -/
def touchDeltasX (last : ℝ) : List Offset → List ℝ
  | [] => []
  | p :: rest => (p.x - last) :: touchDeltasX p.x rest

/-- The pitch `touchRotation.x`, zero while the object does not exist. -/
def touchPitch (s : Scene) : ℝ :=
  match s.mobileTouchRotation with
  | some r => r.x
  | none => 0

/-- The yaw `touchRotation.y`, zero while the object does not exist. -/
def touchYaw (s : Scene) : ℝ :=
  match s.mobileTouchRotation with
  | some r => r.y
  | none => 0

/-! ## The component, the shell and clicks -/

/-- The page as seen by React: the scene, the value handed to the scene's
`setIsFirstPerson` since the last render, the state `isFirstPerson` of the
shell `App`, and the payloads of the calls of `onModeChange` so far. -/
structure App where
  scene : Scene
  pendingIsFirstPerson : Option Bool
  shellIsFirstPerson : Bool
  notifications : List Bool

/-- The shell's `handleModeChange`. -/
def handleModeChange (mode : Bool) (a : App) : App :=
  { a with shellIsFirstPerson := mode }

/-- A closure `toggleMode` that captured the mode `captured`: it schedules
`setIsFirstPerson(!captured)` and calls `onModeChange(!captured)`. -/
def toggleMode (captured : Bool) (a : App) : App :=
  handleModeChange (!captured)
    { a with
      pendingIsFirstPerson := some (!captured)
      notifications := a.notifications ++ [!captured] }

/-- The guarded call `if (window.toggleFirstPersonMode) window.toggleFirstPersonMode()`. -/
def callToggleFirstPersonMode (a : App) : App :=
  match a.scene.toggleFirstPersonMode with
  | some captured => toggleMode captured a
  | none => a

/-- React renders after the event: a scheduled `setIsFirstPerson` takes effect. -/
def render (d : Draws) (f : Frame) (a : App) : App :=
  match a.pendingIsFirstPerson with
  | some v => { a with scene := setIsFirstPerson v d f a.scene, pendingIsFirstPerson := none }
  | none => a

/-- What the click ray of a click event intersects. -/
structure ClickRay where
  /-- The ray intersects the moon mesh. -/
  hitsMoon : Bool
  /-- The ray intersects a mesh of the terrain group. -/
  hitsTerrain : Bool

/-- The closure `handleClick` of `setupOrbitControls`. -/
def orbitHandleClick (ray : ClickRay) (a : App) : App :=
  if a.scene.isFirstPerson then a
  else if ray.hitsMoon then callToggleFirstPersonMode a
  else a

/-- The closure `handleSkyClick`: the terrain meshes are tested only while the
terrain group is visible. -/
def handleSkyClick (ray : ClickRay) (a : App) : App :=
  if !a.scene.isFirstPerson then a
  else
    let terrainTested := a.scene.terrainVisible == some true
    if ray.hitsMoon || (terrainTested && ray.hitsTerrain) then a
    else callToggleFirstPersonMode a

/-- The click listener behind a registered closure; the pointer-lock
`handleClick` only requests the pointer lock, whose outcome reaches the scene
through `Frame.isLocked`. -/
def runClickListener (ray : ClickRay) (a : App) (l : Listener) : App :=
  match l.fn with
  | .orbitHandleClick => orbitHandleClick ray a
  | .handleSkyClick => handleSkyClick ray a
  | _ => a

/-- A click on the canvas: every click listener registered on the current
canvas runs, in registration order, then React renders. -/
def canvasClick (ray : ClickRay) (d : Draws) (f : Frame) (a : App) : App :=
  render d f
    ((a.scene.listeners.filter fun l =>
        decide (l.target = Target.canvas a.scene.canvas) && decide (l.type = EventType.click)).foldl
      (runClickListener ray) a)

/-- A click on the button `Orbit View`, rendered only in first-person mode,
whose handler is the `toggleMode` of the current render. -/
def orbitViewButtonClick (d : Draws) (f : Frame) (a : App) : App :=
  if a.scene.isFirstPerson then render d f (toggleMode a.scene.isFirstPerson a) else a

/-- One invocation of the published `toggleMode` followed by the render it
schedules. -/
def toggleAndRender (d : Draws) (f : Frame) (a : App) : App :=
  render d f (callToggleFirstPersonMode a)

/-- The application after loading the page. -/
def loadApp (mobile : Bool) (d : Draws) (f : Frame) : App :=
  ⟨loadPage mobile d f, none, false, []⟩

/-- A run of toggles, each with the draws and the frame of its render. -/
def runToggles (a : App) : List (Draws × Frame) → App
  | [] => a
  | (d, f) :: rest => runToggles (toggleAndRender d f a) rest

/-! ## Desktop event sequences -/

/-- An event of the desktop adapter, or a frame. -/
inductive DesktopEvent
  | keyDown (code : KeyCode)
  | keyUp (code : KeyCode)
  | tick (f : Frame)

/-- The effect of one desktop event. -/
def desktopStep (s : Scene) : DesktopEvent → Scene
  | .keyDown code => onKeyDown code s
  | .keyUp code => onKeyUp code s
  | .tick f => animate f s

/-- A run of desktop events. -/
def runDesktop (s : Scene) (events : List DesktopEvent) : Scene :=
  events.foldl desktopStep s

/-! ## Helpers of the statements -/

/-- The target of the terrain-following blend: the hit point raised by
`eyeHeight` along the hit normal (the face normal, or the outward radial of the
camera when the hit has no face). -/
def groundTarget (s : Scene) (hit : Hit) : Vec3 :=
  hit.point.add
    ((match hit.faceNormal with
      | some n => n
      | none => s.cameraPosition.normalize).multiplyScalar eyeHeight)

/-- The landing condition of the grounding step. -/
def landingCondition (s : Scene) (hit : Hit) : Prop :=
  s.cameraPosition.distanceTo hit.point ≤ eyeHeight + 0.5 ∧ activeVerticalVelocity s ≤ 0

/-- Whether the movement block of a tick runs: `isLocked || isMobile`. -/
def movementEnabled (f : Frame) (s : Scene) : Bool :=
  (match s.pointerLockControls with
    | some _ => f.isLocked
    | none => true) || s.isMobile

/-- The per-axis clamp of the horizontal velocity. -/
def clampSpeed (v : ℝ) : ℝ := max (-moveSpeed) (min moveSpeed v)

/-- The desired direction `normalize(right - left, forward - backward)`, zero
when the net intent is zero. -/
def desiredDirection (m : MobileMoveState) : ℝ × ℝ :=
  let dx := b2r m.right - b2r m.left
  let dz := b2r m.forward - b2r m.backward
  let n := Real.sqrt (dx * dx + dz * dz)
  if n = 0 then (0, 0) else (dx / n, dz / n)

/-- A frame in which `raycaster.intersectObjects` returns the empty list: the
case `intersects.length > 0` false, which the branch commented
`Fallback to sphere surface` of the grounding step is written for. -/
def missFrame : Frame :=
  ⟨true, ⟨0, 0, 1⟩, ⟨1, 0, 0⟩, fun _ _ => none⟩

/-- A desktop observer falling at the canonical height: airborne with a
downward vertical velocity. -/
def fallingSample : Scene :=
  { walkSample with jumpState := ⟨-0.05, false⟩ }

/-- A second stream of random draws, every draw equal to one quarter. -/
def otherDraws : Draws := ⟨fun _ => 1 / 4, fun _ => 1 / 4⟩

/-! ## The points passed through by setups and transitions -/

/-- The scenes after each `removeEventListener` of a teardown callback. -/
def runCleanupTrace (c : List Listener) (s : Scene) : List Scene :=
  match c with
  | [] => []
  | l :: rest => removeListener l s :: runCleanupTrace rest (removeListener l s)

/-- The scenes after each call of an optional teardown callback. -/
def optionalCleanupTrace (c : Option (List Listener)) (s : Scene) : List Scene :=
  match c with
  | some c => runCleanupTrace c s
  | none => []

/-- The scenes after each statement of `setupOrbitControls`, ending with the
scene it returns in. -/
def setupOrbitControlsTrace (s : Scene) : List Scene :=
  let s1 : Scene := match s.pointerLockControls with
    | some p => { s with connected := s.connected.erase (ControlKind.pointerLock, p) }
    | none => s
  let s2 : Scene := { s1 with pointerLockControls := none }
  let s3 : Scene := match s2.controls with
    | some c => { s2 with connected := s2.connected.erase (ControlKind.orbit, c.id) }
    | none => s2
  let c : OrbitControls := ⟨s3.nextId, true, true, 600, 5000⟩
  let s4 : Scene := { s3 with
    controls := some c
    connected := s3.connected ++ [(ControlKind.orbit, c.id)]
    nextId := s3.nextId + 1 }
  let s5 : Scene := { s4 with cameraPosition := ⟨0, 200, 800⟩, cameraLookAt := ⟨0, 0, 0⟩ }
  [s1, s2, s3, s4, s5, (setupOrbitControls s).1]

/-- The scenes after each statement of `setupFirstPersonControls`, ending with
the scene it returns in. -/
def setupFirstPersonControlsTrace (s : Scene) : List Scene :=
  let s1 : Scene := match s.controls with
    | some c => { s with connected := s.connected.erase (ControlKind.orbit, c.id) }
    | none => s
  let s2 : Scene := { s1 with controls := none }
  let position : Vec3 := ⟨0, moonRadius + eyeHeight, 0⟩
  let forwardDirection : Vec3 := ⟨0, 0, 1⟩
  let s3 : Scene := { s2 with
    cameraPosition := position
    cameraLookAt := position.add (forwardDirection.multiplyScalar 10)
    velocity := ⟨0, 0, 0⟩
    jumpState := ⟨0, true⟩
    moveState := ⟨false, false, false, false, false⟩ }
  let s4 : Scene := if s3.isMobile then
      { s3 with
        mobileMoveState := some ⟨false, false, false, false⟩
        mobileJumpState := some ⟨false, 0, true⟩ }
    else s3
  let c := s4.canvas
  let n := s4.nextId
  let adapter : List Scene :=
    if s4.isMobile then
      let t1 := addListener ⟨.canvas c, .touchstart, .onTouchStart, n⟩ s4
      let t2 := addListener ⟨.canvas c, .touchmove, .onTouchMove, n + 1⟩ t1
      let t3 := addListener ⟨.canvas c, .touchend, .onTouchEnd, n + 2⟩ t2
      let t4 := addListener ⟨.canvas c, .touchcancel, .onTouchEnd, n + 2⟩ t3
      let t5 : Scene :=
        { t4 with nextId := n + 3, mobileTouchRotation := some ⟨0, 0⟩, lastTouch := ⟨0, 0⟩ }
      let t6 := addListener ⟨.canvas c, .click, .handleSkyClick, n + 3⟩ { t5 with nextId := n + 4 }
      [t1, t2, t3, t4, t5, t6]
    else
      let p1 : Scene := { s4 with
        pointerLockControls := some n
        connected := s4.connected ++ [(ControlKind.pointerLock, n)]
        nextId := n + 2 }
      let p2 := addListener ⟨.canvas c, .click, .pointerLockHandleClick, n + 1⟩ p1
      let p3 := addListener ⟨.canvas c, .click, .handleSkyClick, n + 2⟩ { p2 with nextId := n + 3 }
      let p4 := addListener ⟨.document, .keydown, .onKeyDown, n + 3⟩ { p3 with nextId := n + 5 }
      [p1, p2, p3, p4]
  [s1, s2, s3, s4] ++ adapter ++ [(setupFirstPersonControls s).1]

/-- The scenes after each statement of the scene effect that touches the
controls, the listeners or the visibility, ending with the scene the effect
leaves. -/
def sceneEffectTrace (isFirstPerson isMobile : Bool) (d : Draws) (f : Frame) (w : Scene) :
    List Scene :=
  let s0 : Scene := { w with
    isFirstPerson := isFirstPerson
    isMobile := isMobile
    canvas := w.canvas + 1
    controls := none
    pointerLockControls := none
    terrainVisible := none
    moonRotationY := 0
    cameraPosition := Vec3.zero
    cameraLookAt := ⟨0, 0, -1⟩
    moveState := ⟨false, false, false, false, false⟩
    velocity := Vec3.zero
    jumpState := ⟨0, true⟩
    direction := Vec3.zero
    terrainPositions := []
    moonVertices := []
    firstPersonCleanup := none
    resizeListener := none }
  let s1 : Scene :=
    { s0 with moonVertices := createMoonHoles d.moon (sphereGeometry moonRadius 64 64) }
  let s2 : Scene := { s1 with
    terrainPositions := createTerrainFeatures d.terrain
    terrainVisible := some false }
  let r := setupOrbitControls s2
  let s3 : Scene := { r.1 with orbitCleanup := some r.2 }
  let s4 : Scene := animate f s3
  let handleResize : Listener := ⟨.window, .resize, .handleResize, s4.nextId⟩
  let s5 : Scene := addListener handleResize
    { s4 with nextId := s4.nextId + 1, resizeListener := some handleResize }
  let opening : List Scene := [s0, s1, s2] ++ setupOrbitControlsTrace s2 ++ [s3, s4, s5]
  if isFirstPerson then
    let s6 : Scene := match s5.firstPersonCleanup with
      | some c => { runCleanup c s5 with firstPersonCleanup := none }
      | none => s5
    let s7 : Scene := match s6.orbitCleanup with
      | some c => { runCleanup c s6 with orbitCleanup := none }
      | none => s6
    opening ++ optionalCleanupTrace s5.firstPersonCleanup s5 ++ [s6]
      ++ optionalCleanupTrace s6.orbitCleanup s6 ++ [s7]
      ++ setupFirstPersonControlsTrace s7
      ++ [sceneEffect isFirstPerson isMobile d f w]
  else
    let s6 : Scene := match s5.firstPersonCleanup with
      | some c => { runCleanup c s5 with firstPersonCleanup := none }
      | none => s5
    let s7a : Scene := match s6.pointerLockControls with
      | some p => { s6 with connected := s6.connected.erase (ControlKind.pointerLock, p) }
      | none => s6
    let s7 : Scene := { s7a with pointerLockControls := none }
    let s8 : Scene := if s7.pointerLockElement = some s7.canvas then
        { s7 with pointerLockElement := none }
      else s7
    let s9 : Scene := match s8.orbitCleanup with
      | some c => runCleanup c s8
      | none => s8
    opening ++ optionalCleanupTrace s5.firstPersonCleanup s5 ++ [s6, s7a, s7, s8]
      ++ optionalCleanupTrace s8.orbitCleanup s8 ++ [s9]
      ++ setupOrbitControlsTrace s9
      ++ [sceneEffect isFirstPerson isMobile d f w]

/-- The scenes after each statement of the teardown callback of the scene
effect, ending with the scene it leaves. -/
def sceneEffectCleanupTrace (s : Scene) : List Scene :=
  let s1 : Scene := match s.resizeListener with
    | some l => removeListener l s
    | none => s
  let s2 : Scene := match s1.firstPersonCleanup with
    | some c => runCleanup c s1
    | none => s1
  let s3 : Scene := match s2.controls with
    | some c => { s2 with connected := s2.connected.erase (ControlKind.orbit, c.id) }
    | none => s2
  let s4 : Scene := match s3.pointerLockControls with
    | some p => { s3 with connected := s3.connected.erase (ControlKind.pointerLock, p) }
    | none => s3
  [s1] ++ optionalCleanupTrace s1.firstPersonCleanup s1 ++ [s2, s3, s4]
    ++ optionalCleanupTrace s4.orbitCleanup s4 ++ [sceneEffectCleanup s]

/-- The scenes passed through by the re-render after `setIsFirstPerson(v)`. -/
def setIsFirstPersonTrace (v : Bool) (d : Draws) (f : Frame) (s : Scene) : List Scene :=
  if v = s.isFirstPerson then [s]
  else
    let s1 : Scene := { sceneEffectCleanup s with toggleFirstPersonMode := none }
    let s2 : Scene := { s1 with
      joystickKnob := if s.isMobile && v then some ⟨0, 0⟩ else none }
    sceneEffectCleanupTrace s ++ [s1, s2] ++ sceneEffectTrace v s.isMobile d f s2
      ++ [setIsFirstPerson v d f s]

/-- The scenes passed through by the re-render after `setIsMobile(v)`. -/
def setIsMobileTrace (v : Bool) (d : Draws) (f : Frame) (s : Scene) : List Scene :=
  if v = s.isMobile then [s]
  else
    let s1 := sceneEffectCleanup s
    let s2 : Scene := { s1 with
      joystickKnob := if v && s.isFirstPerson then some ⟨0, 0⟩ else none }
    sceneEffectCleanupTrace s ++ [s2] ++ sceneEffectTrace s.isFirstPerson v d f s2
      ++ [setIsMobile v d f s]

/-- The scenes passed through by the first render. -/
def mountTrace (d : Draws) (f : Frame) : List Scene :=
  let checkMobile : Listener := ⟨.window, .resize, .checkMobile, 0⟩
  let w := addListener checkMobile { emptyPage with nextId := 1 }
  [emptyPage, w] ++ sceneEffectTrace false false d f w ++ [mount d f]

/-- A listener of the touch adapter. -/
def isTouchListener (l : Listener) : Bool :=
  decide (l.fn = HandlerFn.onTouchStart) || decide (l.fn = HandlerFn.onTouchMove)
    || decide (l.fn = HandlerFn.onTouchEnd)

/-- A listener of the desktop adapter (keyboard and pointer lock). -/
def isDesktopListener (l : Listener) : Bool :=
  decide (l.fn = HandlerFn.pointerLockHandleClick) || decide (l.fn = HandlerFn.onKeyDown)
    || decide (l.fn = HandlerFn.onKeyUp)

/-- A listener attached by the Walk setup. -/
def isWalkListener (l : Listener) : Bool :=
  isTouchListener l || isDesktopListener l || decide (l.fn = HandlerFn.handleSkyClick)

/-- A listener attached by the Orbit setup. -/
def isOrbitListener (l : Listener) : Bool :=
  decide (l.fn = HandlerFn.orbitHandleClick)

/-- At most one camera-control scheme: the two control variables are not both
set and at most one control object has its listeners attached. -/
def oneSchemeLive (s : Scene) : Bool :=
  !(s.controls.isSome && s.pointerLockControls.isSome) && decide (s.connected.length ≤ 1)

/-- At most one Walk input adapter, the one of the device class: touch
listeners only on a mobile device, desktop listeners only otherwise. -/
def oneAdapter (s : Scene) : Bool :=
  (!s.listeners.any isTouchListener || s.isMobile)
    && (!s.listeners.any isDesktopListener || !s.isMobile)

/-- Listeners of the two modes never coexist. -/
def modesSeparated (s : Scene) : Bool :=
  !(s.listeners.any isOrbitListener && s.listeners.any isWalkListener)

/-- The three guarantees together. -/
def wiringInvariant (s : Scene) : Bool :=
  oneSchemeLive s && oneAdapter s && modesSeparated s

/-- The wiring of a Walk-mode scene as the scene effect leaves it: no orbit
controls, the terrain group visible, and the adapter of the device class
(touch listeners on a mobile device; pointer-lock controls, their click
listener and the keyboard listeners otherwise) next to `handleSkyClick`. -/
def WalkShape (s : Scene) : Prop :=
  ∃ i r a b c e k : Nat,
    s.isFirstPerson = true
    ∧ s.pointerLockElement = none
    ∧ s.controls = none
    ∧ s.orbitCleanup = none
    ∧ s.terrainVisible = some true
    ∧ s.resizeListener = some ⟨.window, .resize, .handleResize, r⟩
    ∧ ((s.isMobile = true
        ∧ s.pointerLockControls = none
        ∧ s.connected = []
        ∧ s.listeners = [⟨.window, .resize, .checkMobile, i⟩, ⟨.window, .resize, .handleResize, r⟩,
            ⟨.canvas s.canvas, .touchstart, .onTouchStart, a⟩,
            ⟨.canvas s.canvas, .touchmove, .onTouchMove, b⟩,
            ⟨.canvas s.canvas, .touchend, .onTouchEnd, c⟩,
            ⟨.canvas s.canvas, .touchcancel, .onTouchEnd, c⟩,
            ⟨.canvas s.canvas, .click, .handleSkyClick, e⟩]
        ∧ s.firstPersonCleanup = some [⟨.canvas s.canvas, .touchstart, .onTouchStart, a⟩,
            ⟨.canvas s.canvas, .touchmove, .onTouchMove, b⟩,
            ⟨.canvas s.canvas, .touchend, .onTouchEnd, c⟩,
            ⟨.canvas s.canvas, .touchcancel, .onTouchEnd, c⟩,
            ⟨.canvas s.canvas, .click, .handleSkyClick, e⟩])
      ∨ (s.isMobile = false
        ∧ s.pointerLockControls = some k
        ∧ s.connected = [(ControlKind.pointerLock, k)]
        ∧ s.listeners = [⟨.window, .resize, .checkMobile, i⟩, ⟨.window, .resize, .handleResize, r⟩,
            ⟨.canvas s.canvas, .click, .pointerLockHandleClick, a⟩,
            ⟨.canvas s.canvas, .click, .handleSkyClick, e⟩,
            ⟨.document, .keydown, .onKeyDown, b⟩,
            ⟨.document, .keyup, .onKeyUp, c⟩]
        ∧ s.firstPersonCleanup = some [⟨.canvas s.canvas, .click, .pointerLockHandleClick, a⟩,
            ⟨.canvas s.canvas, .click, .handleSkyClick, e⟩,
            ⟨.document, .keydown, .onKeyDown, b⟩,
            ⟨.document, .keyup, .onKeyUp, c⟩]))

/-- The application between two events: the scene is Orbit-shaped or
Walk-shaped, no render is pending, the published toggle closure captured the
current mode, and the shell records the current mode. -/
def AppReady (a : App) : Prop :=
  (OrbitShape a.scene ∨ WalkShape a.scene)
    ∧ a.pendingIsFirstPerson = none
    ∧ a.scene.toggleFirstPersonMode = some a.scene.isFirstPerson
    ∧ a.shellIsFirstPerson = a.scene.isFirstPerson

/-- The generated surface of a scene: the recorded terrain features and the
vertex positions of the moon geometry. -/
def Scene.surface (s : Scene) : List TerrainPosition × List Vec3 :=
  (s.terrainPositions, s.moonVertices)

/-! ## A held Space key -/

/-- Desktop Walk mode as entered from a freshly loaded page. -/
def desktopWalk : Scene :=
  setIsFirstPerson true sampleDraws poleFrame (loadPage false sampleDraws poleFrame)

/-- Space pressed and held over 78 frames: the keydown of the press, the
frames, then a keydown of the key auto-repeat; no keyup. -/
def heldSpace : List DesktopEvent :=
  .keyDown .Space :: (List.replicate 78 (.tick poleFrame) ++ [.keyDown .Space])

/-- A desktop observer in flight above the pole at height `y` with vertical
velocity `v`: no horizontal velocity, no directional key down, jump flag set. -/
def HeldJump (s : Scene) (y v : ℝ) : Prop :=
  s.isFirstPerson = true ∧ s.isMobile = false ∧ s.velocity.x = 0 ∧ s.velocity.z = 0
    ∧ s.moveState = ⟨false, false, false, false, true⟩
    ∧ s.cameraPosition = ⟨0, y, 0⟩ ∧ s.jumpState = ⟨v, false⟩

/-- A frame whose grounding probe hits a terrain point half a unit above the
ideal sphere under the pole. -/
def bumpFrame : Frame :=
  ⟨true, ⟨0, 0, 1⟩, ⟨1, 0, 0⟩, fun _ _ => some ⟨⟨0, moonRadius + 0.5, 0⟩, none⟩⟩

/-- The vector `offset` of the surface-noise loop of `createMoonHoles`: the
normalised vertex scaled by the noise value. -/
def noiseOffset (v : Vec3) : Vec3 :=
  let noise := (Real.sin (v.x * 0.1) * Real.cos (v.y * 0.1) * Real.sin (v.z * 0.1)) * 0.3
  let direction := v.normalize
  direction.multiplyScalar noise

/-- The value of `depth` in the crater loop before the rim statement:
quadratic falloff times the organic variation. -/
def craterBaseDepth (vertex : Vec3) (crater : Crater) (distance : ℝ) : ℝ :=
  let factor := 1 - distance / crater.radius
  let depth0 := factor * factor * crater.depth
  let angle := atan2 (vertex.z - crater.pos.z) (vertex.x - crater.pos.x)
  let organicVariation := Real.sin (angle * 4) * 0.3 + Real.cos (angle * 6) * 0.2
  depth0 * (1 + organicVariation * factor)

/-- The rim term `Math.sin((factor - 0.7) * Math.PI / 0.25) * 0.5` subtracted
from the depth by the rim statement. -/
def rimElevation (factor : ℝ) : ℝ :=
  Real.sin ((factor - 0.7) * Real.pi / 0.25) * 0.5

/-- An event of Walk mode on either adapter: a jump request or a frame. -/
inductive WalkEvent
  | jump
  | tick (f : Frame)

/-- The effect of one Walk event. -/
def walkStep (s : Scene) : WalkEvent → Scene
  | .jump => jumpRequest s
  | .tick f => animate f s

/-- A run of Walk events. -/
def runWalk (s : Scene) (events : List WalkEvent) : Scene :=
  events.foldl walkStep s

/-- The method `cross` of a `THREE.Vector3` (`crossVectors(a, b)`). -/
def Vec3.cross (a b : Vec3) : Vec3 :=
  ⟨a.y * b.z - a.z * b.y, a.z * b.x - a.x * b.z, a.x * b.y - a.y * b.x⟩

/-- The method `dot` of a `THREE.Vector3`. -/
def Vec3.dot (a b : Vec3) : ℝ := a.x * b.x + a.y * b.y + a.z * b.z

/-- The rotation of an object: the world-space images of its local axes (the
columns of the rotation matrix its quaternion is set from). -/
structure Orientation where
  xAxis : Vec3
  yAxis : Vec3
  zAxis : Vec3

/-- The engine's `Matrix4.lookAt(eye, target, up)`: `z` along `eye - target`
(`(0, 0, 1)` when they coincide), `x = up × z` (with `z` nudged by `0.0001`
when `up` and `z` are parallel), `y = z × x`. -/
def matrixLookAt (eye target up : Vec3) : Orientation :=
  let z0 := eye.sub target
  let z1 : Vec3 := if z0.lengthSq = 0 then { z0 with z := 1 } else z0
  let z2 := z1.normalize
  let x0 := up.cross z2
  let z3 : Vec3 :=
    if x0.lengthSq = 0 then
      (if |up.z| = 1 then { z2 with x := z2.x + 0.0001 }
        else { z2 with z := z2.z + 0.0001 }).normalize
    else z2
  let x1 := if x0.lengthSq = 0 then up.cross z3 else x0
  let x2 := x1.normalize
  ⟨x2, z3.cross x2, z3⟩

/-- The engine's `Object3D.lookAt(target)` for an object that is neither a
camera nor a light and has no parent yet, with the default `up = (0, 1, 0)`:
the rotation is `Matrix4.lookAt(target, position, up)`, which turns the local
`+Z` axis toward the target. -/
def objectLookAt (position target : Vec3) : Orientation :=
  matrixLookAt target position ⟨0, 1, 0⟩

/-- The engine's `Object3D.rotateZ(angle)`: a rotation about the local `Z`
axis, applied after the current rotation. -/
def Orientation.rotateZ (o : Orientation) (angle : ℝ) : Orientation :=
  ⟨(o.xAxis.multiplyScalar (Real.cos angle)).add (o.yAxis.multiplyScalar (Real.sin angle)),
   (o.yAxis.multiplyScalar (Real.cos angle)).sub (o.xAxis.multiplyScalar (Real.sin angle)),
   o.zAxis⟩

/-- The orientation given to a mountain or a hill placed at `position` by
`createTerrainFeatures`: `lookAt(position + direction)` with `direction` the
unit vector from the anchor to the centre, then `rotateZ(spin)`. -/
def featureOrientation (position : Vec3) (spin : ℝ) : Orientation :=
  let direction := (Vec3.zero.sub position).normalize
  (objectLookAt position (position.add direction)).rotateZ spin

/-- An observer in vertical flight: in Walk mode, airborne at distance `r` from
the centre along the unit vector `u`, with vertical velocity `v`, no horizontal
velocity and no directional intent. -/
def InFlight (s : Scene) (u : Vec3) (r v : ℝ) : Prop :=
  s.isFirstPerson = true ∧ s.velocity.x = 0 ∧ s.velocity.z = 0
    ∧ activeMoveState s = ⟨false, false, false, false⟩
    ∧ s.cameraPosition = u.multiplyScalar r
    ∧ activeVerticalVelocity s = v ∧ activeIsGrounded s = false

/-- A desktop observer standing grounded on high terrain, 514.7 from the
centre on the polar axis. -/
def summitSample : Scene :=
  { walkSample with cameraPosition := ⟨0, 514.7, 0⟩ }

/-- A frame whose grounding probe hits the terrain under `summitSample`. -/
def summitFrame : Frame :=
  ⟨true, ⟨0, 0, 1⟩, ⟨1, 0, 0⟩, fun _ _ => some ⟨⟨0, 513, 0⟩, none⟩⟩

end

/-! ## Frame lemmas: what the steps of a tick leave alone -/

@[simp] theorem velocity_setActiveVerticalVelocity (s : Scene) (v : ℝ) :
    (setActiveVerticalVelocity s v).velocity = s.velocity := by
  unfold setActiveVerticalVelocity; split <;> rfl

@[simp] theorem velocity_setActiveIsGrounded (s : Scene) (g : Bool) :
    (setActiveIsGrounded s g).velocity = s.velocity := by
  unfold setActiveIsGrounded; split <;> rfl

@[simp] theorem velocity_clearJumping (s : Scene) :
    (clearJumping s).velocity = s.velocity := by
  unfold clearJumping; split <;> rfl

@[simp] theorem velocity_setControlsEnabled (s : Scene) (e : Bool) :
    (setControlsEnabled s e).velocity = s.velocity := by
  unfold setControlsEnabled; split <;> rfl

@[simp] theorem velocity_gravityStep (s : Scene) :
    (gravityStep s).velocity = s.velocity := by
  unfold gravityStep; split <;> simp

@[simp] theorem velocity_groundingStep (f : Frame) (s : Scene) :
    (groundingStep f s).velocity = s.velocity := by
  unfold groundingStep
  split <;> (repeat (first | split | simp))

@[simp] theorem velocity_ceilingStep (s : Scene) :
    (ceilingStep s).velocity = s.velocity := by
  unfold ceilingStep; split <;> simp

/-! ## Horizontal velocity -/

/-- The sum of squares under the root of `length` is not negative. -/
theorem sumsq_nonneg (a : Vec3) : 0 ≤ a.x * a.x + a.y * a.y + a.z * a.z :=
  add_nonneg (add_nonneg (mul_self_nonneg _) (mul_self_nonneg _)) (mul_self_nonneg _)

/-- A normalised vector has horizontal part of length at most one. -/
theorem normalize_horizontal_le_one (a : Vec3) :
    a.normalize.x ^ 2 + a.normalize.z ^ 2 ≤ 1 := by
  unfold Vec3.normalize Vec3.divideScalar Vec3.multiplyScalar
  by_cases h : a.length = 0
  · have h0 : a.x * a.x + a.y * a.y + a.z * a.z = 0 := by
      have hn := sumsq_nonneg a
      exact (Real.sqrt_eq_zero hn).1 h
    have hx : a.x = 0 := by nlinarith [mul_self_nonneg a.x, mul_self_nonneg a.y, mul_self_nonneg a.z]
    have hz : a.z = 0 := by nlinarith [mul_self_nonneg a.x, mul_self_nonneg a.y, mul_self_nonneg a.z]
    simp [h, hx, hz]
  · have hn := sumsq_nonneg a
    have hl : a.length ^ 2 = a.x * a.x + a.y * a.y + a.z * a.z := by
      unfold Vec3.length
      exact Real.sq_sqrt hn
    have hpos : 0 < a.length ^ 2 := by positivity
    simp only [h, if_false]
    have e : (a.x * (1 / a.length)) ^ 2 + (a.z * (1 / a.length)) ^ 2
        = (a.x * a.x + a.z * a.z) / a.length ^ 2 := by
      field_simp
      ring
    rw [e, div_le_one hpos, hl]
    nlinarith [mul_self_nonneg a.y]

/-- Clamping to `[-m, m]` does not increase the square. -/
theorem clamp_sq_le (m v : ℝ) (hm : 0 ≤ m) : (max (-m) (min m v)) ^ 2 ≤ v ^ 2 := by
  rcases le_total v m with h | h
  · rw [min_eq_right h]
    rcases le_total (-m) v with h1 | h1
    · rw [max_eq_right h1]
    · rw [max_eq_left h1]; nlinarith
  · rw [min_eq_left h, max_eq_right (by linarith)]
    nlinarith

/-- The contraction behind the speed bound: damping by `0.9` and an
acceleration of length at most `0.02` keep a vector inside the disc of radius
`0.2`. -/
theorem damped_step_bound (vx vz bx bz : ℝ) (hv : vx ^ 2 + vz ^ 2 ≤ 0.04)
    (hb : bx ^ 2 + bz ^ 2 ≤ 0.0004) :
    ((vx - vx * 0.1) - bx) ^ 2 + ((vz - vz * 0.1) - bz) ^ 2 ≤ 0.04 := by
  have hcs : (vx * bx + vz * bz) ^ 2 ≤ (vx ^ 2 + vz ^ 2) * (bx ^ 2 + bz ^ 2) := by
    nlinarith [sq_nonneg (vx * bz - vz * bx)]
  have hprod : (vx ^ 2 + vz ^ 2) * (bx ^ 2 + bz ^ 2) ≤ 0.04 * 0.0004 :=
    mul_le_mul hv hb (by positivity) (by norm_num)
  have ht : -(vx * bx + vz * bz) ≤ 0.004 := by
    have h2 : (vx * bx + vz * bz) ^ 2 ≤ 0.004 ^ 2 := by
      calc (vx * bx + vz * bz) ^ 2 ≤ 0.04 * 0.0004 := le_trans hcs hprod
        _ = 0.004 ^ 2 := by norm_num
    have := abs_le_of_sq_le_sq h2 (by norm_num)
    linarith [neg_abs_le (vx * bx + vz * bz), (abs_le.1 this).1]
  nlinarith

/-- One acceleration-and-clamp step keeps the horizontal velocity inside the
disc of radius `moveSpeed`. -/
theorem accel_clamp_bound (vx vz dx dz : ℝ) (p q : Bool)
    (hv : vx ^ 2 + vz ^ 2 ≤ 0.04) (hd : dx ^ 2 + dz ^ 2 ≤ 1) :
    (max (-moveSpeed) (min moveSpeed
        (if q = true then vx - vx * 0.1 - dx * (moveSpeed * 0.1) else vx - vx * 0.1))) ^ 2
      + (max (-moveSpeed) (min moveSpeed
        (if p = true then vz - vz * 0.1 - dz * (moveSpeed * 0.1) else vz - vz * 0.1))) ^ 2
      ≤ 0.04 := by
  have hm : (0 : ℝ) ≤ moveSpeed := by unfold moveSpeed; norm_num
  refine le_trans (add_le_add (clamp_sq_le _ _ hm) (clamp_sq_le _ _ hm)) ?_
  have key : ∀ bx bz : ℝ, bx ^ 2 ≤ (dx * 0.02) ^ 2 → bz ^ 2 ≤ (dz * 0.02) ^ 2 →
      (vx - vx * 0.1 - bx) ^ 2 + (vz - vz * 0.1 - bz) ^ 2 ≤ 0.04 := by
    intro bx bz hx hz
    apply damped_step_bound vx vz bx bz hv
    nlinarith
  have e : moveSpeed * 0.1 = 0.02 := by unfold moveSpeed; norm_num
  rw [e]
  have h0x : (0 : ℝ) ^ 2 ≤ (dx * 0.02) ^ 2 := by nlinarith [sq_nonneg (dx * 0.02)]
  have h0z : (0 : ℝ) ^ 2 ≤ (dz * 0.02) ^ 2 := by nlinarith [sq_nonneg (dz * 0.02)]
  cases p <;> cases q <;> simp only [if_true, if_false, Bool.false_eq_true]
  · have := key 0 0 h0x h0z; simpa using this
  · have := key (dx * 0.02) 0 le_rfl h0z; simpa using this
  · have := key 0 (dz * 0.02) h0x le_rfl; simpa using this
  · exact key (dx * 0.02) (dz * 0.02) le_rfl le_rfl

/-- The movement step preserves the speed bound. -/
theorem moveStep_speed (f : Frame) (s : Scene)
    (h : s.velocity.x ^ 2 + s.velocity.z ^ 2 ≤ 0.04) :
    (moveStep f s).velocity.x ^ 2 + (moveStep f s).velocity.z ^ 2 ≤ 0.04 := by
  unfold moveStep
  simp only
  split
  · exact accel_clamp_bound _ _ _ _ _ _ h (normalize_horizontal_le_one _)
  · exact h

/-- A call of `animate` preserves the speed bound. -/
theorem animate_speed (f : Frame) (s : Scene)
    (h : s.velocity.x ^ 2 + s.velocity.z ^ 2 ≤ 0.04) :
    (animate f s).velocity.x ^ 2 + (animate f s).velocity.z ^ 2 ≤ 0.04 := by
  unfold animate
  split
  · simp only [velocity_ceilingStep, velocity_groundingStep, velocity_gravityStep]
    apply moveStep_speed
    simpa using h
  · simpa using h

/-- Entering Walk mode zeroes the horizontal velocity. -/
theorem velocity_setupFirstPersonControls (s : Scene) :
    (setupFirstPersonControls s).1.velocity = ⟨0, 0, 0⟩ := by
  unfold setupFirstPersonControls
  simp only [addListener]
  repeat (first | split | rfl)

/-- A run of ticks preserves the speed bound, whatever flags are chosen. -/
theorem runTicks_speed (inputs : List (MobileMoveState × Frame)) (s : Scene)
    (h : s.velocity.x ^ 2 + s.velocity.z ^ 2 ≤ 0.04) :
    (runTicks s inputs).velocity.x ^ 2 + (runTicks s inputs).velocity.z ^ 2 ≤ 0.04 := by
  induction inputs generalizing s with
  | nil => exact h
  | cons a rest ih =>
    obtain ⟨m, f⟩ := a
    unfold runTicks
    apply ih
    apply animate_speed
    simpa [setDirectionalFlags] using h

/-- C1: from the Walk-entry state, after any run of ticks with any choice of
the four directional flags before each tick, the horizontal speed
`sqrt(velocity.x^2 + velocity.z^2)` is at most `moveSpeed = 0.2`, and each of
the two axes lies in `[-0.2, 0.2]`. -/
theorem C1_horizontal_speed_bounded (s0 : Scene) (inputs : List (MobileMoveState × Frame)) :
    horizontalSpeed (runTicks (setupFirstPersonControls s0).1 inputs) ≤ moveSpeed
      ∧ moveSpeed = 0.2
      ∧ |(runTicks (setupFirstPersonControls s0).1 inputs).velocity.x| ≤ 0.2
      ∧ |(runTicks (setupFirstPersonControls s0).1 inputs).velocity.z| ≤ 0.2 := by
  have h0 : (setupFirstPersonControls s0).1.velocity.x ^ 2
      + (setupFirstPersonControls s0).1.velocity.z ^ 2 ≤ 0.04 := by
    rw [velocity_setupFirstPersonControls]; norm_num
  have h := runTicks_speed inputs _ h0
  refine ⟨?_, rfl, ?_, ?_⟩
  · unfold horizontalSpeed moveSpeed
    rw [Real.sqrt_le_left (by norm_num)]
    norm_num
    linarith
  · apply abs_le_of_sq_le_sq _ (by norm_num)
    nlinarith [sq_nonneg (runTicks (setupFirstPersonControls s0).1 inputs).velocity.z]
  · apply abs_le_of_sq_le_sq _ (by norm_num)
    nlinarith [sq_nonneg (runTicks (setupFirstPersonControls s0).1 inputs).velocity.x]

/-! ## The active jump state -/

@[simp] theorem activeVerticalVelocity_setVV (s : Scene) (v : ℝ) :
    activeVerticalVelocity (setActiveVerticalVelocity s v) = v := by
  unfold activeVerticalVelocity setActiveVerticalVelocity
  cases hm : s.isMobile <;> cases hj : s.mobileJumpState <;> simp [hm, hj]

@[simp] theorem activeIsGrounded_setVV (s : Scene) (v : ℝ) :
    activeIsGrounded (setActiveVerticalVelocity s v) = activeIsGrounded s := by
  unfold activeIsGrounded setActiveVerticalVelocity
  cases hm : s.isMobile <;> cases hj : s.mobileJumpState <;> simp [hm, hj]

@[simp] theorem activeJumping_setVV (s : Scene) (v : ℝ) :
    activeJumping (setActiveVerticalVelocity s v) = activeJumping s := by
  unfold activeJumping setActiveVerticalVelocity
  cases hm : s.isMobile <;> cases hj : s.mobileJumpState <;> simp [hm, hj]

@[simp] theorem activeVerticalVelocity_setGrounded (s : Scene) (g : Bool) :
    activeVerticalVelocity (setActiveIsGrounded s g) = activeVerticalVelocity s := by
  unfold activeVerticalVelocity setActiveIsGrounded
  cases hm : s.isMobile <;> cases hj : s.mobileJumpState <;> simp [hm, hj]

@[simp] theorem activeIsGrounded_setGrounded (s : Scene) (g : Bool) :
    activeIsGrounded (setActiveIsGrounded s g) = g := by
  unfold activeIsGrounded setActiveIsGrounded
  cases hm : s.isMobile <;> cases hj : s.mobileJumpState <;> simp [hm, hj]

@[simp] theorem activeJumping_setGrounded (s : Scene) (g : Bool) :
    activeJumping (setActiveIsGrounded s g) = activeJumping s := by
  unfold activeJumping setActiveIsGrounded
  cases hm : s.isMobile <;> cases hj : s.mobileJumpState <;> simp [hm, hj]

@[simp] theorem activeVerticalVelocity_clearJumping (s : Scene) :
    activeVerticalVelocity (clearJumping s) = activeVerticalVelocity s := by
  unfold activeVerticalVelocity clearJumping
  cases hm : s.isMobile <;> cases hj : s.mobileJumpState <;> simp [hm, hj]

@[simp] theorem activeIsGrounded_clearJumping (s : Scene) :
    activeIsGrounded (clearJumping s) = activeIsGrounded s := by
  unfold activeIsGrounded clearJumping
  cases hm : s.isMobile <;> cases hj : s.mobileJumpState <;> simp [hm, hj]

@[simp] theorem activeJumping_clearJumping (s : Scene) :
    activeJumping (clearJumping s) = false := by
  unfold activeJumping clearJumping
  cases hm : s.isMobile <;> cases hj : s.mobileJumpState <;> simp [hm, hj]

@[simp] theorem activeVerticalVelocity_camera (s : Scene) (p : Vec3) :
    activeVerticalVelocity { s with cameraPosition := p } = activeVerticalVelocity s := rfl

@[simp] theorem activeIsGrounded_camera (s : Scene) (p : Vec3) :
    activeIsGrounded { s with cameraPosition := p } = activeIsGrounded s := rfl

@[simp] theorem activeJumping_camera (s : Scene) (p : Vec3) :
    activeJumping { s with cameraPosition := p } = activeJumping s := rfl

/-- The ceiling clamp never changes the grounded flag or the jump flag, and
leaves a zero vertical velocity zero. -/
theorem ceilingStep_keeps (s : Scene) :
    activeIsGrounded (ceilingStep s) = activeIsGrounded s
      ∧ activeJumping (ceilingStep s) = activeJumping s
      ∧ (activeVerticalVelocity s = 0 → activeVerticalVelocity (ceilingStep s) = 0) := by
  unfold ceilingStep
  split <;> simp

/-- The landing branch of the grounding step. -/
theorem groundingStep_lands (f : Frame) (s : Scene) (hit : Hit)
    (hhit : groundingProbe f s = some hit)
    (hdist : s.cameraPosition.distanceTo hit.point ≤ eyeHeight + 0.5)
    (hvel : activeVerticalVelocity s ≤ 0) :
    activeIsGrounded (groundingStep f s) = true
      ∧ activeVerticalVelocity (groundingStep f s) = 0
      ∧ activeJumping (groundingStep f s) = false := by
  unfold groundingProbe at hhit
  unfold groundingStep
  simp only [hhit]
  rw [if_pos ⟨hdist, hvel⟩]
  simp only [activeIsGrounded_camera, activeVerticalVelocity_camera, activeJumping_camera,
    activeIsGrounded_clearJumping, activeVerticalVelocity_clearJumping,
    activeJumping_clearJumping, activeIsGrounded_setVV, activeVerticalVelocity_setVV,
    activeIsGrounded_setGrounded, and_self]

/-- Gravity never raises the vertical velocity. -/
theorem gravityStep_velocity_le (s : Scene) :
    activeVerticalVelocity (gravityStep s) ≤ activeVerticalVelocity s := by
  unfold gravityStep
  split
  · exact le_rfl
  · simp only [activeVerticalVelocity_camera, activeVerticalVelocity_setVV]
    unfold moonGravity
    norm_num

/-- The movement step does not touch the active jump state. -/
theorem moveStep_activeVerticalVelocity (f : Frame) (s : Scene) :
    activeVerticalVelocity (moveStep f s) = activeVerticalVelocity s := by
  unfold moveStep
  simp only
  split <;> rfl

/-- Disabling the orbit controls does not touch the active jump state. -/
theorem setControlsEnabled_activeVerticalVelocity (s : Scene) (e : Bool) :
    activeVerticalVelocity (setControlsEnabled s e) = activeVerticalVelocity s := by
  unfold setControlsEnabled
  split <;> rfl

/-- C2: in a Walk tick whose grounding probe returns a hit at distance at
most `eyeHeight + 0.5` from the camera (so in particular at distance exactly
`eyeHeight = 1.7`), with the vertical velocity at most zero (before the tick,
or at the moment of the probe), the state after the tick is grounded, has
vertical velocity zero and has the jump-in-progress flag cleared. -/
theorem C2_probe_hit_lands (f : Frame) (s : Scene) (hit : Hit)
    (hwalk : s.isFirstPerson = true)
    (hhit : groundingProbe f (probeState f s) = some hit)
    (hdist : (probeState f s).cameraPosition.distanceTo hit.point ≤ eyeHeight + 0.5)
    (hvel : activeVerticalVelocity s ≤ 0 ∨ activeVerticalVelocity (probeState f s) ≤ 0) :
    activeIsGrounded (animate f s) = true
      ∧ activeVerticalVelocity (animate f s) = 0
      ∧ activeJumping (animate f s) = false
      ∧ eyeHeight = 1.7 := by
  have hv : activeVerticalVelocity (probeState f s) ≤ 0 := by
    rcases hvel with h | h
    · unfold probeState
      refine le_trans (gravityStep_velocity_le _) ?_
      rw [moveStep_activeVerticalVelocity, setControlsEnabled_activeVerticalVelocity]
      exact h
    · exact h
  have e : animate f s = ceilingStep (groundingStep f (probeState f s)) := by
    unfold animate probeState
    rw [if_pos hwalk]
  obtain ⟨h1, h2, h3⟩ := groundingStep_lands f (probeState f s) hit hhit hdist hv
  obtain ⟨c1, c2, c3⟩ := ceilingStep_keeps (groundingStep f (probeState f s))
  rw [e]
  exact ⟨c1.trans h1, c3 h2, c2.trans h3, rfl⟩

/-- C2 at a concrete input: a desktop observer standing on the pole, with the
probe hitting the surface at distance exactly `eyeHeight`. -/
theorem C2_probe_hit_lands_witness :
    (probeState poleFrame walkSample).cameraPosition.distanceTo ⟨0, moonRadius, 0⟩ = eyeHeight
      ∧ activeVerticalVelocity walkSample ≤ 0
      ∧ activeIsGrounded (animate poleFrame walkSample) = true
      ∧ activeVerticalVelocity (animate poleFrame walkSample) = 0
      ∧ activeJumping (animate poleFrame walkSample) = false := by
  have hpos : (probeState poleFrame walkSample).cameraPosition
      = ⟨0, moonRadius + eyeHeight, 0⟩ := by
    simp [probeState, gravityStep, moveStep, setControlsEnabled, walkSample, emptyPage,
      activeIsGrounded]
  have hd : (probeState poleFrame walkSample).cameraPosition.distanceTo ⟨0, moonRadius, 0⟩
      = eyeHeight := by
    rw [hpos]
    unfold Vec3.distanceTo Vec3.distanceToSquared moonRadius eyeHeight
    rw [show ((0 : ℝ) - 0) * (0 - 0) + (500 + 1.7 - 500) * (500 + 1.7 - 500) + (0 - 0) * (0 - 0)
      = 1.7 ^ 2 by norm_num]
    exact Real.sqrt_sq (by norm_num)
  have hv : activeVerticalVelocity walkSample ≤ 0 := by
    simp [activeVerticalVelocity, walkSample, emptyPage]
  have h := C2_probe_hit_lands poleFrame walkSample ⟨⟨0, moonRadius, 0⟩, none⟩ rfl rfl
    (by rw [hd]; norm_num) (Or.inl hv)
  exact ⟨hd, hv, h.1, h.2.1, h.2.2.1⟩

/-! ## Jump requests -/

/-- An honoured jump request on either adapter. -/
theorem jumpRequest_honoured (s : Scene) (hw : walkReady s = true)
    (hg : activeIsGrounded s = true) (hj : activeJumping s = false) :
    activeVerticalVelocity (jumpRequest s) = 0.4
      ∧ activeIsGrounded (jumpRequest s) = false
      ∧ activeJumping (jumpRequest s) = true := by
  unfold walkReady at hw
  unfold activeIsGrounded at hg
  unfold activeJumping at hj
  unfold jumpRequest handleJump onKeyDown activeVerticalVelocity activeIsGrounded activeJumping
  cases hm : s.isMobile <;> cases hs : s.mobileJumpState <;>
    simp_all [jumpSpeed]

/-- A jump request that is not honoured changes nothing. -/
theorem jumpRequest_ignored (s : Scene) (hw : walkReady s = true)
    (h : ¬ (activeIsGrounded s = true ∧ activeJumping s = false)) :
    jumpRequest s = s := by
  unfold walkReady at hw
  unfold activeIsGrounded activeJumping at h
  unfold jumpRequest handleJump onKeyDown
  cases hm : s.isMobile <;> cases hs : s.mobileJumpState <;>
    simp_all

/-- C3: in Walk mode a jump request (Space keydown on the desktop adapter,
jump-button touch on the mobile adapter) changes the state if and only if the
observer is grounded and no jump is in progress; when it does, the vertical
velocity becomes the jump speed `0.4` (the constant `jumpSpeed` on the desktop
adapter, the literal `0.4` on the mobile one), grounded becomes false and the
jump is marked in progress; otherwise, in particular whenever grounded is
false, the state is unchanged. -/
theorem C3_jump_request (s : Scene) (hw : walkReady s = true) :
    (jumpRequest s ≠ s ↔ (activeIsGrounded s = true ∧ activeJumping s = false))
      ∧ ((activeIsGrounded s = true ∧ activeJumping s = false) →
          activeVerticalVelocity (jumpRequest s) = 0.4
            ∧ activeIsGrounded (jumpRequest s) = false
            ∧ activeJumping (jumpRequest s) = true)
      ∧ (¬ (activeIsGrounded s = true ∧ activeJumping s = false) → jumpRequest s = s)
      ∧ (activeIsGrounded s = false → jumpRequest s = s)
      ∧ jumpSpeed = 0.4 := by
  refine ⟨⟨?_, ?_⟩, ?_, ?_, ?_, rfl⟩
  · intro hne
    by_contra hc
    exact hne (jumpRequest_ignored s hw hc)
  · intro ⟨hg, hj⟩ heq
    have h := (jumpRequest_honoured s hw hg hj).2.1
    rw [heq, hg] at h
    exact Bool.noConfusion h
  · intro ⟨hg, hj⟩
    exact jumpRequest_honoured s hw hg hj
  · exact jumpRequest_ignored s hw
  · intro hg
    apply jumpRequest_ignored s hw
    rw [hg]
    simp

/-- C3 at a concrete input: the desktop observer standing on the pole. -/
theorem C3_jump_request_witness :
    walkReady walkSample = true
      ∧ activeIsGrounded walkSample = true ∧ activeJumping walkSample = false
      ∧ jumpRequest walkSample ≠ walkSample
      ∧ activeVerticalVelocity (jumpRequest walkSample) = 0.4
      ∧ activeIsGrounded (jumpRequest walkSample) = false
      ∧ activeJumping (jumpRequest walkSample) = true := by
  have hw : walkReady walkSample = true := rfl
  have hg : activeIsGrounded walkSample = true := rfl
  have hj : activeJumping walkSample = false := rfl
  have h := C3_jump_request walkSample hw
  exact ⟨hw, hg, hj, h.1.2 ⟨hg, hj⟩, h.2.1 ⟨hg, hj⟩⟩

/-- The getters of the active jump state only read four fields. -/
theorem active_congr (s t : Scene) (h1 : t.isMobile = s.isMobile)
    (h2 : t.mobileJumpState = s.mobileJumpState) (h3 : t.jumpState = s.jumpState)
    (h4 : t.moveState.jump = s.moveState.jump) :
    activeVerticalVelocity t = activeVerticalVelocity s
      ∧ activeIsGrounded t = activeIsGrounded s
      ∧ activeJumping t = activeJumping s := by
  unfold activeVerticalVelocity activeIsGrounded activeJumping
  rw [h1, h2, h3, h4]
  exact ⟨rfl, rfl, rfl⟩

/-- The movement step leaves the active jump state alone. -/
theorem moveStep_active (f : Frame) (s : Scene) :
    activeVerticalVelocity (moveStep f s) = activeVerticalVelocity s
      ∧ activeIsGrounded (moveStep f s) = activeIsGrounded s
      ∧ activeJumping (moveStep f s) = activeJumping s := by
  apply active_congr <;> (unfold moveStep; simp only; split <;> rfl)

/-- Writing `controls.enabled` leaves the active jump state alone. -/
theorem setControlsEnabled_active (s : Scene) (e : Bool) :
    activeVerticalVelocity (setControlsEnabled s e) = activeVerticalVelocity s
      ∧ activeIsGrounded (setControlsEnabled s e) = activeIsGrounded s
      ∧ activeJumping (setControlsEnabled s e) = activeJumping s := by
  apply active_congr <;> (unfold setControlsEnabled; split <;> rfl)

/-- The gravity step of an airborne observer. -/
theorem gravityStep_airborne (s : Scene) (hg : activeIsGrounded s = false) :
    activeVerticalVelocity (gravityStep s) = activeVerticalVelocity s - moonGravity
      ∧ activeIsGrounded (gravityStep s) = false
      ∧ activeJumping (gravityStep s) = activeJumping s := by
  unfold gravityStep
  rw [if_neg (by simp [hg])]
  simp only [activeVerticalVelocity_camera, activeIsGrounded_camera, activeJumping_camera,
    activeVerticalVelocity_setVV, activeIsGrounded_setVV, activeJumping_setVV, hg, and_self]

/-- Writing the active vertical velocity does not move the camera. -/
theorem cameraPosition_setVV (s : Scene) (v : ℝ) :
    (setActiveVerticalVelocity s v).cameraPosition = s.cameraPosition := by
  unfold setActiveVerticalVelocity
  split <;> rfl

/-- The gravity step displaces an airborne camera along its outward radial by
the new vertical velocity. -/
theorem gravityStep_airborne_position (s : Scene) (hg : activeIsGrounded s = false) :
    (gravityStep s).cameraPosition
      = s.cameraPosition.add
          (s.cameraPosition.normalize.multiplyScalar (activeVerticalVelocity s - moonGravity)) := by
  unfold gravityStep
  rw [if_neg (by simp [hg])]
  simp only [cameraPosition_setVV, activeVerticalVelocity_setVV]

/-- The grounding step does nothing to an airborne observer that is moving up. -/
theorem groundingStep_rising (f : Frame) (s : Scene) (hg : activeIsGrounded s = false)
    (hv : 0 < activeVerticalVelocity s) : groundingStep f s = s := by
  unfold groundingStep
  simp only
  split
  · rw [if_neg (fun h => absurd h.2 (not_le.2 hv)), if_neg (by simp [hg])]
  · rw [if_neg (by simp [hg])]

/-- The ceiling clamp does not move the camera. -/
theorem cameraPosition_ceilingStep (s : Scene) :
    (ceilingStep s).cameraPosition = s.cameraPosition := by
  unfold ceilingStep setActiveVerticalVelocity
  repeat (first | split | rfl)

/-- The state one tick after an honoured jump request: still airborne, with
gravity applied once, unless the ceiling clamp zeroes the velocity. -/
theorem tick_after_jump (f : Frame) (s : Scene) (hw : walkReady s = true)
    (hg : activeIsGrounded s = true) (hj : activeJumping s = false) :
    activeIsGrounded (animate f (jumpRequest s)) = false
      ∧ activeVerticalVelocity (animate f (jumpRequest s))
          = (if (animate f (jumpRequest s)).cameraPosition.length > moonRadius + maxJumpHeight
            then 0 else jumpSpeed - moonGravity)
      ∧ (animate f (jumpRequest s)).cameraPosition
          = (moveStep f (setControlsEnabled (jumpRequest s) false)).cameraPosition.add
              ((moveStep f (setControlsEnabled (jumpRequest s) false)).cameraPosition.normalize.multiplyScalar
                (jumpSpeed - moonGravity)) := by
  obtain ⟨j1, j2, _⟩ := jumpRequest_honoured s hw hg hj
  have hfp : (jumpRequest s).isFirstPerson = true := by
    have : (jumpRequest s).isFirstPerson = s.isFirstPerson := by
      unfold jumpRequest handleJump onKeyDown
      repeat (first | split | rfl)
    rw [this]
    unfold walkReady at hw
    simp only [Bool.and_eq_true] at hw
    exact hw.1
  have e : animate f (jumpRequest s) = ceilingStep (groundingStep f (probeState f (jumpRequest s))) := by
    unfold animate probeState
    rw [if_pos hfp]
  obtain ⟨m1, m2, _⟩ := moveStep_active f (setControlsEnabled (jumpRequest s) false)
  obtain ⟨c1, c2, _⟩ := setControlsEnabled_active (jumpRequest s) false
  have hg1 : activeIsGrounded (moveStep f (setControlsEnabled (jumpRequest s) false)) = false := by
    rw [m2, c2, j2]
  obtain ⟨g1, g2, _⟩ := gravityStep_airborne _ hg1
  have hv : activeVerticalVelocity (probeState f (jumpRequest s)) = jumpSpeed - moonGravity := by
    unfold probeState
    rw [g1, m1, c1, j1]
    unfold jumpSpeed
    rfl
  have hgr : groundingStep f (probeState f (jumpRequest s)) = probeState f (jumpRequest s) := by
    apply groundingStep_rising
    · exact g2
    · rw [hv]; unfold jumpSpeed moonGravity; norm_num
  have hp := gravityStep_airborne_position _ hg1
  rw [m1, c1, j1] at hp
  rw [e, hgr, cameraPosition_ceilingStep]
  refine ⟨?_, ?_, ?_⟩
  · exact (ceilingStep_keeps _).1.trans g2
  · unfold ceilingStep
    by_cases hc : (probeState f (jumpRequest s)).cameraPosition.length > moonRadius + maxJumpHeight
    · rw [if_pos hc, if_pos hc]
      exact activeVerticalVelocity_setVV _ _
    · rw [if_neg hc, if_neg hc]
      exact hv
  · unfold probeState
    rw [hp]
    unfold jumpSpeed
    rfl

/-- C4 as stated fails: one tick after an honoured jump request the vertical
velocity is never the jump speed `0.4`, because the tick has already applied
gravity once (or the ceiling clamp has zeroed it). -/
theorem C4_counterexample :
    ¬ (∀ (f : Frame) (s : Scene), walkReady s = true → activeIsGrounded s = true →
        activeJumping s = false →
        activeVerticalVelocity (animate f (jumpRequest s)) = jumpSpeed
          ∧ activeIsGrounded (animate f (jumpRequest s)) = false) := by
  intro h
  have h1 := (h poleFrame walkSample rfl rfl rfl).1
  have h2 := (tick_after_jump poleFrame walkSample rfl rfl rfl).2.1
  rw [h1] at h2
  unfold jumpSpeed moonGravity at h2
  split at h2 <;> norm_num at h2

/-- C4, amended: for a grounded Walk state with no jump in progress, the jump
request itself sets the vertical velocity to `0.4` and clears grounded; one
tick later grounded is still false and the vertical velocity is
`jumpSpeed - moonGravity = 0.39`, or `0` when the camera is then farther than
`moonRadius + maxJumpHeight = 515` from the centre. -/
theorem C4_jump_then_tick (f : Frame) (s : Scene) (hw : walkReady s = true)
    (hg : activeIsGrounded s = true) (hj : activeJumping s = false) :
    activeVerticalVelocity (jumpRequest s) = 0.4
      ∧ activeIsGrounded (jumpRequest s) = false
      ∧ activeIsGrounded (animate f (jumpRequest s)) = false
      ∧ ((animate f (jumpRequest s)).cameraPosition.length ≤ 515 →
          activeVerticalVelocity (animate f (jumpRequest s)) = 0.39)
      ∧ ((animate f (jumpRequest s)).cameraPosition.length > 515 →
          activeVerticalVelocity (animate f (jumpRequest s)) = 0) := by
  obtain ⟨j1, j2, _⟩ := jumpRequest_honoured s hw hg hj
  obtain ⟨t1, t2, _⟩ := tick_after_jump f s hw hg hj
  have e : moonRadius + maxJumpHeight = 515 := by unfold moonRadius maxJumpHeight; norm_num
  rw [e] at t2
  refine ⟨j1, j2, t1, ?_, ?_⟩
  · intro hle
    rw [t2, if_neg (not_lt.2 hle)]
    unfold jumpSpeed moonGravity
    norm_num
  · intro hgt
    rw [t2, if_pos hgt]

/-- The length of a vector on the positive `y` axis. -/
theorem length_axis_y (y : ℝ) (hy : 0 ≤ y) : (Vec3.mk 0 y 0).length = y := by
  unfold Vec3.length
  simp only [mul_zero, zero_add, add_zero]
  exact Real.sqrt_mul_self hy

/-- Normalising a vector on the positive `y` axis gives the `y` unit vector. -/
theorem normalize_axis_y (y : ℝ) (hy : 0 < y) : (Vec3.mk 0 y 0).normalize = ⟨0, 1, 0⟩ := by
  unfold Vec3.normalize
  rw [length_axis_y y hy.le, if_neg hy.ne.symm]
  simp only [Vec3.divideScalar, Vec3.multiplyScalar, zero_mul, Vec3.mk.injEq, true_and, and_true]
  field_simp

/-- C4 (amended) at a concrete input: the desktop observer on the pole jumps;
one tick later it is airborne at height `501.7 + 0.39` with velocity `0.39`. -/
theorem C4_jump_then_tick_witness :
    walkReady walkSample = true ∧ activeIsGrounded walkSample = true
      ∧ activeJumping walkSample = false
      ∧ (animate poleFrame (jumpRequest walkSample)).cameraPosition = ⟨0, 502.09, 0⟩
      ∧ activeIsGrounded (animate poleFrame (jumpRequest walkSample)) = false
      ∧ activeVerticalVelocity (animate poleFrame (jumpRequest walkSample)) = 0.39 := by
  have hm : (moveStep poleFrame (setControlsEnabled (jumpRequest walkSample) false)).cameraPosition
      = ⟨0, 501.7, 0⟩ := by
    simp [moveStep, setControlsEnabled, jumpRequest, onKeyDown, walkSample, emptyPage,
      moonRadius, eyeHeight]
    norm_num
  have hpos : (animate poleFrame (jumpRequest walkSample)).cameraPosition = ⟨0, 502.09, 0⟩ := by
    rw [(tick_after_jump poleFrame walkSample rfl rfl rfl).2.2, hm,
      normalize_axis_y _ (by norm_num)]
    simp only [Vec3.add, Vec3.multiplyScalar, jumpSpeed, moonGravity, Vec3.mk.injEq]
    norm_num
  have h := C4_jump_then_tick poleFrame walkSample rfl rfl rfl
  refine ⟨rfl, rfl, rfl, hpos, h.2.2.1, h.2.2.2.1 ?_⟩
  rw [hpos, length_axis_y _ (by norm_num)]
  norm_num

/-! ## Entering Walk mode -/

/-- C5: from any prior state, `setupFirstPersonControls` leaves the camera at
`(0, R + eyeHeight, 0) = (0, 501.7, 0)` with its look-at target ten units
further along `+Z`, the velocity `(0, 0, 0)`, the vertical velocity `0`,
grounded true, and the four directional flags and the jump flag false (for the
closure variables and for the state of the active adapter alike). -/
theorem C5_walk_entry_pose (s : Scene) :
    (setupFirstPersonControls s).1.cameraPosition = ⟨0, 501.7, 0⟩
      ∧ (setupFirstPersonControls s).1.cameraLookAt.sub (setupFirstPersonControls s).1.cameraPosition
          = ⟨0, 0, 10⟩
      ∧ (setupFirstPersonControls s).1.velocity = ⟨0, 0, 0⟩
      ∧ (setupFirstPersonControls s).1.jumpState.verticalVelocity = 0
      ∧ (setupFirstPersonControls s).1.jumpState.isGrounded = true
      ∧ (setupFirstPersonControls s).1.moveState = ⟨false, false, false, false, false⟩
      ∧ activeVerticalVelocity (setupFirstPersonControls s).1 = 0
      ∧ activeIsGrounded (setupFirstPersonControls s).1 = true
      ∧ activeJumping (setupFirstPersonControls s).1 = false
      ∧ activeMoveState (setupFirstPersonControls s).1 = ⟨false, false, false, false⟩
      ∧ moonRadius + eyeHeight = 501.7 := by
  have e : moonRadius + eyeHeight = 501.7 := by unfold moonRadius eyeHeight; norm_num
  unfold setupFirstPersonControls
  cases hc : s.controls <;> cases hm : s.isMobile <;>
    simp [hc, hm, addListener, activeVerticalVelocity, activeIsGrounded, activeJumping,
      activeMoveState, Vec3.sub, Vec3.add, Vec3.multiplyScalar, e]

/-! ## The virtual joystick -/

/-- The offset stored by `updateJoystickPosition`, and the flags it writes when
`window.mobileMoveState` exists. -/
theorem updateJoystickPosition_result (x y : ℝ) (s : Scene) :
    ∃ px py : ℝ,
      px = (if Real.sqrt (x * x + y * y) > 50 then Real.cos (atan2 y x) * 50 else x)
      ∧ py = (if Real.sqrt (x * x + y * y) > 50 then Real.sin (atan2 y x) * 50 else y)
      ∧ (updateJoystickPosition x y s).joystickPosition = ⟨px, py⟩
      ∧ (updateJoystickPosition x y s).mobileMoveState
          = s.mobileMoveState.map fun _ =>
              ⟨decide (py < -10), decide (py > 10), decide (px < -10), decide (px > 10)⟩ := by
  refine ⟨_, _, rfl, rfl, ?_, ?_⟩ <;>
    (unfold updateJoystickPosition
     cases hk : s.joystickKnob <;> cases hm : s.mobileMoveState <;> simp [hk, hm])

/-- Beyond the maximum radius, the cosine and sine of the angle rebuild the
point at distance exactly 50 in the same direction. -/
theorem radial_clamp (x y : ℝ) (h : Real.sqrt (x * x + y * y) > 50) :
    Real.cos (atan2 y x) * 50 = x * (50 / Real.sqrt (x * x + y * y))
      ∧ Real.sin (atan2 y x) * 50 = y * (50 / Real.sqrt (x * x + y * y)) := by
  have habs : Complex.abs ⟨x, y⟩ = Real.sqrt (x * x + y * y) := by
    rw [Complex.abs_apply, Complex.normSq_mk]
  have hne : (⟨x, y⟩ : ℂ) ≠ 0 := by
    intro h0
    rw [← map_eq_zero Complex.abs, habs] at h0
    rw [h0] at h
    norm_num at h
  unfold atan2
  rw [Complex.cos_arg hne, Complex.sin_arg, habs]
  constructor <;> ring

/-- C6: for every offset `(x, y)`, `updateJoystickPosition` stores the radial
clamp of `(x, y)` to radius 50 (the offset itself within the radius, otherwise
the point at distance exactly 50 in the same direction) and, on the record
`window.mobileMoveState` (kept whenever it exists), sets the four flags from
the stored offset with strict threshold 10, so that opposite flags are never
both set; the offset `(60, 0)` is stored as `(50, 0)` with only `right` set. -/
theorem C6_joystick_clamp_and_flags (x y : ℝ) (s : Scene) :
    (Real.sqrt (x * x + y * y) ≤ 50 →
        (updateJoystickPosition x y s).joystickPosition = ⟨x, y⟩)
      ∧ (Real.sqrt (x * x + y * y) > 50 →
        (updateJoystickPosition x y s).joystickPosition
            = ⟨x * (50 / Real.sqrt (x * x + y * y)), y * (50 / Real.sqrt (x * x + y * y))⟩
          ∧ Real.sqrt ((updateJoystickPosition x y s).joystickPosition.x ^ 2
              + (updateJoystickPosition x y s).joystickPosition.y ^ 2) = 50)
      ∧ (∀ m : MobileMoveState, (updateJoystickPosition x y s).mobileMoveState = some m →
          (m.forward = true ↔ (updateJoystickPosition x y s).joystickPosition.y < -10)
            ∧ (m.backward = true ↔ (updateJoystickPosition x y s).joystickPosition.y > 10)
            ∧ (m.left = true ↔ (updateJoystickPosition x y s).joystickPosition.x < -10)
            ∧ (m.right = true ↔ (updateJoystickPosition x y s).joystickPosition.x > 10)
            ∧ ¬ (m.forward = true ∧ m.backward = true)
            ∧ ¬ (m.left = true ∧ m.right = true))
      ∧ ((updateJoystickPosition x y s).mobileMoveState.isSome = s.mobileMoveState.isSome)
      ∧ (updateJoystickPosition 60 0 s).joystickPosition = ⟨50, 0⟩
      ∧ (∀ m0 : MobileMoveState, s.mobileMoveState = some m0 →
          (updateJoystickPosition 60 0 s).mobileMoveState = some ⟨false, false, false, true⟩) := by
  obtain ⟨px, py, hpx, hpy, hpos, hflags⟩ := updateJoystickPosition_result x y s
  refine ⟨?_, ?_, ?_, ?_, ?_, ?_⟩
  · intro h
    rw [hpos, hpx, hpy, if_neg (not_lt.2 h), if_neg (not_lt.2 h)]
  · intro h
    obtain ⟨hc, hs⟩ := radial_clamp x y h
    rw [if_pos h, hc] at hpx
    rw [if_pos h, hs] at hpy
    rw [hpos, hpx, hpy]
    refine ⟨rfl, ?_⟩
    have hd : 0 < Real.sqrt (x * x + y * y) := lt_trans (by norm_num) h
    have hsq : Real.sqrt (x * x + y * y) ^ 2 = x * x + y * y :=
      Real.sq_sqrt (add_nonneg (mul_self_nonneg _) (mul_self_nonneg _))
    have e : (x * (50 / Real.sqrt (x * x + y * y))) ^ 2
        + (y * (50 / Real.sqrt (x * x + y * y))) ^ 2 = 50 ^ 2 := by
      field_simp
      rw [hsq]
      ring
    simp only
    rw [e]
    exact Real.sqrt_sq (by norm_num)
  · intro m hm
    rw [hflags] at hm
    rw [hpos]
    cases hs : s.mobileMoveState with
    | none => rw [hs] at hm; simp at hm
    | some m0 =>
      rw [hs] at hm
      simp only [Option.map_some', Option.some.injEq] at hm
      subst hm
      simp only [decide_eq_true_eq, gt_iff_lt, iff_self, true_and, not_and, not_lt]
      constructor
      · intro h1; linarith
      · intro h1; linarith
  · rw [hflags]
    cases s.mobileMoveState <;> rfl
  · obtain ⟨qx, qy, hqx, hqy, hq, _⟩ := updateJoystickPosition_result 60 0 s
    have h60 : Real.sqrt (60 * 60 + 0 * 0) = 60 := by
      rw [show (60 : ℝ) * 60 + 0 * 0 = 60 ^ 2 by norm_num]
      exact Real.sqrt_sq (by norm_num)
    have hgt : Real.sqrt (60 * 60 + 0 * 0) > 50 := by rw [h60]; norm_num
    obtain ⟨hc, hs⟩ := radial_clamp 60 0 hgt
    rw [if_pos hgt, hc, h60] at hqx
    rw [if_pos hgt, hs, h60] at hqy
    rw [hq, hqx, hqy]
    norm_num
  · intro m0 hm0
    obtain ⟨qx, qy, hqx, hqy, _, hf⟩ := updateJoystickPosition_result 60 0 s
    have h60 : Real.sqrt (60 * 60 + 0 * 0) = 60 := by
      rw [show (60 : ℝ) * 60 + 0 * 0 = 60 ^ 2 by norm_num]
      exact Real.sqrt_sq (by norm_num)
    have hgt : Real.sqrt (60 * 60 + 0 * 0) > 50 := by rw [h60]; norm_num
    obtain ⟨hc, hs⟩ := radial_clamp 60 0 hgt
    rw [if_pos hgt, hc, h60] at hqx
    rw [if_pos hgt, hs, h60] at hqy
    rw [hf, hm0, hqx, hqy]
    norm_num

/-! ## Surface generation: anchors and crater carving -/

/-- Every sampled anchor lies on the sphere of radius `moonRadius`. -/
theorem surfacePoint_sumsq (theta phi : ℝ) :
    (surfacePoint theta phi).x * (surfacePoint theta phi).x
      + (surfacePoint theta phi).y * (surfacePoint theta phi).y
      + (surfacePoint theta phi).z * (surfacePoint theta phi).z = 500 ^ 2 := by
  unfold surfacePoint moonRadius
  simp only
  have h1 := Real.sin_sq_add_cos_sq theta
  have h2 := Real.sin_sq_add_cos_sq phi
  nlinarith [h1, h2, sq_nonneg (Real.sin phi), sq_nonneg (Real.cos theta)]

/-- Every sampled anchor has distance exactly `moonRadius` from the centre. -/
theorem surfacePoint_length (theta phi : ℝ) : (surfacePoint theta phi).length = 500 := by
  unfold Vec3.length
  rw [surfacePoint_sumsq]
  exact Real.sqrt_sq (by norm_num)

/-- The square of `length`. -/
theorem length_sq (v : Vec3) : v.length ^ 2 = v.x * v.x + v.y * v.y + v.z * v.z := by
  unfold Vec3.length
  exact Real.sq_sqrt (sumsq_nonneg v)

/-- The length is not negative. -/
theorem length_nonneg (v : Vec3) : 0 ≤ v.length := by
  unfold Vec3.length
  exact Real.sqrt_nonneg _

/-- Scaling by a factor of absolute value at most one does not lengthen. -/
theorem length_scale_le (v : Vec3) (k : ℝ) (hk : k ^ 2 ≤ 1) :
    (Vec3.mk (v.x * k) (v.y * k) (v.z * k)).length ≤ v.length := by
  unfold Vec3.length
  apply Real.sqrt_le_sqrt
  have h := sumsq_nonneg v
  have e : v.x * k * (v.x * k) + v.y * k * (v.y * k) + v.z * k * (v.z * k)
      = k ^ 2 * (v.x * v.x + v.y * v.y + v.z * v.z) := by ring
  simp only
  rw [e]
  nlinarith

/-- A vertex within `r ≤ 35` of a point of the sphere of radius 500 is farther
than 465 from the centre. -/
theorem near_surface_far_from_centre (v c : Vec3) (r : ℝ) (hr0 : 0 < r) (hr : r ≤ 35)
    (hc : c.x * c.x + c.y * c.y + c.z * c.z = 500 ^ 2) (hd : v.distanceTo c < r) :
    465 < v.length := by
  unfold Vec3.distanceTo at hd
  rw [Real.sqrt_lt' hr0] at hd
  unfold Vec3.distanceToSquared at hd
  have hL := length_sq v
  have hL0 := length_nonneg v
  have hcs : (v.x * c.x + v.y * c.y + v.z * c.z) ^ 2 ≤ (v.length * 500) ^ 2 := by
    have : (v.x * c.x + v.y * c.y + v.z * c.z) ^ 2
        ≤ (v.x * v.x + v.y * v.y + v.z * v.z) * (c.x * c.x + c.y * c.y + c.z * c.z) := by
      nlinarith [sq_nonneg (v.x * c.y - v.y * c.x), sq_nonneg (v.x * c.z - v.z * c.x),
        sq_nonneg (v.y * c.z - v.z * c.y)]
    rw [hc, ← hL] at this
    calc (v.x * c.x + v.y * c.y + v.z * c.z) ^ 2 ≤ v.length ^ 2 * 500 ^ 2 := this
      _ = (v.length * 500) ^ 2 := by ring
  have hdot : v.x * c.x + v.y * c.y + v.z * c.z ≤ v.length * 500 :=
    (abs_le_of_sq_le_sq' hcs (by positivity)).2
  have hr2 : r ^ 2 ≤ 35 ^ 2 := by nlinarith
  by_contra hcon
  push_neg at hcon
  nlinarith

/-- The arithmetic of the displacement depth: with falloff factor `f` in
`(0, 1]`, crater depth `D` in `[2, 10]`, organic variation `ov` in
`[-0.5, 0.5]` and a sine value `sn`, the depth is positive and at most 15.5. -/
theorem depth_arith (f D ov sn : ℝ) (hf0 : 0 < f) (hf1 : f ≤ 1) (hD : 2 ≤ D) (hD1 : D ≤ 10)
    (hov0 : -0.5 ≤ ov) (hov1 : ov ≤ 0.5) (hsn0 : -1 ≤ sn) (hsn1 : sn ≤ 1) :
    0 < (if f > 0.7 ∧ f < 0.95 then f * f * D * (1 + ov * f) - sn * 0.5
          else f * f * D * (1 + ov * f))
      ∧ (if f > 0.7 ∧ f < 0.95 then f * f * D * (1 + ov * f) - sn * 0.5
          else f * f * D * (1 + ov * f)) ≤ 15.5 := by
  have hff : 0 < f * f := mul_pos hf0 hf0
  have hff1 : f * f ≤ 1 := by nlinarith
  have hbase0 : 0 < f * f * D := mul_pos hff (by linarith)
  have hbase1 : f * f * D ≤ 1 * 10 := mul_le_mul hff1 hD1 (by linarith) (by norm_num)
  have hm0 : 0.5 ≤ 1 + ov * f := by nlinarith
  have hm1 : 1 + ov * f ≤ 1.5 := by nlinarith
  have hd1 : f * f * D * (1 + ov * f) ≤ 1 * 10 * 1.5 :=
    mul_le_mul hbase1 hm1 (by linarith) (by norm_num)
  split
  · rename_i hband
    obtain ⟨hlo, hhi⟩ := hband
    have a1 : 0.7 * 0.7 ≤ f * f := mul_le_mul hlo.le hlo.le (by norm_num) hf0.le
    have a2 : 0.525 ≤ 1 + ov * f := by nlinarith
    have a3 : 0.7 * 0.7 * 2 ≤ f * f * D := mul_le_mul a1 hD (by norm_num) hff.le
    have a4 : 0.7 * 0.7 * 2 * 0.525 ≤ f * f * D * (1 + ov * f) :=
      mul_le_mul a3 a2 (by norm_num) hbase0.le
    constructor
    · norm_num at a4; linarith
    · norm_num at hd1; linarith
  · constructor
    · exact mul_pos hbase0 (by linarith)
    · norm_num at hd1; linarith

/-- The displacement depth of a crater is strictly positive (and bounded) for
every vertex inside the crater's radius, when the crater's depth lies in the
range `[2, 10]` of the random draws. -/
theorem craterDepth_pos (vertex : Vec3) (crater : Crater) (distance : ℝ)
    (hd0 : 0 ≤ distance) (hd : distance < crater.radius)
    (hD : 2 ≤ crater.depth) (hD1 : crater.depth ≤ 10) :
    0 < craterDepth vertex crater distance ∧ craterDepth vertex crater distance ≤ 15.5 := by
  have hr : 0 < crater.radius := lt_of_le_of_lt hd0 hd
  have hq0 : 0 ≤ distance / crater.radius := div_nonneg hd0 hr.le
  have hq1 : distance / crater.radius < 1 := (div_lt_one hr).2 hd
  unfold craterDepth
  simp only
  apply depth_arith
  · linarith
  · linarith
  · exact hD
  · exact hD1
  · linarith [Real.neg_one_le_sin (atan2 (vertex.z - crater.pos.z) (vertex.x - crater.pos.x) * 4),
      Real.neg_one_le_cos (atan2 (vertex.z - crater.pos.z) (vertex.x - crater.pos.x) * 6)]
  · linarith [Real.sin_le_one (atan2 (vertex.z - crater.pos.z) (vertex.x - crater.pos.x) * 4),
      Real.cos_le_one (atan2 (vertex.z - crater.pos.z) (vertex.x - crater.pos.x) * 6)]
  · exact Real.neg_one_le_sin _
  · exact Real.sin_le_one _

/-- Carving by one crater of the generated kind never moves a vertex outward. -/
theorem carve_length_le (v : Vec3) (c : Crater)
    (hpos : c.pos.x * c.pos.x + c.pos.y * c.pos.y + c.pos.z * c.pos.z = 500 ^ 2)
    (hr : c.radius ≤ 35) (hD : 2 ≤ c.depth) (hD1 : c.depth ≤ 10) :
    (carve v c).length ≤ v.length := by
  unfold carve
  simp only
  split
  · rename_i hlt
    have hd0 : 0 ≤ v.distanceTo c.pos := by unfold Vec3.distanceTo; exact Real.sqrt_nonneg _
    have hr0 : 0 < c.radius := lt_of_le_of_lt hd0 hlt
    have hfar := near_surface_far_from_centre v c.pos c.radius hr0 hr hpos hlt
    obtain ⟨hp, hu⟩ := craterDepth_pos v c (v.distanceTo c.pos) hd0 hlt hD hD1
    generalize craterDepth v c (v.distanceTo c.pos) = depth at hp hu
    have hL : v.length ≠ 0 := by linarith
    have e : v.sub (v.normalize.multiplyScalar depth)
        = Vec3.mk (v.x * (1 - 1 / v.length * depth)) (v.y * (1 - 1 / v.length * depth))
            (v.z * (1 - 1 / v.length * depth)) := by
      unfold Vec3.normalize
      rw [if_neg hL]
      simp only [Vec3.sub, Vec3.divideScalar, Vec3.multiplyScalar, Vec3.mk.injEq]
      refine ⟨?_, ?_, ?_⟩ <;> ring
    rw [e]
    apply length_scale_le
    have hq0 : 0 ≤ 1 / v.length * depth := by positivity
    have hq1 : 1 / v.length * depth ≤ 1 := by
      rw [one_div, inv_mul_le_iff₀ (by linarith)]
      linarith
    nlinarith
  · exact le_rfl

/-- Carving by a list of craters of the generated kind never moves a vertex
outward. -/
theorem foldl_carve_length_le (cs : List Crater) (v : Vec3)
    (h : ∀ c ∈ cs, c.pos.x * c.pos.x + c.pos.y * c.pos.y + c.pos.z * c.pos.z = 500 ^ 2
      ∧ c.radius ≤ 35 ∧ 2 ≤ c.depth ∧ c.depth ≤ 10) :
    (cs.foldl carve v).length ≤ v.length := by
  induction cs generalizing v with
  | nil => exact le_rfl
  | cons c rest ih =>
    rw [List.foldl_cons]
    have hc := h c (List.mem_cons_self _ _)
    refine le_trans (ih (carve v c) ?_) (carve_length_le v c hc.1 hc.2.1 hc.2.2.1 hc.2.2.2)
    intro c1 hc1
    exact h c1 (List.mem_cons_of_mem _ hc1)

/-- Every entry of `craterLocations` has its anchor on the sphere, a radius in
`[6, 35)` and a depth in `[2, 10)`, when the draws lie in `[0, 1)`. -/
theorem craterLocations_ranges (rand : Nat → ℝ) (hrand : ∀ n, 0 ≤ rand n ∧ rand n < 1)
    (c : Crater) (hc : c ∈ craterLocations rand) :
    c.pos.x * c.pos.x + c.pos.y * c.pos.y + c.pos.z * c.pos.z = 500 ^ 2
      ∧ 6 ≤ c.radius ∧ c.radius < 35 ∧ 2 ≤ c.depth ∧ c.depth < 10 := by
  unfold craterLocations at hc
  rw [List.mem_append, List.mem_map, List.mem_map] at hc
  rcases hc with ⟨j, _, rfl⟩ | ⟨j, _, rfl⟩
  · have h2 := hrand (4 * j + 2)
    have h3 := hrand (4 * j + 3)
    refine ⟨surfacePoint_sumsq _ _, ?_, ?_, ?_, ?_⟩ <;> simp only <;> linarith
  · have h2 := hrand (80 + 4 * j + 2)
    have h3 := hrand (80 + 4 * j + 3)
    refine ⟨surfacePoint_sumsq _ _, ?_, ?_, ?_, ?_⟩ <;> simp only <;> linarith

/-- The length of a scaled vector. -/
theorem length_multiplyScalar (w : Vec3) (k : ℝ) :
    (w.multiplyScalar k).length = |k| * w.length := by
  unfold Vec3.length Vec3.multiplyScalar
  simp only
  rw [show w.x * k * (w.x * k) + w.y * k * (w.y * k) + w.z * k * (w.z * k)
    = k ^ 2 * (w.x * w.x + w.y * w.y + w.z * w.z) by ring,
    Real.sqrt_mul (sq_nonneg k), Real.sqrt_sq_eq_abs]

/-- A normalised non-zero vector has length one. -/
theorem length_normalize (w : Vec3) (h : w.length ≠ 0) : w.normalize.length = 1 := by
  unfold Vec3.normalize Vec3.divideScalar
  rw [if_neg h, length_multiplyScalar]
  have hp : 0 < w.length := lt_of_le_of_ne (length_nonneg w) (Ne.symm h)
  rw [abs_of_pos (by positivity)]
  field_simp

/-- The noise pass never moves a vertex outward: it restores the distance the
vertex had before the noise, or leaves the vertex at the centre. -/
theorem surfaceNoise_length_le (v : Vec3) : (surfaceNoise v).length ≤ v.length := by
  unfold surfaceNoise
  simp only
  split
  · rename_i hpos
    rw [length_multiplyScalar, length_normalize _ (ne_of_gt hpos), mul_one,
      abs_of_nonneg (length_nonneg v)]
  · rename_i hnot
    exact le_trans (not_lt.1 hnot) (length_nonneg v)

/-- Every vertex of the engine's sphere geometry has distance `|radius|` from
the centre. -/
theorem sphereGeometry_length (radius : ℝ) (w h : Nat) (v : Vec3)
    (hv : v ∈ sphereGeometry radius w h) : v.length = |radius| := by
  unfold sphereGeometry at hv
  rw [List.mem_flatMap] at hv
  obtain ⟨iy, _, hv⟩ := hv
  rw [List.mem_map] at hv
  obtain ⟨ix, _, rfl⟩ := hv
  simp only
  generalize ((ix : ℝ) / (w : ℝ)) * (Real.pi * 2) = a
  generalize ((iy : ℝ) / (h : ℝ)) * Real.pi = b
  unfold Vec3.length
  simp only
  have h1 := Real.sin_sq_add_cos_sq a
  have h2 := Real.sin_sq_add_cos_sq b
  rw [show -radius * Real.cos a * Real.sin b * (-radius * Real.cos a * Real.sin b)
      + radius * Real.cos b * (radius * Real.cos b)
      + radius * Real.sin a * Real.sin b * (radius * Real.sin a * Real.sin b)
      = radius ^ 2 * (Real.sin b ^ 2 * (Real.sin a ^ 2 + Real.cos a ^ 2) + Real.cos b ^ 2) by ring,
    h1, mul_one, h2, mul_one]
  exact Real.sqrt_sq_eq_abs radius

/-- C7: whatever the random draws (each in `[0, 1)`), every vertex of the base
sphere ends `createMoonHoles` (crater carving, then the noise pass) at distance
at most `R` from the centre; more generally no vertex of any buffer ends
farther out than it started, because every per-crater displacement depth is
strictly positive. -/
theorem C7_craters_carve_inward (rand : Nat → ℝ) (hrand : ∀ n, 0 ≤ rand n ∧ rand n < 1) :
    (∀ v ∈ createMoonHoles rand (sphereGeometry moonRadius 64 64), v.length ≤ moonRadius)
      ∧ (∀ positions : List Vec3,
          List.Forall₂ (fun v w => w.length ≤ v.length) positions (createMoonHoles rand positions))
      ∧ (∀ c ∈ craterLocations rand, ∀ (vertex : Vec3) (distance : ℝ),
          0 ≤ distance → distance < c.radius → 0 < craterDepth vertex c distance) := by
  have good : ∀ c ∈ craterLocations rand,
      c.pos.x * c.pos.x + c.pos.y * c.pos.y + c.pos.z * c.pos.z = 500 ^ 2
        ∧ c.radius ≤ 35 ∧ 2 ≤ c.depth ∧ c.depth ≤ 10 := by
    intro c hc
    obtain ⟨h1, _, h3, h4, h5⟩ := craterLocations_ranges rand hrand c hc
    exact ⟨h1, h3.le, h4, h5.le⟩
  have step : ∀ v : Vec3,
      (surfaceNoise ((craterLocations rand).foldl carve v)).length ≤ v.length := fun v =>
    le_trans (surfaceNoise_length_le _) (foldl_carve_length_le _ v good)
  refine ⟨?_, ?_, ?_⟩
  · intro v hv
    unfold createMoonHoles at hv
    simp only [List.map_map, List.mem_map] at hv
    obtain ⟨v0, hv0, rfl⟩ := hv
    have h0 := sphereGeometry_length moonRadius 64 64 v0 hv0
    have hR : |moonRadius| = moonRadius := abs_of_pos (by unfold moonRadius; norm_num)
    rw [hR] at h0
    rw [← h0]
    exact step v0
  · intro positions
    unfold createMoonHoles
    simp only [List.map_map, List.forall₂_map_right_iff, List.forall₂_same]
    intro v _
    exact step v
  · intro c hc vertex distance hd0 hd
    obtain ⟨_, _, _, h4, h5⟩ := craterLocations_ranges rand hrand c hc
    exact (craterDepth_pos vertex c distance hd0 hd h4 h5.le).1

/-- C7 at a concrete stream of draws (every draw equal to one half). -/
theorem C7_craters_carve_inward_witness :
    (∀ n : Nat, (0 : ℝ) ≤ (fun _ => (1 / 2 : ℝ)) n ∧ (fun _ => (1 / 2 : ℝ)) n < 1)
      ∧ ∀ v ∈ createMoonHoles (fun _ => 1 / 2) (sphereGeometry moonRadius 64 64),
          v.length ≤ moonRadius :=
  ⟨fun _ => ⟨by norm_num, by norm_num⟩,
    (C7_craters_carve_inward (fun _ => 1 / 2) (fun _ => ⟨by norm_num, by norm_num⟩)).1⟩

/-- C8: for every pair of angles the sampled anchor has distance exactly
`R = 500` from the centre; `createTerrainFeatures` records 60 entries in
`terrainPositions` (20 craters, 15 mountains, 25 hills), each at such an
anchor. -/
theorem C8_anchors_on_sphere (rand : Nat → ℝ) :
    (∀ theta phi : ℝ, (surfacePoint theta phi).length = moonRadius)
      ∧ moonRadius = 500
      ∧ (createTerrainFeatures rand).length = 60
      ∧ ((createTerrainFeatures rand).filter fun t => t.kind = .crater).length = 20
      ∧ ((createTerrainFeatures rand).filter fun t => t.kind = .mountain).length = 15
      ∧ ((createTerrainFeatures rand).filter fun t => t.kind = .hill).length = 25
      ∧ (∀ t ∈ createTerrainFeatures rand, t.position.length = 500)
      ∧ (∀ c ∈ craterLocations rand, c.pos.length = 500) := by
  refine ⟨fun theta phi => surfacePoint_length theta phi, rfl, ?_, ?_, ?_, ?_, ?_, ?_⟩
  · simp [createTerrainFeatures]
  · simp [createTerrainFeatures, List.filter_append, List.filter_map, TerrainPosition.kind,
      Function.comp_def]
  · simp [createTerrainFeatures, List.filter_append, List.filter_map, TerrainPosition.kind,
      Function.comp_def]
  · simp [createTerrainFeatures, List.filter_append, List.filter_map, TerrainPosition.kind,
      Function.comp_def]
  · intro t ht
    unfold createTerrainFeatures at ht
    simp only [List.mem_append, List.mem_map] at ht
    rcases ht with (⟨i, _, rfl⟩ | ⟨i, _, rfl⟩) | ⟨i, _, rfl⟩ <;>
      exact surfacePoint_length _ _
  · intro c hc
    unfold craterLocations at hc
    simp only [List.mem_append, List.mem_map] at hc
    rcases hc with ⟨j, _, rfl⟩ | ⟨j, _, rfl⟩ <;> exact surfacePoint_length _ _

/-! ## Surface material -/

/-- C9: for every assignment of success or failure to the three external
sources, the final colour map is the texture of the first source (in list
order) whose load succeeds and the procedural texture when none does, so it is
never unset; exactly the sources up to the first success are requested, hence
at most three; the normal and roughness maps are the procedural ones. -/
theorem C9_texture_fallback (succeeds : Nat → Bool) :
    (tryLoadTexture succeeds 0 initialLoader).material.map
        = some (match [0, 1, 2].find? succeeds with
          | some i => Texture.loaded (moonTextureUrls.getD i "")
          | none => Texture.proceduralTexture)
      ∧ (tryLoadTexture succeeds 0 initialLoader).material.map ≠ none
      ∧ (tryLoadTexture succeeds 0 initialLoader).requested
        = (match [0, 1, 2].find? succeeds with
          | some i => List.range (i + 1)
          | none => [0, 1, 2])
      ∧ (tryLoadTexture succeeds 0 initialLoader).requested.length ≤ 3
      ∧ (tryLoadTexture succeeds 0 initialLoader).material.normalMap = some Texture.normalMap
      ∧ (tryLoadTexture succeeds 0 initialLoader).material.roughnessMap
        = some Texture.roughnessMap
      ∧ moonTextureUrls.length = 3 := by
  cases h0 : succeeds 0 <;> cases h1 : succeeds 1 <;> cases h2 : succeeds 2 <;>
    simp [tryLoadTexture, initialLoader, moonTextureUrls, h0, h1, h2, List.find?, List.range_succ]

/-! ## Mode switching -/

theorem wiring_setActiveVerticalVelocity (s : Scene) (v : ℝ) :
    (setActiveVerticalVelocity s v).wiring = s.wiring := by
  unfold setActiveVerticalVelocity; split <;> rfl

theorem wiring_setActiveIsGrounded (s : Scene) (g : Bool) :
    (setActiveIsGrounded s g).wiring = s.wiring := by
  unfold setActiveIsGrounded; split <;> rfl

theorem wiring_clearJumping (s : Scene) : (clearJumping s).wiring = s.wiring := by
  unfold clearJumping; split <;> rfl

theorem wiring_setControlsEnabled (s : Scene) (e : Bool) :
    (setControlsEnabled s e).wiring = s.wiring := by
  unfold setControlsEnabled
  split
  · rename_i c hc
    simp [Scene.wiring, hc]
  · rfl

theorem wiring_moveStep (f : Frame) (s : Scene) : (moveStep f s).wiring = s.wiring := by
  unfold moveStep
  simp only
  split <;> rfl

theorem wiring_camera (s : Scene) (p : Vec3) :
    ({ s with cameraPosition := p } : Scene).wiring = s.wiring := rfl

theorem wiring_gravityStep (s : Scene) : (gravityStep s).wiring = s.wiring := by
  unfold gravityStep
  split
  · rfl
  · exact (wiring_camera _ _).trans (wiring_setActiveVerticalVelocity _ _)

theorem wiring_groundingStep (f : Frame) (s : Scene) :
    (groundingStep f s).wiring = s.wiring := by
  unfold groundingStep
  simp only
  split
  · split
    · refine (wiring_camera _ _).trans ?_
      rw [wiring_clearJumping, wiring_setActiveVerticalVelocity, wiring_setActiveIsGrounded]
    · split <;> rfl
  · split <;> rfl

theorem wiring_ceilingStep (s : Scene) : (ceilingStep s).wiring = s.wiring := by
  unfold ceilingStep
  split
  · exact wiring_setActiveVerticalVelocity _ _
  · rfl

/-- The frame callback leaves the wiring of the scene alone. -/
theorem wiring_animate (f : Frame) (s : Scene) : (animate f s).wiring = s.wiring := by
  unfold animate
  split
  · rw [wiring_ceilingStep, wiring_groundingStep, wiring_gravityStep, wiring_moveStep,
      wiring_setControlsEnabled]
  · exact wiring_setControlsEnabled s true

/-- The frame callback only writes the flag `enabled` of the orbit controls. -/
theorem controls_animate (f : Frame) (s : Scene) :
    (animate f s).controls = s.controls.map fun c => { c with enabled := !s.isFirstPerson } := by
  have hs : ∀ (t : Scene) (v : ℝ), (setActiveVerticalVelocity t v).controls = t.controls := by
    intro t v; unfold setActiveVerticalVelocity; split <;> rfl
  have hg : ∀ (t : Scene) (g : Bool), (setActiveIsGrounded t g).controls = t.controls := by
    intro t g; unfold setActiveIsGrounded; split <;> rfl
  have hj : ∀ (t : Scene), (clearJumping t).controls = t.controls := by
    intro t; unfold clearJumping; split <;> rfl
  have hm : ∀ (t : Scene), (moveStep f t).controls = t.controls := by
    intro t; unfold moveStep; simp only; split <;> rfl
  have hgr : ∀ (t : Scene), (gravityStep t).controls = t.controls := by
    intro t; unfold gravityStep; split
    · rfl
    · exact hs _ _
  have hgd : ∀ (t : Scene), (groundingStep f t).controls = t.controls := by
    intro t; unfold groundingStep; simp only
    split
    · split
      · show (clearJumping _).controls = _
        rw [hj, hs, hg]
      · split <;> rfl
    · split <;> rfl
  have hc : ∀ (t : Scene), (ceilingStep t).controls = t.controls := by
    intro t; unfold ceilingStep; split
    · exact hs _ _
    · rfl
  have he : ∀ (t : Scene) (e : Bool),
      (setControlsEnabled t e).controls = t.controls.map fun c => { c with enabled := e } := by
    intro t e; unfold setControlsEnabled
    cases h : t.controls <;> simp [h]
  unfold animate
  cases hfp : s.isFirstPerson
  · simp only [Bool.false_eq_true, if_false, Bool.not_false]
    exact he s true
  · simp only [if_true, Bool.not_true]
    rw [hc, hgd, hgr, hm, he]

@[simp] theorem animate_listeners (f : Frame) (s : Scene) :
    (animate f s).listeners = s.listeners :=
  congrArg Wiring.listeners (wiring_animate f s)

@[simp] theorem animate_connected (f : Frame) (s : Scene) :
    (animate f s).connected = s.connected :=
  congrArg Wiring.connected (wiring_animate f s)

@[simp] theorem animate_nextId (f : Frame) (s : Scene) : (animate f s).nextId = s.nextId :=
  congrArg Wiring.nextId (wiring_animate f s)

@[simp] theorem animate_canvas (f : Frame) (s : Scene) : (animate f s).canvas = s.canvas :=
  congrArg Wiring.canvas (wiring_animate f s)

@[simp] theorem animate_isMobile (f : Frame) (s : Scene) :
    (animate f s).isMobile = s.isMobile :=
  congrArg Wiring.isMobile (wiring_animate f s)

@[simp] theorem animate_isFirstPerson (f : Frame) (s : Scene) :
    (animate f s).isFirstPerson = s.isFirstPerson :=
  congrArg Wiring.isFirstPerson (wiring_animate f s)

@[simp] theorem animate_pointerLockElement (f : Frame) (s : Scene) :
    (animate f s).pointerLockElement = s.pointerLockElement :=
  congrArg Wiring.pointerLockElement (wiring_animate f s)

@[simp] theorem animate_orbitCleanup (f : Frame) (s : Scene) :
    (animate f s).orbitCleanup = s.orbitCleanup :=
  congrArg Wiring.orbitCleanup (wiring_animate f s)

@[simp] theorem animate_toggleFirstPersonMode (f : Frame) (s : Scene) :
    (animate f s).toggleFirstPersonMode = s.toggleFirstPersonMode :=
  congrArg Wiring.toggleFirstPersonMode (wiring_animate f s)

@[simp] theorem animate_pointerLockControls (f : Frame) (s : Scene) :
    (animate f s).pointerLockControls = s.pointerLockControls :=
  congrArg Wiring.pointerLockControls (wiring_animate f s)

@[simp] theorem animate_terrainVisible (f : Frame) (s : Scene) :
    (animate f s).terrainVisible = s.terrainVisible :=
  congrArg Wiring.terrainVisible (wiring_animate f s)

@[simp] theorem animate_firstPersonCleanup (f : Frame) (s : Scene) :
    (animate f s).firstPersonCleanup = s.firstPersonCleanup :=
  congrArg Wiring.firstPersonCleanup (wiring_animate f s)

@[simp] theorem animate_resizeListener (f : Frame) (s : Scene) :
    (animate f s).resizeListener = s.resizeListener :=
  congrArg Wiring.resizeListener (wiring_animate f s)

/-- The page settles in an Orbit-shaped state after loading, on a desktop and
on a mobile device alike. -/
theorem loadPage_orbitShape (mobile : Bool) (d : Draws) (f : Frame) :
    OrbitShape (loadPage mobile d f) := by
  unfold OrbitShape
  cases mobile <;>
    simp [loadPage, setIsMobile, mount, sceneEffectCleanup, sceneEffect, setupOrbitControls,
      addListener, removeListener, runCleanup, setTerrainVisible, emptyPage, controls_animate]

/-- C10: from an Orbit-mode scene, switching to Walk (where the terrain group
is visible, the orbit controls are gone and the Walk listeners are attached)
and back to Orbit gives an Orbit-mode scene again: orbit controls live and the
only connected control object, no pointer-lock controls, terrain group
hidden, and as many registered listeners as before the round trip, none of
them a Walk-mode handler. -/
theorem C10_round_trip (o : Scene) (h : OrbitShape o) (d1 d2 : Draws) (f1 f2 : Frame) :
    (setIsFirstPerson true d1 f1 o).isFirstPerson = true
      ∧ (setIsFirstPerson true d1 f1 o).terrainVisible = some true
      ∧ (setIsFirstPerson true d1 f1 o).controls.isSome = false
      ∧ (setIsFirstPerson true d1 f1 o).pointerLockControls.isSome = !o.isMobile
      ∧ (setIsFirstPerson true d1 f1 o).listeners.length = (if o.isMobile then 7 else 6)
      ∧ OrbitShape (setIsFirstPerson false d2 f2 (setIsFirstPerson true d1 f1 o))
      ∧ (setIsFirstPerson false d2 f2 (setIsFirstPerson true d1 f1 o)).controls.isSome = true
      ∧ (setIsFirstPerson false d2 f2 (setIsFirstPerson true d1 f1 o)).pointerLockControls = none
      ∧ (setIsFirstPerson false d2 f2 (setIsFirstPerson true d1 f1 o)).connected
        = ((setIsFirstPerson false d2 f2 (setIsFirstPerson true d1 f1 o)).controls.map
            fun c => (ControlKind.orbit, c.id)).toList
      ∧ (setIsFirstPerson false d2 f2 (setIsFirstPerson true d1 f1 o)).terrainVisible = some false
      ∧ (setIsFirstPerson false d2 f2 (setIsFirstPerson true d1 f1 o)).listeners.length
        = o.listeners.length
      ∧ (setIsFirstPerson false d2 f2 (setIsFirstPerson true d1 f1 o)).listeners.map
          (fun l => l.fn)
        = [HandlerFn.checkMobile, HandlerFn.handleResize, HandlerFn.orbitHandleClick] := by
  obtain ⟨i, r, c, k, h1, h0, h2, h3, h4, h5, h6, h7, h8, h9⟩ := h
  obtain ⟨k0, hk0, hk⟩ := Option.map_eq_some'.1 h6
  cases hm : o.isMobile <;>
  · unfold OrbitShape
    simp [setIsFirstPerson, sceneEffectCleanup, sceneEffect,
      setupOrbitControls, setupFirstPersonControls, addListener, removeListener, runCleanup,
      setTerrainVisible, controls_animate, h0, h1, h2, h3, h4, h5, hk0, hk, h7, h8, h9, hm]

/-- C10 at a concrete input: the page loaded on a mobile device. -/
theorem C10_round_trip_witness :
    OrbitShape (loadPage true sampleDraws poleFrame)
      ∧ (setIsFirstPerson true sampleDraws poleFrame
          (loadPage true sampleDraws poleFrame)).listeners.length = 7
      ∧ (setIsFirstPerson false sampleDraws poleFrame (setIsFirstPerson true sampleDraws poleFrame
          (loadPage true sampleDraws poleFrame))).listeners.length = 3 := by
  have hs := loadPage_orbitShape true sampleDraws poleFrame
  have hmob : (loadPage true sampleDraws poleFrame).isMobile = true := by
    simp [loadPage, setIsMobile, mount, sceneEffectCleanup, sceneEffect, setupOrbitControls,
      addListener, removeListener, runCleanup, setTerrainVisible, emptyPage, controls_animate]
  have h := C10_round_trip (loadPage true sampleDraws poleFrame) hs sampleDraws sampleDraws
    poleFrame poleFrame
  obtain ⟨i, r, c, k, _, _, hl, _⟩ := hs
  refine ⟨loadPage_orbitShape true sampleDraws poleFrame, ?_, ?_⟩
  · rw [h.2.2.2.2.1, hmob]
    rfl
  · rw [h.2.2.2.2.2.2.2.2.2.2.1, hl]
    rfl

/-! ## The branches of the grounding step -/

/-- A first-person tick is the four steps in order. -/
theorem animate_walk (f : Frame) (s : Scene) (hwalk : s.isFirstPerson = true) :
    animate f s = ceilingStep (groundingStep f (probeState f s)) := by
  unfold animate probeState
  rw [if_pos hwalk]

/-- The grounding step when the probe hits: landing, airborne, or following. -/
theorem groundingStep_hit (f : Frame) (p : Scene) (hit : Hit)
    (hhit : groundingProbe f p = some hit) :
    (landingCondition p hit →
        (groundingStep f p).cameraPosition = p.cameraPosition.lerp (groundTarget p hit) 0.5)
      ∧ (¬ landingCondition p hit → activeIsGrounded p = false → groundingStep f p = p)
      ∧ (¬ landingCondition p hit → activeIsGrounded p = true →
          groundingStep f p
            = { p with cameraPosition := p.cameraPosition.lerp (groundTarget p hit) 0.4 }) := by
  unfold groundingProbe at hhit
  unfold landingCondition groundTarget
  refine ⟨?_, ?_, ?_⟩
  · intro hl
    unfold groundingStep
    simp only [hhit]
    rw [if_pos hl]
    simp only [cameraPosition_setVV]
    have e1 : ∀ t : Scene, (clearJumping t).cameraPosition = t.cameraPosition := by
      intro t; unfold clearJumping; split <;> rfl
    have e2 : ∀ (t : Scene) (g : Bool), (setActiveIsGrounded t g).cameraPosition
        = t.cameraPosition := by
      intro t g; unfold setActiveIsGrounded; split <;> rfl
    rw [e1, cameraPosition_setVV, e2]
  · intro hl hg
    unfold groundingStep
    simp only [hhit]
    rw [if_neg hl, if_neg (by simp [hg])]
  · intro hl hg
    unfold groundingStep
    simp only [hhit]
    rw [if_neg hl, if_pos hg]

/-- C20: in a Walk tick whose grounding probe hits, with
`target = hitPoint + eyeHeight * hitNormal`: under the landing condition
(distance at most `eyeHeight + 0.5`, vertical velocity at most zero) the camera
ends at `pos + 0.5 * (target - pos)`; otherwise an airborne observer is left
untouched by the grounding step (position, vertical velocity and grounded flag
as the gravity step left them); otherwise the camera ends at
`pos + 0.4 * (target - pos)`. -/
theorem C20_grounding_branches (f : Frame) (s : Scene) (hit : Hit)
    (hwalk : s.isFirstPerson = true)
    (hhit : groundingProbe f (probeState f s) = some hit) :
    (landingCondition (probeState f s) hit →
        (animate f s).cameraPosition
          = (probeState f s).cameraPosition.add
              (((groundTarget (probeState f s) hit).sub
                (probeState f s).cameraPosition).multiplyScalar 0.5))
      ∧ (¬ landingCondition (probeState f s) hit →
          activeIsGrounded (probeState f s) = false →
          groundingStep f (probeState f s) = probeState f s
            ∧ (animate f s).cameraPosition = (probeState f s).cameraPosition
            ∧ activeIsGrounded (animate f s) = false)
      ∧ (¬ landingCondition (probeState f s) hit →
          activeIsGrounded (probeState f s) = true →
          (animate f s).cameraPosition
              = (probeState f s).cameraPosition.add
                  (((groundTarget (probeState f s) hit).sub
                    (probeState f s).cameraPosition).multiplyScalar 0.4)
            ∧ activeVerticalVelocity (groundingStep f (probeState f s))
              = activeVerticalVelocity (probeState f s)
            ∧ activeIsGrounded (animate f s) = true) := by
  obtain ⟨h1, h2, h3⟩ := groundingStep_hit f (probeState f s) hit hhit
  rw [animate_walk f s hwalk, cameraPosition_ceilingStep]
  refine ⟨?_, ?_, ?_⟩
  · intro hl
    rw [h1 hl]
    rfl
  · intro hl hg
    rw [h2 hl hg]
    exact ⟨rfl, rfl, (ceilingStep_keeps _).1.trans hg⟩
  · intro hl hg
    rw [h3 hl hg]
    exact ⟨rfl, rfl, (ceilingStep_keeps _).1.trans hg⟩

/-- C20 at a concrete input: the desktop observer standing on the pole lands
on the hit under it and stays at the canonical height. -/
theorem C20_grounding_branches_witness :
    walkSample.isFirstPerson = true
      ∧ landingCondition (probeState poleFrame walkSample) ⟨⟨0, moonRadius, 0⟩, none⟩
      ∧ (animate poleFrame walkSample).cameraPosition = ⟨0, 501.7, 0⟩ := by
  have hpos : (probeState poleFrame walkSample).cameraPosition
      = ⟨0, moonRadius + eyeHeight, 0⟩ := by
    simp [probeState, gravityStep, moveStep, setControlsEnabled, walkSample, emptyPage,
      activeIsGrounded]
  have hd : (probeState poleFrame walkSample).cameraPosition.distanceTo ⟨0, moonRadius, 0⟩
      = eyeHeight := by
    rw [hpos]
    unfold Vec3.distanceTo Vec3.distanceToSquared moonRadius eyeHeight
    rw [show ((0 : ℝ) - 0) * (0 - 0) + (500 + 1.7 - 500) * (500 + 1.7 - 500) + (0 - 0) * (0 - 0)
      = 1.7 ^ 2 by norm_num]
    exact Real.sqrt_sq (by norm_num)
  have hv : activeVerticalVelocity (probeState poleFrame walkSample) ≤ 0 := by
    unfold probeState
    refine le_trans (gravityStep_velocity_le _) ?_
    rw [moveStep_activeVerticalVelocity, setControlsEnabled_activeVerticalVelocity]
    simp [activeVerticalVelocity, walkSample, emptyPage]
  have hl : landingCondition (probeState poleFrame walkSample) ⟨⟨0, moonRadius, 0⟩, none⟩ := by
    refine ⟨?_, hv⟩
    rw [hd]; unfold eyeHeight; norm_num
  have h := (C20_grounding_branches poleFrame walkSample ⟨⟨0, moonRadius, 0⟩, none⟩ rfl rfl).1 hl
  refine ⟨rfl, hl, ?_⟩
  rw [h, hpos]
  have hn : (Vec3.mk 0 (moonRadius + eyeHeight) 0).normalize = ⟨0, 1, 0⟩ :=
    normalize_axis_y _ (by unfold moonRadius eyeHeight; norm_num)
  unfold groundTarget
  simp only [hpos, hn]
  simp only [Vec3.add, Vec3.sub, Vec3.multiplyScalar, moonRadius, eyeHeight, Vec3.mk.injEq]
  norm_num

/-! ## The horizontal velocity update -/

/-- The clamp commutes with negation. -/
theorem neg_clamp (m x : ℝ) (hm : 0 ≤ m) :
    -(max (-m) (min m x)) = max (-m) (min m (-x)) := by
  simp only [max_def, min_def]
  split_ifs <;> linarith

/-- The clamp is the identity on `[-m, m]`. -/
theorem clamp_of_abs_le (m x : ℝ) (h : |x| ≤ m) : max (-m) (min m x) = x := by
  obtain ⟨h1, h2⟩ := abs_le.1 h
  rw [min_eq_right h2, max_eq_right h1]

/-- The clamp lands in `[-m, m]`. -/
theorem abs_clamp_le (m x : ℝ) (hm : 0 ≤ m) : |max (-m) (min m x)| ≤ m := by
  rw [abs_le]
  constructor
  · exact le_max_left _ _
  · exact max_le (by linarith) (min_le_left _ _)

/-- Normalising a vector without `y` component. -/
theorem normalize_flat_real (dx dz : ℝ) :
    (Vec3.normalize ⟨dx, 0, dz⟩).x
        = (if Real.sqrt (dx * dx + dz * dz) = 0 then ((0 : ℝ), (0 : ℝ))
            else (dx / Real.sqrt (dx * dx + dz * dz), dz / Real.sqrt (dx * dx + dz * dz))).1
      ∧ (Vec3.normalize ⟨dx, 0, dz⟩).y = 0
      ∧ (Vec3.normalize ⟨dx, 0, dz⟩).z
        = (if Real.sqrt (dx * dx + dz * dz) = 0 then ((0 : ℝ), (0 : ℝ))
            else (dx / Real.sqrt (dx * dx + dz * dz), dz / Real.sqrt (dx * dx + dz * dz))).2 := by
  have hlen : (Vec3.mk dx 0 dz).length = Real.sqrt (dx * dx + dz * dz) := by
    unfold Vec3.length
    simp only [mul_zero, add_zero]
  unfold Vec3.normalize Vec3.divideScalar Vec3.multiplyScalar
  rw [hlen]
  by_cases h : Real.sqrt (dx * dx + dz * dz) = 0
  · have h0 : dx * dx + dz * dz = 0 :=
      (Real.sqrt_eq_zero (add_nonneg (mul_self_nonneg _) (mul_self_nonneg _))).1 h
    have hx : dx = 0 := by nlinarith [mul_self_nonneg dx, mul_self_nonneg dz]
    have hzz : dz = 0 := by nlinarith [mul_self_nonneg dx, mul_self_nonneg dz]
    simp [h, hx, hzz]
  · simp only [h, if_false, zero_mul, true_and]
    constructor <;> ring

/-- Normalising the intent vector gives the desired direction. -/
theorem normalize_flat (m : MobileMoveState) :
    (Vec3.normalize ⟨b2r m.right - b2r m.left, 0, b2r m.forward - b2r m.backward⟩).x
        = (desiredDirection m).1
      ∧ (Vec3.normalize ⟨b2r m.right - b2r m.left, 0, b2r m.forward - b2r m.backward⟩).y = 0
      ∧ (Vec3.normalize ⟨b2r m.right - b2r m.left, 0, b2r m.forward - b2r m.backward⟩).z
        = (desiredDirection m).2 := by
  unfold desiredDirection
  exact normalize_flat_real _ _

/-- The desired direction has no component on an axis without intent. -/
theorem desiredDirection_masked (m : MobileMoveState) :
    ((m.left || m.right) = false → (desiredDirection m).1 = 0)
      ∧ ((m.forward || m.backward) = false → (desiredDirection m).2 = 0) := by
  unfold desiredDirection b2r
  cases m.left <;> cases m.right <;> cases m.forward <;> cases m.backward <;> simp

/-- The horizontal velocity after the movement step of an enabled tick. -/
theorem moveStep_velocity (f : Frame) (s : Scene) (hen : movementEnabled f s = true)
    (hdir : s.direction.y = 0) :
    (moveStep f s).velocity.x
        = clampSpeed (s.velocity.x - s.velocity.x * 0.1
            - (desiredDirection (activeMoveState s)).1 * (moveSpeed * 0.1))
      ∧ (moveStep f s).velocity.z
        = clampSpeed (s.velocity.z - s.velocity.z * 0.1
            - (desiredDirection (activeMoveState s)).2 * (moveSpeed * 0.1))
      ∧ (moveStep f s).direction.y = 0 := by
  unfold movementEnabled at hen
  obtain ⟨nx, ny, nz⟩ := normalize_flat (activeMoveState s)
  obtain ⟨mx, mz⟩ := desiredDirection_masked (activeMoveState s)
  unfold moveStep clampSpeed
  simp only [hen, if_true, hdir, nx, ny, nz]
  refine ⟨?_, ?_, trivial⟩
  · cases h : ((activeMoveState s).left || (activeMoveState s).right)
    · simp [mx h]
    · simp
  · cases h : ((activeMoveState s).forward || (activeMoveState s).backward)
    · simp [mz h]
    · simp

/-- The steps after the movement step leave `direction` alone. -/
theorem direction_after_moveStep (f : Frame) (p : Scene) :
    (ceilingStep (groundingStep f (gravityStep p))).direction = p.direction := by
  have hs : ∀ (t : Scene) (v : ℝ), (setActiveVerticalVelocity t v).direction = t.direction := by
    intro t v; unfold setActiveVerticalVelocity; split <;> rfl
  have hg : ∀ (t : Scene) (g : Bool), (setActiveIsGrounded t g).direction = t.direction := by
    intro t g; unfold setActiveIsGrounded; split <;> rfl
  have hj : ∀ (t : Scene), (clearJumping t).direction = t.direction := by
    intro t; unfold clearJumping; split <;> rfl
  have hgr : ∀ (t : Scene), (gravityStep t).direction = t.direction := by
    intro t; unfold gravityStep; split
    · rfl
    · exact hs _ _
  have hgd : ∀ (t : Scene), (groundingStep f t).direction = t.direction := by
    intro t; unfold groundingStep; simp only
    split
    · split
      · show (clearJumping _).direction = _
        rw [hj, hs, hg]
      · split <;> rfl
    · split <;> rfl
  have hc : ∀ (t : Scene), (ceilingStep t).direction = t.direction := by
    intro t; unfold ceilingStep; split
    · exact hs _ _
    · rfl
  rw [hc, hgd, hgr]

/-- An enabled Walk tick updates the horizontal velocity by damping,
acceleration along the desired direction and the per-axis clamp. -/
theorem animate_velocity (f : Frame) (s : Scene) (hwalk : s.isFirstPerson = true)
    (hen : movementEnabled f s = true) (hdir : s.direction.y = 0) :
    (animate f s).velocity.x
        = clampSpeed (s.velocity.x - s.velocity.x * 0.1
            - (desiredDirection (activeMoveState s)).1 * (moveSpeed * 0.1))
      ∧ (animate f s).velocity.z
        = clampSpeed (s.velocity.z - s.velocity.z * 0.1
            - (desiredDirection (activeMoveState s)).2 * (moveSpeed * 0.1))
      ∧ (animate f s).direction.y = 0 := by
  have hen1 : movementEnabled f (setControlsEnabled s false) = true := by
    have e : movementEnabled f (setControlsEnabled s false) = movementEnabled f s := by
      unfold setControlsEnabled
      cases s.controls <;> rfl
    rw [e]; exact hen
  have hdir1 : (setControlsEnabled s false).direction.y = 0 := by
    have e : (setControlsEnabled s false).direction = s.direction := by
      unfold setControlsEnabled
      cases s.controls <;> rfl
    rw [e]; exact hdir
  have ha : activeMoveState (setControlsEnabled s false) = activeMoveState s := by
    unfold setControlsEnabled
    cases s.controls <;> rfl
  have hv : (setControlsEnabled s false).velocity = s.velocity := velocity_setControlsEnabled s false
  obtain ⟨h1, h2, h3⟩ := moveStep_velocity f (setControlsEnabled s false) hen1 hdir1
  rw [ha, hv] at h1 h2
  unfold animate
  rw [if_pos hwalk, direction_after_moveStep]
  simp only [velocity_ceilingStep, velocity_groundingStep, velocity_gravityStep]
  exact ⟨h1, h2, h3⟩

/-- C19: in a Walk tick with movement enabled, the displacement
`u = (-velocity.x, -velocity.z)` becomes the per-axis clamp to `[-0.2, 0.2]` of
`0.9 * u + 0.02 * d`, with `d` the normalised net intent (zero when the net
intent is zero); the bounds `|u| <= 0.2` and `direction.y = 0` hold again after
the tick; with zero net intent each component (within the bound) becomes
exactly `0.9` of itself, keeping its sign; with a single direction held, `d`
is the unit vector of that direction and a displacement that is not against
it becomes at least `0.02` along it. -/
theorem C19_displacement_update (f : Frame) (s : Scene) (hwalk : s.isFirstPerson = true)
    (hen : movementEnabled f s = true) (hdir : s.direction.y = 0) :
    -(animate f s).velocity.x
        = max (-0.2) (min 0.2 (0.9 * -s.velocity.x + 0.02 * (desiredDirection (activeMoveState s)).1))
      ∧ -(animate f s).velocity.z
        = max (-0.2) (min 0.2 (0.9 * -s.velocity.z + 0.02 * (desiredDirection (activeMoveState s)).2))
      ∧ (animate f s).direction.y = 0
      ∧ |(animate f s).velocity.x| ≤ 0.2
      ∧ |(animate f s).velocity.z| ≤ 0.2
      ∧ (desiredDirection (activeMoveState s) = (0, 0) →
          |s.velocity.x| ≤ 0.2 → |s.velocity.z| ≤ 0.2 →
          (animate f s).velocity.x = 0.9 * s.velocity.x
            ∧ (animate f s).velocity.z = 0.9 * s.velocity.z)
      ∧ (activeMoveState s = ⟨false, false, false, false⟩ →
          desiredDirection (activeMoveState s) = (0, 0))
      ∧ (activeMoveState s = ⟨true, false, false, false⟩ →
          desiredDirection (activeMoveState s) = (0, 1)
            ∧ (0 ≤ -s.velocity.z → 0.02 ≤ -(animate f s).velocity.z))
      ∧ (activeMoveState s = ⟨false, true, false, false⟩ →
          desiredDirection (activeMoveState s) = (0, -1)
            ∧ (-s.velocity.z ≤ 0 → -(animate f s).velocity.z ≤ -0.02))
      ∧ (activeMoveState s = ⟨false, false, true, false⟩ →
          desiredDirection (activeMoveState s) = (-1, 0)
            ∧ (-s.velocity.x ≤ 0 → -(animate f s).velocity.x ≤ -0.02))
      ∧ (activeMoveState s = ⟨false, false, false, true⟩ →
          desiredDirection (activeMoveState s) = (1, 0)
            ∧ (0 ≤ -s.velocity.x → 0.02 ≤ -(animate f s).velocity.x)) := by
  obtain ⟨hx, hz, hd⟩ := animate_velocity f s hwalk hen hdir
  have hms : moveSpeed = 0.2 := rfl
  have hux : -(animate f s).velocity.x
      = max (-0.2) (min 0.2 (0.9 * -s.velocity.x
          + 0.02 * (desiredDirection (activeMoveState s)).1)) := by
    rw [hx]
    unfold clampSpeed
    rw [hms, neg_clamp _ _ (by norm_num)]
    congr 2
    ring
  have huz : -(animate f s).velocity.z
      = max (-0.2) (min 0.2 (0.9 * -s.velocity.z
          + 0.02 * (desiredDirection (activeMoveState s)).2)) := by
    rw [hz]
    unfold clampSpeed
    rw [hms, neg_clamp _ _ (by norm_num)]
    congr 2
    ring
  have hbx : |(animate f s).velocity.x| ≤ 0.2 := by
    rw [hx]; unfold clampSpeed; rw [hms]; exact abs_clamp_le _ _ (by norm_num)
  have hbz : |(animate f s).velocity.z| ≤ 0.2 := by
    rw [hz]; unfold clampSpeed; rw [hms]; exact abs_clamp_le _ _ (by norm_num)
  have low : ∀ y : ℝ, 0 ≤ y → 0.02 ≤ max (-0.2) (min 0.2 (0.9 * y + 0.02 * 1)) := by
    intro y hy
    refine le_trans ?_ (le_max_right _ _)
    exact le_min (by norm_num) (by linarith)
  have high : ∀ y : ℝ, y ≤ 0 → max (-0.2) (min 0.2 (0.9 * y + 0.02 * -1)) ≤ -0.02 := by
    intro y hy
    exact max_le (by norm_num) (le_trans (min_le_right _ _) (by linarith))
  refine ⟨hux, huz, hd, hbx, hbz, ?_, ?_, ?_, ?_, ?_, ?_⟩
  · intro h0 hvx hvz
    rw [hx, hz, h0]
    unfold clampSpeed
    simp only [zero_mul, sub_zero]
    rw [hms, clamp_of_abs_le, clamp_of_abs_le]
    · constructor <;> ring
    · rw [abs_le] at hvz ⊢; constructor <;> linarith [hvz.1, hvz.2]
    · rw [abs_le] at hvx ⊢; constructor <;> linarith [hvx.1, hvx.2]
  · intro h
    rw [h]
    simp [desiredDirection, b2r]
  · intro h
    have hdd : desiredDirection (activeMoveState s) = (0, 1) := by
      rw [h]; simp [desiredDirection, b2r]
    refine ⟨hdd, fun hy => ?_⟩
    rw [huz, hdd]
    exact low _ hy
  · intro h
    have hdd : desiredDirection (activeMoveState s) = (0, -1) := by
      rw [h]; simp [desiredDirection, b2r]
    refine ⟨hdd, fun hy => ?_⟩
    rw [huz, hdd]
    exact high _ hy
  · intro h
    have hdd : desiredDirection (activeMoveState s) = (-1, 0) := by
      rw [h]; simp [desiredDirection, b2r]
    refine ⟨hdd, fun hy => ?_⟩
    rw [hux, hdd]
    exact high _ hy
  · intro h
    have hdd : desiredDirection (activeMoveState s) = (1, 0) := by
      rw [h]; simp [desiredDirection, b2r]
    refine ⟨hdd, fun hy => ?_⟩
    rw [hux, hdd]
    exact low _ hy

/-- C19 at a concrete input: the desktop observer at rest on the pole with
`W` held moves forward by `0.02` in the next tick. -/
theorem C19_displacement_update_witness :
    (onKeyDown .KeyW walkSample).isFirstPerson = true
      ∧ movementEnabled poleFrame (onKeyDown .KeyW walkSample) = true
      ∧ (onKeyDown .KeyW walkSample).direction.y = 0
      ∧ activeMoveState (onKeyDown .KeyW walkSample) = ⟨true, false, false, false⟩
      ∧ 0.02 ≤ -(animate poleFrame (onKeyDown .KeyW walkSample)).velocity.z := by
  have h := C19_displacement_update poleFrame (onKeyDown .KeyW walkSample) rfl rfl rfl
  have hz : (0 : ℝ) ≤ -(onKeyDown .KeyW walkSample).velocity.z := by
    simp [onKeyDown, walkSample, emptyPage, Vec3.zero]
  exact ⟨rfl, rfl, rfl, rfl, (h.2.2.2.2.2.2.2.1 rfl).2 hz⟩

/-- Every call of `animate` keeps `direction.y = 0`, which holds for the fresh
`direction` vector of the scene effect. -/
theorem animate_direction_y (f : Frame) (s : Scene) (hdir : s.direction.y = 0) :
    (animate f s).direction.y = 0 := by
  have e : (setControlsEnabled s false).direction = s.direction := by
    unfold setControlsEnabled
    cases s.controls <;> rfl
  have e1 : (setControlsEnabled s true).direction = s.direction := by
    unfold setControlsEnabled
    cases s.controls <;> rfl
  unfold animate
  split
  · rw [direction_after_moveStep]
    cases hen : movementEnabled f (setControlsEnabled s false)
    · have : moveStep f (setControlsEnabled s false) = setControlsEnabled s false := by
        unfold movementEnabled at hen
        unfold moveStep
        simp only [hen, Bool.false_eq_true, if_false]
      rw [this, e]; exact hdir
    · exact (moveStep_velocity f _ hen (by rw [e]; exact hdir)).2.2
  · show (setControlsEnabled s true).direction.y = 0
    rw [e1]; exact hdir

/-! ## The sphere fallback of the grounding step -/

/-- The grounding step when the probe finds nothing: a grounded observer is
blended toward the point at distance `R + eyeHeight` on its outward radial, an
airborne observer is left as it is. -/
theorem groundingStep_no_hit (f : Frame) (p : Scene) (hmiss : groundingProbe f p = none) :
    (activeIsGrounded p = true →
        groundingStep f p
          = { p with
              cameraPosition :=
                p.cameraPosition.lerp
                  (p.cameraPosition.normalize.multiplyScalar (moonRadius + eyeHeight)) 0.4 })
      ∧ (activeIsGrounded p = false → groundingStep f p = p) := by
  unfold groundingProbe at hmiss
  constructor
  · intro hg
    unfold groundingStep
    simp only [hmiss]
    rw [if_pos hg]
  · intro hg
    unfold groundingStep
    simp only [hmiss]
    rw [if_neg (by simp [hg])]

/-- In a Walk tick whose probe finds nothing, an airborne observer stays
airborne, whatever its height and its vertical velocity. -/
theorem no_hit_airborne_stays (f : Frame) (s : Scene) (hwalk : s.isFirstPerson = true)
    (hmiss : groundingProbe f (probeState f s) = none) (hair : activeIsGrounded s = false) :
    activeIsGrounded (animate f s) = false := by
  obtain ⟨_, m2, _⟩ := moveStep_active f (setControlsEnabled s false)
  obtain ⟨_, c2, _⟩ := setControlsEnabled_active s false
  have hg1 : activeIsGrounded (moveStep f (setControlsEnabled s false)) = false := by
    rw [m2, c2, hair]
  have hp : activeIsGrounded (probeState f s) = false := (gravityStep_airborne _ hg1).2.1
  rw [animate_walk f s hwalk, (groundingStep_no_hit f _ hmiss).2 hp]
  exact (ceilingStep_keeps _).1.trans hp

/-- C15 (refuted as stated): a desktop observer at the canonical height
`R + eyeHeight`, airborne with vertical velocity `-0.05`, in a tick whose
grounding probe finds nothing.  At the probe its velocity is `-0.06` and its
distance from the centre is below `R + eyeHeight`, yet after the tick it is
still airborne with velocity `-0.06`: the branch for an empty probe result is
guarded by `isGrounded` and does nothing to an airborne observer. -/
theorem C15_counterexample :
    fallingSample.isFirstPerson = true
      ∧ activeIsGrounded fallingSample = false
      ∧ groundingProbe missFrame (probeState missFrame fallingSample) = none
      ∧ (probeState missFrame fallingSample).cameraPosition.length ≤ moonRadius + eyeHeight
      ∧ activeVerticalVelocity (probeState missFrame fallingSample) = -0.06
      ∧ activeIsGrounded (animate missFrame fallingSample) = false
      ∧ activeVerticalVelocity (animate missFrame fallingSample) = -0.06 := by
  have hair : activeIsGrounded fallingSample = false := rfl
  obtain ⟨m1, m2, _⟩ := moveStep_active missFrame (setControlsEnabled fallingSample false)
  obtain ⟨c1, c2, _⟩ := setControlsEnabled_active fallingSample false
  have hg1 : activeIsGrounded (moveStep missFrame (setControlsEnabled fallingSample false))
      = false := by rw [m2, c2, hair]
  obtain ⟨g1, g2, _⟩ := gravityStep_airborne _ hg1
  have hv0 : activeVerticalVelocity fallingSample = -0.05 := rfl
  have hv : activeVerticalVelocity (probeState missFrame fallingSample) = -0.06 := by
    unfold probeState
    rw [g1, m1, c1, hv0]
    unfold moonGravity
    norm_num
  have hm : (moveStep missFrame (setControlsEnabled fallingSample false)).cameraPosition
      = ⟨0, 501.7, 0⟩ := by
    simp [moveStep, setControlsEnabled, fallingSample, walkSample, emptyPage, moonRadius,
      eyeHeight]
    norm_num
  have hpos : (probeState missFrame fallingSample).cameraPosition = ⟨0, 501.64, 0⟩ := by
    unfold probeState
    rw [gravityStep_airborne_position _ hg1, m1, c1, hv0, hm, normalize_axis_y _ (by norm_num)]
    simp only [Vec3.add, Vec3.multiplyScalar, moonGravity, Vec3.mk.injEq]
    norm_num
  have hmiss : groundingProbe missFrame (probeState missFrame fallingSample) = none := rfl
  have hgr : groundingStep missFrame (probeState missFrame fallingSample)
      = probeState missFrame fallingSample := (groundingStep_no_hit _ _ hmiss).2 g2
  have hlen : (probeState missFrame fallingSample).cameraPosition.length = 501.64 := by
    rw [hpos]; exact length_axis_y _ (by norm_num)
  refine ⟨rfl, hair, hmiss, ?_, hv, no_hit_airborne_stays _ _ rfl hmiss hair, ?_⟩
  · rw [hlen]; unfold moonRadius eyeHeight; norm_num
  · rw [animate_walk _ _ rfl, hgr]
    unfold ceilingStep
    rw [if_neg (by rw [hlen]; unfold moonRadius maxJumpHeight; norm_num)]
    exact hv

/-! ## Touch look -/

/-- A touch-move event either leaves the rotation alone or replaces it by the
clamped pitch and the shifted yaw. -/
theorem onTouchMove_rotation (e : List Offset) (s : Scene) :
    (onTouchMove e s).mobileTouchRotation = s.mobileTouchRotation
      ∨ ∃ (t : Offset) (r : TouchRotation), e = [t] ∧ s.mobileTouchRotation = some r
          ∧ s.touchStartRef.isSome = true
          ∧ (onTouchMove e s).mobileTouchRotation
            = some ⟨max (-Real.pi / 2) (min (Real.pi / 2) (r.x - (t.y - s.lastTouch.y) * 0.002)),
                r.y - (t.x - s.lastTouch.x) * 0.002⟩ := by
  cases hr : s.mobileTouchRotation with
  | none => left; unfold onTouchMove; simp [hr]
  | some r =>
    cases hs : s.touchStartRef with
    | none => left; unfold onTouchMove; simp [hr, hs]
    | some st =>
      match e with
      | [] => left; unfold onTouchMove; simp [hr]
      | [t] =>
        right
        refine ⟨t, r, rfl, rfl, rfl, ?_⟩
        unfold onTouchMove
        simp [hr, hs, rotationSpeed]
      | _ :: _ :: _ => left; unfold onTouchMove; simp [hr]

/-- A touch-move event keeps the pitch within a quarter turn. -/
theorem onTouchMove_pitch (e : List Offset) (s : Scene) (h : |touchPitch s| ≤ Real.pi / 2) :
    |touchPitch (onTouchMove e s)| ≤ Real.pi / 2 := by
  rcases onTouchMove_rotation e s with h1 | ⟨t, r, _, _, _, h1⟩
  · unfold touchPitch at *
    rw [h1]; exact h
  · unfold touchPitch
    rw [h1]
    simp only
    have hp : (0 : ℝ) ≤ Real.pi / 2 := by positivity
    rw [abs_le]
    constructor
    · have : -(Real.pi / 2) = -Real.pi / 2 := by ring
      rw [this]; exact le_max_left _ _
    · exact max_le (by linarith) (min_le_left _ _)

/-- A run of touch-move events keeps the pitch within a quarter turn. -/
theorem runTouchMoves_pitch (events : List (List Offset)) (s : Scene)
    (h : |touchPitch s| ≤ Real.pi / 2) :
    |touchPitch (runTouchMoves s events)| ≤ Real.pi / 2 := by
  induction events generalizing s with
  | nil => exact h
  | cons e rest ih =>
    unfold runTouchMoves
    exact ih _ (onTouchMove_pitch e s h)

/-- A run of single-finger touch-move events after a touch start adds the
scaled deltas to the yaw, without any clamp. -/
theorem runTouchMoves_yaw (pts : List Offset) (s : Scene) (r : TouchRotation)
    (hs : s.touchStartRef.isSome = true) (hr : s.mobileTouchRotation = some r) :
    touchYaw (runTouchMoves s (pts.map fun p => [p]))
      = r.y + ((touchDeltasX s.lastTouch.x pts).map fun dx => -dx * 0.002).sum := by
  induction pts generalizing s r with
  | nil =>
    simp [runTouchMoves, touchDeltasX, touchYaw, hr]
  | cons p rest ih =>
    obtain ⟨st, hst⟩ := Option.isSome_iff_exists.1 hs
    have e1 : (onTouchMove [p] s).mobileTouchRotation
        = some ⟨max (-Real.pi / 2) (min (Real.pi / 2) (r.x - (p.y - s.lastTouch.y) * rotationSpeed)),
            r.y - (p.x - s.lastTouch.x) * rotationSpeed⟩ := by
      unfold onTouchMove
      simp [hst, hr]
    have e2 : (onTouchMove [p] s).touchStartRef.isSome = true := by
      unfold onTouchMove
      simp [hst, hr]
    have e3 : (onTouchMove [p] s).lastTouch.x = p.x := by
      unfold onTouchMove
      simp [hst, hr]
    rw [List.map_cons, runTouchMoves, ih _ _ e2 e1, e3]
    simp only [touchDeltasX, List.map_cons, List.sum_cons, rotationSpeed]
    ring

/-- C14: in mobile Walk mode, starting from the rotation `(0, 0)` that Walk
entry installs, every run of touch-move events leaves the pitch
`touchRotation.x` in `[-pi/2, pi/2]`; an event that applies (one finger, after
a touch start) subtracts `deltaY * 0.002` from the pitch and clamps it, and
subtracts `deltaX * 0.002` from the yaw without clamping, so that after a run
of single-finger moves the yaw is the sum of the values `-deltaX * 0.002`. -/
theorem C14_touch_pitch_clamped (s0 : Scene) (events : List (List Offset))
    (p0 : Offset) (pts : List Offset) :
    touchPitch (setupFirstPersonControls { s0 with isMobile := true }).1 = 0
      ∧ touchYaw (setupFirstPersonControls { s0 with isMobile := true }).1 = 0
      ∧ |touchPitch (runTouchMoves (setupFirstPersonControls { s0 with isMobile := true }).1
          events)| ≤ Real.pi / 2
      ∧ (∀ (s : Scene) (t : Offset) (r : TouchRotation), s.touchStartRef.isSome = true →
          s.mobileTouchRotation = some r →
          touchPitch (onTouchMove [t] s)
              = max (-Real.pi / 2) (min (Real.pi / 2) (r.x - (t.y - s.lastTouch.y) * 0.002))
            ∧ touchYaw (onTouchMove [t] s) = r.y - (t.x - s.lastTouch.x) * 0.002)
      ∧ touchYaw (runTouchMoves
            (onTouchStart [p0] (setupFirstPersonControls { s0 with isMobile := true }).1)
            (pts.map fun p => [p]))
          = ((touchDeltasX p0.x pts).map fun dx => -dx * 0.002).sum
      ∧ |touchPitch (runTouchMoves
            (onTouchStart [p0] (setupFirstPersonControls { s0 with isMobile := true }).1)
            (pts.map fun p => [p]))| ≤ Real.pi / 2 := by
  have hrot : (setupFirstPersonControls { s0 with isMobile := true }).1.mobileTouchRotation
      = some ⟨0, 0⟩ := by
    unfold setupFirstPersonControls
    cases hc : s0.controls <;> simp [hc, addListener]
  have hp0 : touchPitch (setupFirstPersonControls { s0 with isMobile := true }).1 = 0 := by
    unfold touchPitch; rw [hrot]
  have hy0 : touchYaw (setupFirstPersonControls { s0 with isMobile := true }).1 = 0 := by
    unfold touchYaw; rw [hrot]
  have hpi : (0 : ℝ) ≤ Real.pi / 2 := by positivity
  have hstart : (onTouchStart [p0]
      (setupFirstPersonControls { s0 with isMobile := true }).1).mobileTouchRotation
      = some ⟨0, 0⟩ := by
    unfold onTouchStart; exact hrot
  refine ⟨hp0, hy0, ?_, ?_, ?_, ?_⟩
  · apply runTouchMoves_pitch
    rw [hp0, abs_zero]; exact hpi
  · intro s t r hs hr
    obtain ⟨st, hst⟩ := Option.isSome_iff_exists.1 hs
    unfold touchPitch touchYaw onTouchMove
    simp [hst, hr, rotationSpeed]
  · rw [runTouchMoves_yaw pts
      (onTouchStart [p0] (setupFirstPersonControls { s0 with isMobile := true }).1) ⟨0, 0⟩
      (by simp [onTouchStart]) hstart]
    simp [onTouchStart]
  · apply runTouchMoves_pitch
    unfold touchPitch
    rw [hstart]
    simp only [abs_zero]
    exact hpi

/-! ## Mode transitions between the two shapes -/

/-- Switching an Orbit-shaped scene to Walk gives a Walk-shaped scene of the
same device class, with the toggle closure of the new mode published. -/
theorem enterWalk_shape (o : Scene) (h : OrbitShape o) (d : Draws) (f : Frame) :
    WalkShape (setIsFirstPerson true d f o)
      ∧ (setIsFirstPerson true d f o).isMobile = o.isMobile
      ∧ (setIsFirstPerson true d f o).toggleFirstPersonMode = some true := by
  obtain ⟨i, r, c, k, h1, h0, h2, h3, h4, h5, h6, h7, h8, h9⟩ := h
  obtain ⟨k0, hk0, hk⟩ := Option.map_eq_some'.1 h6
  cases hm : o.isMobile <;>
  · unfold WalkShape
    simp [setIsFirstPerson, sceneEffectCleanup, sceneEffect,
      setupOrbitControls, setupFirstPersonControls, addListener, removeListener, runCleanup,
      setTerrainVisible, controls_animate, h0, h1, h2, h3, h4, h5, hk0, hk, h7, h8, h9, hm]

/-- Switching a Walk-shaped scene to Orbit gives an Orbit-shaped scene of the
same device class, with the toggle closure of the new mode published. -/
theorem enterOrbit_shape (w : Scene) (h : WalkShape w) (d : Draws) (f : Frame) :
    OrbitShape (setIsFirstPerson false d f w)
      ∧ (setIsFirstPerson false d f w).isMobile = w.isMobile
      ∧ (setIsFirstPerson false d f w).toggleFirstPersonMode = some false := by
  obtain ⟨i, r, a, b, c, e, k, h1, h0, h2, h3, h4, h5, h6⟩ := h
  rcases h6 with ⟨hm, h7, h8, h9, h10⟩ | ⟨hm, h7, h8, h9, h10⟩ <;>
  · unfold OrbitShape
    simp [setIsFirstPerson, sceneEffectCleanup, sceneEffect,
      setupOrbitControls, setupFirstPersonControls, addListener, removeListener, runCleanup,
      setTerrainVisible, controls_animate, h0, h1, h2, h3, h4, h5, h7, h8, h9, h10, hm]

/-! ## Toggles and clicks -/

/-- An Orbit-shaped scene captured the mode Orbit. -/
theorem OrbitShape.orbitMode {s : Scene} (h : OrbitShape s) : s.isFirstPerson = false := by
  obtain ⟨_, _, _, _, h1, _⟩ := h
  exact h1

/-- A Walk-shaped scene captured the mode Walk and shows the terrain. -/
theorem WalkShape.walkMode {s : Scene} (h : WalkShape s) :
    s.isFirstPerson = true ∧ s.terrainVisible = some true := by
  obtain ⟨_, _, _, _, _, _, _, h1, _, _, _, h5, _⟩ := h
  exact ⟨h1, h5⟩

/-- One invocation of the published `toggleMode` and its render. -/
theorem toggleAndRender_flip (a : App) (h : AppReady a) (d : Draws) (f : Frame) :
    (toggleAndRender d f a).scene.isFirstPerson = !a.scene.isFirstPerson
      ∧ (toggleAndRender d f a).notifications = a.notifications ++ [!a.scene.isFirstPerson]
      ∧ (toggleAndRender d f a).scene.isMobile = a.scene.isMobile
      ∧ AppReady (toggleAndRender d f a) := by
  obtain ⟨hshape, hp, ht, hs⟩ := h
  have e : toggleAndRender d f a
      = { scene := setIsFirstPerson (!a.scene.isFirstPerson) d f a.scene
          pendingIsFirstPerson := none
          shellIsFirstPerson := !a.scene.isFirstPerson
          notifications := a.notifications ++ [!a.scene.isFirstPerson] } := by
    unfold toggleAndRender callToggleFirstPersonMode
    rw [ht]
    rfl
  rw [e]
  rcases hshape with ho | hw
  · have hm := ho.orbitMode
    obtain ⟨t1, t2, t3⟩ := enterWalk_shape a.scene ho d f
    rw [hm] at *
    refine ⟨t1.walkMode.1, rfl, t2, Or.inr t1, rfl, ?_, ?_⟩
    · show (setIsFirstPerson true d f a.scene).toggleFirstPersonMode
        = some (setIsFirstPerson true d f a.scene).isFirstPerson
      rw [t1.walkMode.1]; exact t3
    · exact t1.walkMode.1.symm
  · have hm := hw.walkMode.1
    obtain ⟨t1, t2, t3⟩ := enterOrbit_shape a.scene hw d f
    rw [hm] at *
    refine ⟨t1.orbitMode, rfl, t2, Or.inl t1, rfl, ?_, ?_⟩
    · show (setIsFirstPerson false d f a.scene).toggleFirstPersonMode
        = some (setIsFirstPerson false d f a.scene).isFirstPerson
      rw [t1.orbitMode]; exact t3
    · exact t1.orbitMode.symm

/-- A run of toggles keeps the shell in step with the scene and emits one
notification per toggle. -/
theorem runToggles_ready (runs : List (Draws × Frame)) (a : App) (h : AppReady a) :
    AppReady (runToggles a runs)
      ∧ (runToggles a runs).notifications.length = a.notifications.length + runs.length
      ∧ (runToggles a runs).scene.isFirstPerson
        = (if runs.length % 2 = 0 then a.scene.isFirstPerson else !a.scene.isFirstPerson) := by
  induction runs generalizing a with
  | nil => exact ⟨h, rfl, by simp [runToggles]⟩
  | cons r rest ih =>
    obtain ⟨d, f⟩ := r
    obtain ⟨t1, t2, _, t4⟩ := toggleAndRender_flip a h d f
    obtain ⟨i1, i2, i3⟩ := ih (toggleAndRender d f a) t4
    unfold runToggles
    refine ⟨i1, ?_, ?_⟩
    · rw [i2, t2]
      simp only [List.length_append, List.length_cons, List.length_nil]
      omega
    · rw [i3, t1]
      simp only [List.length_cons]
      rcases Nat.mod_two_eq_zero_or_one rest.length with h0 | h0
      · have : (rest.length + 1) % 2 = 1 := by omega
        simp [h0, this]
      · have : (rest.length + 1) % 2 = 0 := by omega
        simp [h0, this]

/-- The loaded application is ready. -/
theorem loadApp_ready (mobile : Bool) (d : Draws) (f : Frame) : AppReady (loadApp mobile d f) := by
  have hs := loadPage_orbitShape mobile d f
  refine ⟨Or.inl hs, rfl, ?_, ?_⟩
  · show (loadPage mobile d f).toggleFirstPersonMode = some (loadPage mobile d f).isFirstPerson
    rw [hs.orbitMode]
    cases mobile <;>
      simp [loadPage, setIsMobile, mount, sceneEffectCleanup, sceneEffect, setupOrbitControls,
        addListener, removeListener, runCleanup, setTerrainVisible, emptyPage, controls_animate]
  · show false = (loadPage mobile d f).isFirstPerson
    rw [hs.orbitMode]

/-- C13: every invocation of the published `toggleMode`, followed by its
render, flips the scene's mode and emits exactly one notification, whose
payload is the new mode; the shell then records the scene's mode, two
consecutive toggles restore the mode, and after any run of toggles the shell
still records the scene's mode, with one notification per toggle. -/
theorem C13_toggle_notifies (a : App) (h : AppReady a) (d1 d2 : Draws) (f1 f2 : Frame)
    (runs : List (Draws × Frame)) :
    (toggleAndRender d1 f1 a).scene.isFirstPerson = !a.scene.isFirstPerson
      ∧ (toggleAndRender d1 f1 a).notifications
        = a.notifications ++ [(toggleAndRender d1 f1 a).scene.isFirstPerson]
      ∧ (toggleAndRender d1 f1 a).shellIsFirstPerson
        = (toggleAndRender d1 f1 a).scene.isFirstPerson
      ∧ (toggleAndRender d2 f2 (toggleAndRender d1 f1 a)).scene.isFirstPerson
        = a.scene.isFirstPerson
      ∧ (runToggles a runs).shellIsFirstPerson = (runToggles a runs).scene.isFirstPerson
      ∧ (runToggles a runs).notifications.length = a.notifications.length + runs.length := by
  obtain ⟨t1, t2, _, t4⟩ := toggleAndRender_flip a h d1 f1
  obtain ⟨u1, _, _, _⟩ := toggleAndRender_flip (toggleAndRender d1 f1 a) t4 d2 f2
  obtain ⟨r1, r2, _⟩ := runToggles_ready runs a h
  refine ⟨t1, ?_, t4.2.2.2, ?_, r1.2.2.2, r2⟩
  · rw [t2, t1]
  · rw [u1, t1, Bool.not_not]

/-- C13 at a concrete input: the application loaded on a desktop, toggled
once. -/
theorem C13_toggle_notifies_witness :
    AppReady (loadApp false sampleDraws poleFrame)
      ∧ (toggleAndRender sampleDraws poleFrame
          (loadApp false sampleDraws poleFrame)).scene.isFirstPerson = true
      ∧ (toggleAndRender sampleDraws poleFrame
          (loadApp false sampleDraws poleFrame)).notifications = [true]
      ∧ (toggleAndRender sampleDraws poleFrame
          (loadApp false sampleDraws poleFrame)).shellIsFirstPerson = true := by
  have hr := loadApp_ready false sampleDraws poleFrame
  have h := C13_toggle_notifies (loadApp false sampleDraws poleFrame) hr sampleDraws sampleDraws
    poleFrame poleFrame []
  have hm : (loadApp false sampleDraws poleFrame).scene.isFirstPerson = false :=
    (loadPage_orbitShape false sampleDraws poleFrame).orbitMode
  have h1 : (toggleAndRender sampleDraws poleFrame
      (loadApp false sampleDraws poleFrame)).scene.isFirstPerson = true := by
    rw [h.1, hm]; rfl
  refine ⟨hr, h1, ?_, ?_⟩
  · rw [h.2.1, h1]; rfl
  · rw [h.2.2.1, h1]

/-- A canvas click in an Orbit-shaped scene runs the orbit `handleClick` only:
it toggles exactly when the ray intersects the moon. -/
theorem canvasClick_orbit (a : App) (h : AppReady a) (ho : OrbitShape a.scene) (ray : ClickRay)
    (d : Draws) (f : Frame) :
    canvasClick ray d f a = if ray.hitsMoon then toggleAndRender d f a else a := by
  obtain ⟨_, hp, _, _⟩ := h
  have hm := ho.orbitMode
  obtain ⟨i, r, c, k, _, _, hl, _⟩ := ho
  have hr : render d f a = a := by
    unfold render
    rw [hp]
  unfold canvasClick
  rw [hl]
  simp only [List.filter, decide_eq_true_eq, reduceCtorEq, decide_False, Bool.false_and,
    decide_True, Bool.and_self, List.foldl_cons, List.foldl_nil]
  unfold runClickListener orbitHandleClick toggleAndRender
  simp only [hm, Bool.false_eq_true, if_false]
  cases ray.hitsMoon
  · simp only [Bool.false_eq_true, if_false]; exact hr
  · simp only [if_true]

/-- A canvas click in a Walk-shaped scene toggles exactly when the ray
intersects neither the moon nor a terrain mesh. -/
theorem canvasClick_walk (a : App) (h : AppReady a) (hw : WalkShape a.scene) (ray : ClickRay)
    (d : Draws) (f : Frame) :
    canvasClick ray d f a
      = if ray.hitsMoon || ray.hitsTerrain then a else toggleAndRender d f a := by
  obtain ⟨_, hp, _, _⟩ := h
  obtain ⟨hm, hv⟩ := hw.walkMode
  have hr : render d f a = a := by
    unfold render
    rw [hp]
  obtain ⟨i, r, p, q, c, e, k, _, _, _, _, _, _, h6⟩ := hw
  unfold canvasClick
  rcases h6 with ⟨_, _, _, hl, _⟩ | ⟨_, _, _, hl, _⟩ <;>
  · rw [hl]
    simp only [List.filter, decide_eq_true_eq, reduceCtorEq, decide_False, Bool.false_and,
      decide_True, Bool.and_self, Bool.and_false, List.foldl_cons, List.foldl_nil]
    unfold runClickListener handleSkyClick toggleAndRender
    simp only [hm, hv, Bool.not_true, Bool.false_eq_true, if_false, beq_self_eq_true,
      Bool.true_and]
    cases ray.hitsMoon <;> cases ray.hitsTerrain <;> simp [hr]

/-- C12: on a canvas click, in Orbit the mode switches to Walk if and only if
the click ray intersects the moon; in Walk (terrain group visible) it switches
to Orbit if and only if the ray intersects neither the moon nor a terrain
mesh; a click that does not switch the mode changes nothing at all. -/
theorem C12_click_transitions (a : App) (h : AppReady a) (ray : ClickRay) (d : Draws)
    (f : Frame) :
    (OrbitShape a.scene →
        ((canvasClick ray d f a).scene.isFirstPerson = true ↔ ray.hitsMoon = true))
      ∧ (WalkShape a.scene →
        ((canvasClick ray d f a).scene.isFirstPerson = false
          ↔ (ray.hitsMoon = false ∧ ray.hitsTerrain = false)))
      ∧ ((canvasClick ray d f a).scene.isFirstPerson = a.scene.isFirstPerson →
          canvasClick ray d f a = a)
      ∧ AppReady (canvasClick ray d f a) := by
  obtain ⟨t1, _, _, t4⟩ := toggleAndRender_flip a h d f
  have key : (OrbitShape a.scene →
        canvasClick ray d f a = if ray.hitsMoon then toggleAndRender d f a else a)
      ∧ (WalkShape a.scene → canvasClick ray d f a
        = if ray.hitsMoon || ray.hitsTerrain then a else toggleAndRender d f a) :=
    ⟨fun ho => canvasClick_orbit a h ho ray d f, fun hw => canvasClick_walk a h hw ray d f⟩
  refine ⟨?_, ?_, ?_, ?_⟩
  · intro ho
    rw [key.1 ho]
    have hm := ho.orbitMode
    cases ray.hitsMoon
    · simp [hm]
    · simp [t1, hm]
  · intro hw
    rw [key.2 hw]
    have hm := hw.walkMode.1
    cases ray.hitsMoon <;> cases ray.hitsTerrain <;> simp [t1, hm]
  · intro hsame
    rcases h.1 with ho | hw
    · rw [key.1 ho] at hsame ⊢
      cases hh : ray.hitsMoon
      · simp
      · rw [hh] at hsame
        simp only [if_true] at hsame
        rw [t1] at hsame
        cases a.scene.isFirstPerson <;> simp at hsame
    · rw [key.2 hw] at hsame ⊢
      cases hh : (ray.hitsMoon || ray.hitsTerrain)
      · rw [hh] at hsame
        simp only [Bool.false_eq_true, if_false] at hsame
        rw [t1] at hsame
        cases a.scene.isFirstPerson <;> simp at hsame
      · simp
  · rcases h.1 with ho | hw
    · rw [key.1 ho]
      cases ray.hitsMoon
      · simpa using h
      · simpa using t4
    · rw [key.2 hw]
      cases (ray.hitsMoon || ray.hitsTerrain)
      · simpa using t4
      · simpa using h

/-- C12 at a concrete input: a click on the moon on the freshly loaded desktop
page enters Walk. -/
theorem C12_click_transitions_witness :
    AppReady (loadApp false sampleDraws poleFrame)
      ∧ OrbitShape (loadApp false sampleDraws poleFrame).scene
      ∧ (canvasClick ⟨true, false⟩ sampleDraws poleFrame
          (loadApp false sampleDraws poleFrame)).scene.isFirstPerson = true :=
  ⟨loadApp_ready false sampleDraws poleFrame, loadPage_orbitShape false sampleDraws poleFrame,
    ((C12_click_transitions (loadApp false sampleDraws poleFrame)
      (loadApp_ready false sampleDraws poleFrame) ⟨true, false⟩ sampleDraws poleFrame).1
        (loadPage_orbitShape false sampleDraws poleFrame)).2 rfl⟩

/-- The displacement depth of a crater stays below 15 for every vertex inside
the crater's radius, when the crater's depth lies in the range `[2, 10)` of the
random draws: the rim term is subtracted and positive on the rim band. -/
theorem craterDepth_lt (vertex : Vec3) (crater : Crater) (distance : ℝ)
    (hd0 : 0 ≤ distance) (hd : distance < crater.radius)
    (hD : 2 ≤ crater.depth) (hD1 : crater.depth < 10) :
    craterDepth vertex crater distance < 15 := by
  have hr : 0 < crater.radius := lt_of_le_of_lt hd0 hd
  have hq0 : 0 ≤ distance / crater.radius := div_nonneg hd0 hr.le
  have hq1 : distance / crater.radius < 1 := (div_lt_one hr).2 hd
  unfold craterDepth
  simp only
  generalize atan2 (vertex.z - crater.pos.z) (vertex.x - crater.pos.x) = angle
  have hov : Real.sin (angle * 4) * 0.3 + Real.cos (angle * 6) * 0.2 ≤ 0.5 := by
    linarith [Real.sin_le_one (angle * 4), Real.cos_le_one (angle * 6)]
  generalize Real.sin (angle * 4) * 0.3 + Real.cos (angle * 6) * 0.2 = ov at hov ⊢
  have hf0 : 0 < 1 - distance / crater.radius := by linarith
  have hf1 : 1 - distance / crater.radius ≤ 1 := by linarith
  generalize 1 - distance / crater.radius = f at hf0 hf1 ⊢
  have hff : 0 < f * f := mul_pos hf0 hf0
  have hff1 : f * f ≤ 1 := by nlinarith
  have hbase : f * f * crater.depth ≤ 1 * crater.depth :=
    mul_le_mul_of_nonneg_right hff1 (by linarith)
  have hbase0 : 0 ≤ f * f * crater.depth := mul_nonneg hff.le (by linarith)
  have hm1 : 1 + ov * f ≤ 1.5 := by nlinarith
  have hmain : f * f * crater.depth * (1 + ov * f) < 15 := by
    have h1 : f * f * crater.depth * (1 + ov * f) ≤ f * f * crater.depth * 1.5 :=
      mul_le_mul_of_nonneg_left hm1 hbase0
    linarith
  split
  · rename_i hband
    obtain ⟨hlo, hhi⟩ := hband
    have hpos : 0 < Real.sin ((f - 0.7) * Real.pi / 0.25) := by
      apply Real.sin_pos_of_pos_of_lt_pi
      · have := Real.pi_pos
        apply div_pos (mul_pos (by linarith) this) (by norm_num)
      · have := Real.pi_pos
        rw [div_lt_iff₀ (by norm_num)]
        nlinarith
    linarith
  · exact hmain

/-- Carving by one crater of the generated kind, for a vertex inside the
crater's radius: the vertex was farther than 465 from the centre and moves
inward by exactly the displacement depth. -/
theorem carve_length (v : Vec3) (c : Crater)
    (hpos : c.pos.x * c.pos.x + c.pos.y * c.pos.y + c.pos.z * c.pos.z = 500 ^ 2)
    (hr : c.radius ≤ 35) (hD : 2 ≤ c.depth) (hD1 : c.depth < 10)
    (hlt : v.distanceTo c.pos < c.radius) :
    465 < v.length
      ∧ (carve v c).length = v.length - craterDepth v c (v.distanceTo c.pos) := by
  have hd0 : 0 ≤ v.distanceTo c.pos := by unfold Vec3.distanceTo; exact Real.sqrt_nonneg _
  have hr0 : 0 < c.radius := lt_of_le_of_lt hd0 hlt
  have hfar := near_surface_far_from_centre v c.pos c.radius hr0 hr hpos hlt
  refine ⟨hfar, ?_⟩
  unfold carve
  simp only
  rw [if_pos hlt]
  have hp := (craterDepth_pos v c (v.distanceTo c.pos) hd0 hlt hD hD1.le).1
  have hu := craterDepth_lt v c (v.distanceTo c.pos) hd0 hlt hD hD1
  generalize craterDepth v c (v.distanceTo c.pos) = depth at hp hu
  have hL : v.length ≠ 0 := by linarith
  have e : v.sub (v.normalize.multiplyScalar depth)
      = v.multiplyScalar (1 - 1 / v.length * depth) := by
    unfold Vec3.normalize
    rw [if_neg hL]
    simp only [Vec3.sub, Vec3.divideScalar, Vec3.multiplyScalar, Vec3.mk.injEq]
    refine ⟨?_, ?_, ?_⟩ <;> ring
  rw [e, length_multiplyScalar]
  have hq1 : 1 / v.length * depth ≤ 1 := by
    rw [one_div, inv_mul_le_iff₀ (by linarith)]
    linarith
  rw [abs_of_nonneg (by linarith)]
  field_simp

/-- Carving by one crater of the generated kind keeps a vertex farther than
450 from the centre. -/
theorem carve_far (v : Vec3) (c : Crater)
    (hpos : c.pos.x * c.pos.x + c.pos.y * c.pos.y + c.pos.z * c.pos.z = 500 ^ 2)
    (hr : c.radius ≤ 35) (hD : 2 ≤ c.depth) (hD1 : c.depth < 10)
    (hv : 450 < v.length) : 450 < (carve v c).length := by
  by_cases hlt : v.distanceTo c.pos < c.radius
  · have hd0 : 0 ≤ v.distanceTo c.pos := by unfold Vec3.distanceTo; exact Real.sqrt_nonneg _
    obtain ⟨hfar, hlen⟩ := carve_length v c hpos hr hD hD1 hlt
    have hu := craterDepth_lt v c (v.distanceTo c.pos) hd0 hlt hD hD1
    rw [hlen]
    linarith
  · unfold carve
    simp only
    rw [if_neg hlt]
    exact hv

/-- Carving by a list of craters of the generated kind keeps a vertex farther
than 450 from the centre. -/
theorem foldl_carve_far (cs : List Crater) (v : Vec3)
    (h : ∀ c ∈ cs, c.pos.x * c.pos.x + c.pos.y * c.pos.y + c.pos.z * c.pos.z = 500 ^ 2
      ∧ c.radius ≤ 35 ∧ 2 ≤ c.depth ∧ c.depth < 10)
    (hv : 450 < v.length) : 450 < (cs.foldl carve v).length := by
  induction cs generalizing v with
  | nil => exact hv
  | cons c rest ih =>
    rw [List.foldl_cons]
    have hc := h c (List.mem_cons_self _ _)
    refine ih (carve v c) ?_ (carve_far v c hc.1 hc.2.1 hc.2.2.1 hc.2.2.2 hv)
    intro c1 hc1
    exact h c1 (List.mem_cons_of_mem _ hc1)

/-- The noise pass restores the exact distance from the centre of every vertex
farther than 0.3 from it: the noise offset is at most 0.3 long. -/
theorem surfaceNoise_length (v : Vec3) (hv : 0.3 < v.length) :
    (surfaceNoise v).length = v.length := by
  unfold surfaceNoise
  simp only
  have hn : |Real.sin (v.x * 0.1) * Real.cos (v.y * 0.1) * Real.sin (v.z * 0.1)| ≤ 1 := by
    rw [abs_mul, abs_mul]
    have h1 := Real.abs_sin_le_one (v.x * 0.1)
    have h2 := Real.abs_cos_le_one (v.y * 0.1)
    have h3 := Real.abs_sin_le_one (v.z * 0.1)
    have h12 : |Real.sin (v.x * 0.1)| * |Real.cos (v.y * 0.1)| ≤ 1 * 1 :=
      mul_le_mul h1 h2 (abs_nonneg _) (by norm_num)
    calc |Real.sin (v.x * 0.1)| * |Real.cos (v.y * 0.1)| * |Real.sin (v.z * 0.1)|
        ≤ 1 * 1 * 1 := mul_le_mul h12 h3 (abs_nonneg _) (by norm_num)
      _ = 1 := by norm_num
  generalize Real.sin (v.x * 0.1) * Real.cos (v.y * 0.1) * Real.sin (v.z * 0.1) = t at hn
  obtain ⟨ht0, ht1⟩ := abs_le.1 hn
  have hL : v.length ≠ 0 := by linarith
  have hLp : 0 < v.length := by linarith
  have e : v.add (v.normalize.multiplyScalar (t * 0.3))
      = v.multiplyScalar (1 + 1 / v.length * (t * 0.3)) := by
    unfold Vec3.normalize
    rw [if_neg hL]
    simp only [Vec3.add, Vec3.divideScalar, Vec3.multiplyScalar, Vec3.mk.injEq]
    refine ⟨?_, ?_, ?_⟩ <;> ring
  have hk : 0 < 1 + 1 / v.length * (t * 0.3) := by
    have : -1 < 1 / v.length * (t * 0.3) := by
      rw [one_div, lt_inv_mul_iff₀ hLp]
      nlinarith
    linarith
  have hpos : 0 < (v.add (v.normalize.multiplyScalar (t * 0.3))).length := by
    rw [e, length_multiplyScalar, abs_of_pos hk]
    exact mul_pos hk hLp
  rw [if_pos hpos, length_multiplyScalar, length_normalize _ (ne_of_gt hpos), mul_one,
    abs_of_nonneg (length_nonneg v)]

/-- C16: whatever the random draws (each in `[0, 1)`), every vertex of the base
sphere ends `createMoonHoles` at a distance from the centre in `[R - 50, R]`;
a crater of the generated list displaces a vertex only when the vertex is
farther than `R - 35` from the centre, the displacement is inward, along the
radius, by a depth in `(0, 15)`, and a vertex outside the crater's radius is
left where it is. -/
theorem C16_vertex_band (rand : Nat → ℝ) (hrand : ∀ n, 0 ≤ rand n ∧ rand n < 1) :
    (∀ v ∈ createMoonHoles rand (sphereGeometry moonRadius 64 64),
        moonRadius - 50 ≤ v.length ∧ v.length ≤ moonRadius)
      ∧ (∀ c ∈ craterLocations rand, ∀ v : Vec3,
          (v.distanceTo c.pos < c.radius →
            moonRadius - 35 < v.length
              ∧ 0 < craterDepth v c (v.distanceTo c.pos)
              ∧ craterDepth v c (v.distanceTo c.pos) < 15
              ∧ (carve v c).length = v.length - craterDepth v c (v.distanceTo c.pos))
          ∧ (¬ v.distanceTo c.pos < c.radius → carve v c = v)) := by
  have good : ∀ c ∈ craterLocations rand,
      c.pos.x * c.pos.x + c.pos.y * c.pos.y + c.pos.z * c.pos.z = 500 ^ 2
        ∧ c.radius ≤ 35 ∧ 2 ≤ c.depth ∧ c.depth < 10 := by
    intro c hc
    obtain ⟨h1, _, h3, h4, h5⟩ := craterLocations_ranges rand hrand c hc
    exact ⟨h1, h3.le, h4, h5⟩
  have good2 : ∀ c ∈ craterLocations rand,
      c.pos.x * c.pos.x + c.pos.y * c.pos.y + c.pos.z * c.pos.z = 500 ^ 2
        ∧ c.radius ≤ 35 ∧ 2 ≤ c.depth ∧ c.depth ≤ 10 := by
    intro c hc
    obtain ⟨h1, h2, h3, h4⟩ := good c hc
    exact ⟨h1, h2, h3, h4.le⟩
  have hR : moonRadius = 500 := rfl
  refine ⟨?_, ?_⟩
  · intro v hv
    unfold createMoonHoles at hv
    simp only [List.map_map, List.mem_map] at hv
    obtain ⟨v0, hv0, rfl⟩ := hv
    have h0 := sphereGeometry_length moonRadius 64 64 v0 hv0
    rw [abs_of_pos (by unfold moonRadius; norm_num)] at h0
    have hfar : 450 < ((craterLocations rand).foldl carve v0).length :=
      foldl_carve_far _ v0 good (by rw [h0, hR]; norm_num)
    have hle := foldl_carve_length_le _ v0 good2
    simp only [Function.comp]
    rw [surfaceNoise_length _ (by linarith), hR]
    rw [h0, hR] at hle
    constructor <;> linarith
  · intro c hc v
    obtain ⟨h1, h2, h3, h4⟩ := good c hc
    constructor
    · intro hlt
      have hd0 : 0 ≤ v.distanceTo c.pos := by unfold Vec3.distanceTo; exact Real.sqrt_nonneg _
      obtain ⟨hfar, hlen⟩ := carve_length v c h1 h2 h3 h4 hlt
      refine ⟨by rw [hR]; linarith, (craterDepth_pos v c _ hd0 hlt h3 h4.le).1,
        craterDepth_lt v c _ hd0 hlt h3 h4, hlen⟩
    · intro hlt
      unfold carve
      simp only
      rw [if_neg hlt]

/-- C16 at a concrete stream of draws (every draw equal to one half). -/
theorem C16_vertex_band_witness :
    (∀ n : Nat, (0 : ℝ) ≤ (fun _ => (1 / 2 : ℝ)) n ∧ (fun _ => (1 / 2 : ℝ)) n < 1)
      ∧ ∀ v ∈ createMoonHoles (fun _ => 1 / 2) (sphereGeometry moonRadius 64 64),
          moonRadius - 50 ≤ v.length ∧ v.length ≤ moonRadius :=
  ⟨fun _ => ⟨by norm_num, by norm_num⟩,
    (C16_vertex_band (fun _ => 1 / 2) (fun _ => ⟨by norm_num, by norm_num⟩)).1⟩

/-! ## Regeneration of the surface on a mode switch -/

theorem surface_setActiveVerticalVelocity (s : Scene) (v : ℝ) :
    (setActiveVerticalVelocity s v).surface = s.surface := by
  unfold setActiveVerticalVelocity; split <;> rfl

theorem surface_setActiveIsGrounded (s : Scene) (g : Bool) :
    (setActiveIsGrounded s g).surface = s.surface := by
  unfold setActiveIsGrounded; split <;> rfl

theorem surface_clearJumping (s : Scene) : (clearJumping s).surface = s.surface := by
  unfold clearJumping; split <;> rfl

theorem surface_setControlsEnabled (s : Scene) (e : Bool) :
    (setControlsEnabled s e).surface = s.surface := by
  unfold setControlsEnabled
  cases s.controls <;> rfl

theorem surface_moveStep (f : Frame) (s : Scene) : (moveStep f s).surface = s.surface := by
  unfold moveStep
  simp only
  split <;> rfl

theorem surface_camera (s : Scene) (p : Vec3) :
    ({ s with cameraPosition := p } : Scene).surface = s.surface := rfl

theorem surface_gravityStep (s : Scene) : (gravityStep s).surface = s.surface := by
  unfold gravityStep
  split
  · rfl
  · exact (surface_camera _ _).trans (surface_setActiveVerticalVelocity _ _)

theorem surface_groundingStep (f : Frame) (s : Scene) :
    (groundingStep f s).surface = s.surface := by
  unfold groundingStep
  simp only
  split
  · split
    · refine (surface_camera _ _).trans ?_
      rw [surface_clearJumping, surface_setActiveVerticalVelocity, surface_setActiveIsGrounded]
    · split <;> rfl
  · split <;> rfl

theorem surface_ceilingStep (s : Scene) : (ceilingStep s).surface = s.surface := by
  unfold ceilingStep
  split
  · exact surface_setActiveVerticalVelocity _ _
  · rfl

/-- The frame callback leaves the generated surface alone. -/
theorem surface_animate (f : Frame) (s : Scene) : (animate f s).surface = s.surface := by
  unfold animate
  split
  · rw [surface_ceilingStep, surface_groundingStep, surface_gravityStep, surface_moveStep,
      surface_setControlsEnabled]
  · exact surface_setControlsEnabled s true

@[simp] theorem animate_terrainPositions (f : Frame) (s : Scene) :
    (animate f s).terrainPositions = s.terrainPositions :=
  congrArg Prod.fst (surface_animate f s)

@[simp] theorem animate_moonVertices (f : Frame) (s : Scene) :
    (animate f s).moonVertices = s.moonVertices :=
  congrArg Prod.snd (surface_animate f s)

/-- Loading the page generates the surface from the draws of the last run of
the scene effect. -/
theorem loadPage_surface (mobile : Bool) (d : Draws) (f : Frame) :
    (loadPage mobile d f).terrainPositions = createTerrainFeatures d.terrain
      ∧ (loadPage mobile d f).moonVertices
        = createMoonHoles d.moon (sphereGeometry moonRadius 64 64) := by
  cases mobile <;>
    simp [loadPage, setIsMobile, mount, sceneEffectCleanup, sceneEffect, setupOrbitControls,
      addListener, removeListener, runCleanup, setTerrainVisible, emptyPage, controls_animate]

/-- Entering Walk from an Orbit-shaped scene generates the surface again, from
the draws of the new run of the scene effect. -/
theorem enterWalk_surface (o : Scene) (h : OrbitShape o) (d : Draws) (f : Frame) :
    (setIsFirstPerson true d f o).terrainPositions = createTerrainFeatures d.terrain
      ∧ (setIsFirstPerson true d f o).moonVertices
        = createMoonHoles d.moon (sphereGeometry moonRadius 64 64) := by
  obtain ⟨i, r, c, k, h1, h0, h2, h3, h4, h5, h6, h7, h8, h9⟩ := h
  obtain ⟨k0, hk0, hk⟩ := Option.map_eq_some'.1 h6
  cases hm : o.isMobile <;>
    simp [setIsFirstPerson, sceneEffectCleanup, sceneEffect,
      setupOrbitControls, setupFirstPersonControls, addListener, removeListener, runCleanup,
      setTerrainVisible, controls_animate, h0, h1, h2, h3, h4, h5, hk0, hk, h7, h8, h9, hm]

/-- Returning to Orbit from a Walk-shaped scene generates the surface again,
from the draws of the new run of the scene effect. -/
theorem enterOrbit_surface (w : Scene) (h : WalkShape w) (d : Draws) (f : Frame) :
    (setIsFirstPerson false d f w).terrainPositions = createTerrainFeatures d.terrain
      ∧ (setIsFirstPerson false d f w).moonVertices
        = createMoonHoles d.moon (sphereGeometry moonRadius 64 64) := by
  obtain ⟨i, r, a, b, c, e, k, h1, h0, h2, h3, h4, h5, h6⟩ := h
  rcases h6 with ⟨hm, h7, h8, h9, h10⟩ | ⟨hm, h7, h8, h9, h10⟩ <;>
    simp [setIsFirstPerson, sceneEffectCleanup, sceneEffect,
      setupOrbitControls, setupFirstPersonControls, addListener, removeListener, runCleanup,
      setTerrainVisible, controls_animate, h0, h1, h2, h3, h4, h5, h7, h8, h9, h10, hm]

/-- The first entry of `terrainPositions` is a crater whose extent comes from
the first random draw. -/
theorem createTerrainFeatures_head (rand : Nat → ℝ) :
    (createTerrainFeatures rand).head?
      = some (TerrainPosition.crater (surfacePoint (rand 2 * Real.pi * 2) (rand 3 * Real.pi))
          (rand 0 * 12 + 5)) := by
  unfold createTerrainFeatures
  rw [show List.range 20 = 0 :: (List.range 19).map Nat.succ from List.range_succ_eq_map 19]
  simp

/-- Two streams of draws whose first values differ give different terrain. -/
theorem createTerrainFeatures_ne (r1 r2 : Nat → ℝ) (h : r1 0 ≠ r2 0) :
    createTerrainFeatures r1 ≠ createTerrainFeatures r2 := by
  intro e
  have e1 := congrArg List.head? e
  rw [createTerrainFeatures_head, createTerrainFeatures_head] at e1
  simp only [Option.some.injEq, TerrainPosition.crater.injEq] at e1
  apply h
  linarith [e1.2]

/-- C17 (refuted for the code): a mode switch runs the whole scene effect
again, so the terrain features and the moon vertices are generated again from
new random draws.  After loading the page with every draw equal to one half
and switching to Walk with every draw equal to one quarter, the recorded
terrain differs from the terrain before the switch (the first crater has
extent 8 instead of 11); switching back to Orbit with draws of one half
changes it once more. -/
theorem C17_switch_regenerates_terrain :
    (loadPage false sampleDraws poleFrame).terrainPositions
        = createTerrainFeatures sampleDraws.terrain
      ∧ (setIsFirstPerson true otherDraws poleFrame
          (loadPage false sampleDraws poleFrame)).terrainPositions
        = createTerrainFeatures otherDraws.terrain
      ∧ (setIsFirstPerson true otherDraws poleFrame
          (loadPage false sampleDraws poleFrame)).moonVertices
        = createMoonHoles otherDraws.moon (sphereGeometry moonRadius 64 64)
      ∧ (setIsFirstPerson true otherDraws poleFrame
          (loadPage false sampleDraws poleFrame)).terrainPositions
        ≠ (loadPage false sampleDraws poleFrame).terrainPositions
      ∧ (setIsFirstPerson false sampleDraws poleFrame
          (setIsFirstPerson true otherDraws poleFrame
            (loadPage false sampleDraws poleFrame))).terrainPositions
        ≠ (setIsFirstPerson true otherDraws poleFrame
            (loadPage false sampleDraws poleFrame)).terrainPositions := by
  have ho := loadPage_orbitShape false sampleDraws poleFrame
  have hw := (enterWalk_shape _ ho otherDraws poleFrame).1
  have e0 := (loadPage_surface false sampleDraws poleFrame).1
  have e1 := enterWalk_surface _ ho otherDraws poleFrame
  have e2 := (enterOrbit_surface _ hw sampleDraws poleFrame).1
  refine ⟨e0, e1.1, e1.2, ?_, ?_⟩
  · rw [e1.1, e0]
    apply createTerrainFeatures_ne
    simp only [otherDraws, sampleDraws]
    norm_num
  · rw [e2, e1.1]
    apply createTerrainFeatures_ne
    simp only [otherDraws, sampleDraws]
    norm_num

/-! ## A held Space key over a whole jump -/

/-- On the desktop adapter the active jump state is the closure state. -/
theorem active_desktop (s : Scene) (hm : s.isMobile = false) :
    activeVerticalVelocity s = s.jumpState.verticalVelocity
      ∧ activeIsGrounded s = s.jumpState.isGrounded
      ∧ activeJumping s = s.moveState.jump := by
  simp [activeVerticalVelocity, activeIsGrounded, activeJumping, hm]

/-- The distance between two points of the polar axis. -/
theorem distanceTo_axis_y (y c : ℝ) : (Vec3.mk 0 y 0).distanceTo ⟨0, c, 0⟩ = |y - c| := by
  unfold Vec3.distanceTo Vec3.distanceToSquared
  simp only [sub_self, mul_zero, zero_add, add_zero]
  rw [← sq, Real.sqrt_sq_eq_abs]

/-- The movement step leaves an observer in vertical flight where it is. -/
theorem heldJump_moveStep (s : Scene) (y v : ℝ) (h : HeldJump s y v) :
    HeldJump (moveStep poleFrame (setControlsEnabled s false)) y v := by
  obtain ⟨h1, h2, h3, h4, h5, h6, h7⟩ := h
  unfold HeldJump setControlsEnabled moveStep
  cases hc : s.controls <;> cases hp : s.pointerLockControls <;>
    simp [activeMoveState, h1, h2, h3, h4, h5, h6, h7, hc, hp, poleFrame, Vec3.add,
      Vec3.multiplyScalar, moveSpeed, b2r, Vec3.zero] <;>
    rw [min_eq_right (by norm_num), max_eq_right (by norm_num)]

/-- The gravity step of an observer in vertical flight. -/
theorem heldJump_gravityStep (s : Scene) (y v : ℝ) (h : HeldJump s y v) (hy : 0 < y) :
    HeldJump (gravityStep s) (y + (v - moonGravity)) (v - moonGravity) := by
  obtain ⟨h1, h2, h3, h4, h5, h6, h7⟩ := h
  unfold HeldJump gravityStep
  simp [activeIsGrounded, activeVerticalVelocity, setActiveVerticalVelocity, h1, h2, h3, h4,
    h5, h6, h7, normalize_axis_y y hy, Vec3.add, Vec3.multiplyScalar]

/-- The state at the grounding probe of an observer in vertical flight. -/
theorem heldJump_probeState (s : Scene) (y v : ℝ) (h : HeldJump s y v) (hy : 0 < y) :
    HeldJump (probeState poleFrame s) (y + (v - moonGravity)) (v - moonGravity) := by
  unfold probeState
  exact heldJump_gravityStep _ y v (heldJump_moveStep s y v h) hy

/-- The landing condition under the pole, for an observer on the polar axis. -/
theorem heldJump_landingCondition (s : Scene) (y v : ℝ) (h : HeldJump s y v) :
    landingCondition s ⟨⟨0, moonRadius, 0⟩, none⟩ ↔ (|y - 500| ≤ 2.2 ∧ v ≤ 0) := by
  obtain ⟨h1, h2, h3, h4, h5, h6, h7⟩ := h
  unfold landingCondition
  rw [(active_desktop s h2).1, h6, h7]
  simp only [moonRadius, eyeHeight]
  rw [distanceTo_axis_y]
  norm_num

/-- A frame during the flight: the observer stays airborne, gravity lowers the
vertical velocity and the height changes by the new vertical velocity. -/
theorem tick_air (s : Scene) (y v : ℝ) (h : HeldJump s y v) (hy : 0 < y)
    (hy1 : 0 ≤ y + (v - moonGravity)) (hy2 : y + (v - moonGravity) ≤ 515)
    (hno : ¬ (|y + (v - moonGravity) - 500| ≤ 2.2 ∧ v - moonGravity ≤ 0)) :
    HeldJump (animate poleFrame s) (y + (v - moonGravity)) (v - moonGravity) := by
  have hp := heldJump_probeState s y v h hy
  rw [animate_walk poleFrame s h.1]
  have hg : groundingStep poleFrame (probeState poleFrame s) = probeState poleFrame s := by
    refine (groundingStep_hit poleFrame _ ⟨⟨0, moonRadius, 0⟩, none⟩ rfl).2.1 ?_ ?_
    · rw [heldJump_landingCondition _ _ _ hp]
      exact hno
    · rw [(active_desktop _ hp.2.1).2.1, hp.2.2.2.2.2.2]
  rw [hg]
  have hc : ceilingStep (probeState poleFrame s) = probeState poleFrame s := by
    unfold ceilingStep
    rw [if_neg]
    rw [hp.2.2.2.2.2.1, length_axis_y _ hy1]
    simp only [moonRadius, maxJumpHeight]
    norm_num
    linarith
  rw [hc]
  exact hp

/-- The frame on which the flight ends: the observer is grounded again and the
landing branch has cleared the jump flag. -/
theorem tick_land (s : Scene) (y v : ℝ) (h : HeldJump s y v) (hy : 0 < y)
    (hd : |y + (v - moonGravity) - 500| ≤ 2.2) (hv : v - moonGravity ≤ 0) :
    (animate poleFrame s).isMobile = false
      ∧ (animate poleFrame s).jumpState.isGrounded = true
      ∧ (animate poleFrame s).jumpState.verticalVelocity = 0
      ∧ (animate poleFrame s).moveState.jump = false := by
  have hp := heldJump_probeState s y v h hy
  have hm : (animate poleFrame s).isMobile = false := by
    rw [animate_isMobile]; exact h.2.1
  obtain ⟨a1, a2, a3⟩ := active_desktop _ hm
  refine ⟨hm, ?_, ?_, ?_⟩
  all_goals
    first
    | rw [← a1]
    | rw [← a2]
    | rw [← a3]
  all_goals rw [animate_walk poleFrame s h.1]
  all_goals
    have hl := groundingStep_lands poleFrame (probeState poleFrame s) ⟨⟨0, moonRadius, 0⟩, none⟩ rfl
      ((heldJump_landingCondition _ _ _ hp).2 ⟨hd, hv⟩).1
      ((heldJump_landingCondition _ _ _ hp).2 ⟨hd, hv⟩).2
    have hk := ceilingStep_keeps (groundingStep poleFrame (probeState poleFrame s))
  · rw [hk.1, hl.1]
  · exact hk.2.2 hl.2.1
  · rw [hk.2.1, hl.2.2]

/-- Entering Walk on a desktop leaves the observer standing at the pole with
no velocity, no key down and grounded. -/
theorem enterWalk_pose (o : Scene) (h : OrbitShape o) (hm : o.isMobile = false) (d : Draws)
    (f : Frame) :
    (setIsFirstPerson true d f o).isFirstPerson = true
      ∧ (setIsFirstPerson true d f o).isMobile = false
      ∧ (setIsFirstPerson true d f o).velocity = ⟨0, 0, 0⟩
      ∧ (setIsFirstPerson true d f o).moveState = ⟨false, false, false, false, false⟩
      ∧ (setIsFirstPerson true d f o).cameraPosition = ⟨0, moonRadius + eyeHeight, 0⟩
      ∧ (setIsFirstPerson true d f o).jumpState = ⟨0, true⟩ := by
  obtain ⟨i, r, c, k, h1, h0, h2, h3, h4, h5, h6, h7, h8, h9⟩ := h
  obtain ⟨k0, hk0, hk⟩ := Option.map_eq_some'.1 h6
  simp [setIsFirstPerson, sceneEffectCleanup, sceneEffect,
    setupOrbitControls, setupFirstPersonControls, addListener, removeListener, runCleanup,
    setTerrainVisible, controls_animate, h0, h1, h2, h3, h4, h5, hk0, hk, h7, h8, h9, hm]

/-- The page loads with the device class it is given. -/
theorem loadPage_isMobile (mobile : Bool) (d : Draws) (f : Frame) :
    (loadPage mobile d f).isMobile = mobile := by
  cases mobile <;>
    simp [loadPage, setIsMobile, mount, sceneEffectCleanup, sceneEffect, setupOrbitControls,
      addListener, removeListener, runCleanup, setTerrainVisible, emptyPage, controls_animate]

/-- The press of Space in a freshly entered desktop Walk mode starts a jump. -/
theorem desktopWalk_press :
    HeldJump (onKeyDown .Space desktopWalk) 501.7 0.4 := by
  obtain ⟨h1, h2, h3, h4, h5, h6⟩ := enterWalk_pose _
    (loadPage_orbitShape false sampleDraws poleFrame)
    (loadPage_isMobile false sampleDraws poleFrame) sampleDraws poleFrame
  unfold HeldJump onKeyDown desktopWalk
  simp only [h1, h2, h3, h4, h5, h6, jumpSpeed, moonRadius, eyeHeight]
  norm_num

/-- The flight of a held jump: after `k ≤ 77` frames the observer is airborne
at height `501.7 + 0.4 k - 0.005 k (k + 1)` with vertical velocity
`0.4 - 0.01 k`. -/
theorem held_flight (s : Scene) (h : HeldJump s 501.7 0.4) (k : Nat) (hk : k ≤ 77) :
    HeldJump (runDesktop s (List.replicate k (.tick poleFrame)))
      (501.7 + 0.4 * k - 0.005 * k * (k + 1)) (0.4 - 0.01 * k) := by
  induction k with
  | zero =>
    simp only [List.replicate_zero, runDesktop, List.foldl_nil, Nat.cast_zero]
    convert h using 1 <;> norm_num
  | succ n ih =>
    have ihn := ih (by omega)
    have hn0 : (0 : ℝ) ≤ n := Nat.cast_nonneg n
    have hn1 : (n : ℝ) ≤ 76 := by
      have : n ≤ 76 := by omega
      exact_mod_cast this
    have hprod : 0 ≤ (n : ℝ) * (76 - n) := mul_nonneg hn0 (by linarith)
    have e : runDesktop s (List.replicate (n + 1) (.tick poleFrame))
        = animate poleFrame (runDesktop s (List.replicate n (.tick poleFrame))) := by
      unfold runDesktop
      rw [List.replicate_succ', List.foldl_append]
      rfl
    have ey : 501.7 + 0.4 * ((n + 1 : Nat) : ℝ) - 0.005 * ((n + 1 : Nat) : ℝ) * (((n + 1 : Nat) : ℝ) + 1)
        = (501.7 + 0.4 * n - 0.005 * n * (n + 1)) + ((0.4 - 0.01 * n) - moonGravity) := by
      unfold moonGravity
      push_cast
      ring
    have ev : 0.4 - 0.01 * ((n + 1 : Nat) : ℝ) = (0.4 - 0.01 * n) - moonGravity := by
      unfold moonGravity
      push_cast
      ring
    rw [e, ey, ev]
    apply tick_air _ _ _ ihn
    · nlinarith
    · unfold moonGravity; nlinarith
    · unfold moonGravity; nlinarith [sq_nonneg ((n : ℝ) - 39)]
    · unfold moonGravity
      rintro ⟨hd, hv⟩
      have hd2 := (abs_le.1 hd).2
      have hn40 : (39 : ℝ) ≤ n := by linarith
      nlinarith [mul_nonneg (show (0 : ℝ) ≤ n - 39 by linarith) (show (0 : ℝ) ≤ 76 - n by linarith)]

/-- A run of desktop events followed by one more event. -/
theorem runDesktop_snoc (s : Scene) (es : List DesktopEvent) (e : DesktopEvent) :
    runDesktop s (es ++ [e]) = desktopStep (runDesktop s es) e := by
  unfold runDesktop
  rw [List.foldl_append]
  rfl

/-- C18 (refuted for the code): the landing branch of the frame callback
clears `moveState.jump`, so the key auto-repeat of a held Space jumps again.
In a freshly entered desktop Walk mode, Space is pressed (a jump starts), 78
frames pass during which the observer rises, falls and lands, and the next
keydown of the auto-repeat starts a second jump, although no keyup occurred. -/
theorem C18_held_space_jumps_again :
    (∀ e ∈ heldSpace, ∀ c : KeyCode, e ≠ DesktopEvent.keyUp c)
      ∧ desktopWalk.jumpState = ⟨0, true⟩
      ∧ (onKeyDown .Space desktopWalk).jumpState = ⟨jumpSpeed, false⟩
      ∧ (runDesktop desktopWalk
          (.keyDown .Space :: List.replicate 78 (.tick poleFrame))).jumpState.isGrounded = true
      ∧ (runDesktop desktopWalk
          (.keyDown .Space :: List.replicate 78 (.tick poleFrame))).moveState.jump = false
      ∧ (runDesktop desktopWalk heldSpace).jumpState = ⟨jumpSpeed, false⟩
      ∧ (runDesktop desktopWalk heldSpace).moveState.jump = true := by
  have hpress := desktopWalk_press
  have hpose := enterWalk_pose _ (loadPage_orbitShape false sampleDraws poleFrame)
    (loadPage_isMobile false sampleDraws poleFrame) sampleDraws poleFrame
  have hfl := held_flight _ hpress 77 (le_refl _)
  have e78 : runDesktop desktopWalk (.keyDown .Space :: List.replicate 78 (.tick poleFrame))
      = animate poleFrame (runDesktop (onKeyDown .Space desktopWalk)
          (List.replicate 77 (.tick poleFrame))) := by
    have r78 : List.replicate 78 (DesktopEvent.tick poleFrame)
        = List.replicate 77 (DesktopEvent.tick poleFrame) ++ [DesktopEvent.tick poleFrame] :=
      List.replicate_succ' 77 _
    rw [r78, ← List.cons_append, runDesktop_snoc]
    rfl
  have eall : runDesktop desktopWalk heldSpace
      = onKeyDown .Space (runDesktop desktopWalk
          (.keyDown .Space :: List.replicate 78 (.tick poleFrame))) := by
    unfold heldSpace
    rw [← List.cons_append, runDesktop_snoc]
    rfl
  obtain ⟨l1, l2, l3, l4⟩ := tick_land _ _ _ hfl (by norm_num)
    (by unfold moonGravity; rw [abs_le]; constructor <;> norm_num)
    (by unfold moonGravity; norm_num)
  rw [← e78] at l1 l2 l3 l4
  refine ⟨?_, hpose.2.2.2.2.2, hpress.2.2.2.2.2.2.trans (by unfold jumpSpeed; rfl), l2, l4, ?_, ?_⟩
  · intro e he c
    unfold heldSpace at he
    simp only [List.mem_cons, List.mem_append, List.mem_replicate, List.mem_singleton,
      List.not_mem_nil, or_false] at he
    rcases he with rfl | ⟨_, rfl⟩ | rfl <;> simp
  · rw [eall]
    generalize runDesktop desktopWalk
      (.keyDown .Space :: List.replicate 78 (.tick poleFrame)) = t at l2 l4
    unfold onKeyDown
    simp [l2, l4]
  · rw [eall]
    generalize runDesktop desktopWalk
      (.keyDown .Space :: List.replicate 78 (.tick poleFrame)) = t at l2 l4
    unfold onKeyDown
    simp [l2, l4]

/-! ## One scheme, one adapter, at every point of a transition -/

/-- The guarantees hold at every point of the switch from Orbit to Walk. -/
theorem orbit_to_walk_points (o : Scene) (h : OrbitShape o) (d : Draws) (f : Frame) :
    ∀ t ∈ setIsFirstPersonTrace true d f o, wiringInvariant t = true := by
  obtain ⟨i, r, c, k, h1, h0, h2, h3, h4, h5, h6, h7, h8, h9⟩ := h
  obtain ⟨k0, hk0, hk⟩ := Option.map_eq_some'.1 h6
  cases hm : o.isMobile <;>
    simp [setIsFirstPersonTrace, sceneEffectCleanupTrace, sceneEffectTrace, optionalCleanupTrace,
      runCleanupTrace, setupOrbitControlsTrace, setupFirstPersonControlsTrace,
      wiringInvariant, oneSchemeLive, oneAdapter, modesSeparated, isTouchListener,
      isDesktopListener, isWalkListener, isOrbitListener,
      setIsFirstPerson, sceneEffectCleanup, sceneEffect,
      setupOrbitControls, setupFirstPersonControls, addListener, removeListener, runCleanup,
      setTerrainVisible, controls_animate, h0, h1, h2, h3, h4, h5, hk0, hk, h7, h8, h9, hm]

/-- The guarantees hold at every point of the switch from Walk to Orbit. -/
theorem walk_to_orbit_points (w : Scene) (h : WalkShape w) (d : Draws) (f : Frame) :
    ∀ t ∈ setIsFirstPersonTrace false d f w, wiringInvariant t = true := by
  obtain ⟨i, r, a, b, c, e, k, h1, h0, h2, h3, h4, h5, h6⟩ := h
  rcases h6 with ⟨hm, h7, h8, h9, h10⟩ | ⟨hm, h7, h8, h9, h10⟩ <;>
    simp [setIsFirstPersonTrace, setIsMobileTrace, sceneEffectCleanupTrace, sceneEffectTrace,
      optionalCleanupTrace, runCleanupTrace, setupOrbitControlsTrace,
      setupFirstPersonControlsTrace,
      wiringInvariant, oneSchemeLive, oneAdapter, modesSeparated, isTouchListener,
      isDesktopListener, isWalkListener, isOrbitListener,
      setIsFirstPerson, setIsMobile, sceneEffectCleanup, sceneEffect,
      setupOrbitControls, setupFirstPersonControls, addListener, removeListener, runCleanup,
      setTerrainVisible, controls_animate, h0, h1, h2, h3, h4, h5, h7, h8, h9, h10, hm]

/-- The guarantees hold at every point of the re-run of the Orbit setup after
a change of the device class. -/
theorem orbit_device_points (o : Scene) (h : OrbitShape o) (d : Draws) (f : Frame) :
    ∀ t ∈ setIsMobileTrace (!o.isMobile) d f o, wiringInvariant t = true := by
  obtain ⟨i, r, c, k, h1, h0, h2, h3, h4, h5, h6, h7, h8, h9⟩ := h
  obtain ⟨k0, hk0, hk⟩ := Option.map_eq_some'.1 h6
  cases hm : o.isMobile <;>
    simp [setIsFirstPersonTrace, setIsMobileTrace, sceneEffectCleanupTrace, sceneEffectTrace,
      optionalCleanupTrace, runCleanupTrace, setupOrbitControlsTrace,
      setupFirstPersonControlsTrace,
      wiringInvariant, oneSchemeLive, oneAdapter, modesSeparated, isTouchListener,
      isDesktopListener, isWalkListener, isOrbitListener,
      setIsFirstPerson, setIsMobile, sceneEffectCleanup, sceneEffect,
      setupOrbitControls, setupFirstPersonControls, addListener, removeListener, runCleanup,
      setTerrainVisible, controls_animate, h0, h1, h2, h3, h4, h5, hk0, hk, h7, h8, h9, hm]

/-- The guarantees hold at every point of the re-run of the Walk setup after a
change of the device class. -/
theorem walk_device_points (w : Scene) (h : WalkShape w) (d : Draws) (f : Frame) :
    ∀ t ∈ setIsMobileTrace (!w.isMobile) d f w, wiringInvariant t = true := by
  obtain ⟨i, r, a, b, c, e, k, h1, h0, h2, h3, h4, h5, h6⟩ := h
  rcases h6 with ⟨hm, h7, h8, h9, h10⟩ | ⟨hm, h7, h8, h9, h10⟩ <;>
    simp [setIsFirstPersonTrace, setIsMobileTrace, sceneEffectCleanupTrace, sceneEffectTrace,
      optionalCleanupTrace, runCleanupTrace, setupOrbitControlsTrace,
      setupFirstPersonControlsTrace,
      wiringInvariant, oneSchemeLive, oneAdapter, modesSeparated, isTouchListener,
      isDesktopListener, isWalkListener, isOrbitListener,
      setIsFirstPerson, setIsMobile, sceneEffectCleanup, sceneEffect,
      setupOrbitControls, setupFirstPersonControls, addListener, removeListener, runCleanup,
      setTerrainVisible, controls_animate, h0, h1, h2, h3, h4, h5, h7, h8, h9, h10, hm]

/-- The guarantees hold at every point of the first setup. -/
theorem mount_points (d : Draws) (f : Frame) :
    ∀ t ∈ mountTrace d f, wiringInvariant t = true := by
  simp [mountTrace, mount, emptyPage, setIsFirstPersonTrace, setIsMobileTrace, sceneEffectCleanupTrace, sceneEffectTrace,
      optionalCleanupTrace, runCleanupTrace, setupOrbitControlsTrace,
      setupFirstPersonControlsTrace,
      wiringInvariant, oneSchemeLive, oneAdapter, modesSeparated, isTouchListener,
      isDesktopListener, isWalkListener, isOrbitListener,
      setIsFirstPerson, setIsMobile, sceneEffectCleanup, sceneEffect,
      setupOrbitControls, setupFirstPersonControls, addListener, removeListener, runCleanup,
      setTerrainVisible, controls_animate, true_and]

/-- The teardown of the scene effect leaves no listener of either mode, from an
Orbit-shaped scene. -/
theorem orbit_cleanup_detaches (o : Scene) (h : OrbitShape o) :
    ((sceneEffectCleanup o).listeners.any fun l => isOrbitListener l || isWalkListener l)
      = false := by
  obtain ⟨i, r, c, k, h1, h0, h2, h3, h4, h5, h6, h7, h8, h9⟩ := h
  obtain ⟨k0, hk0, hk⟩ := Option.map_eq_some'.1 h6
  simp [sceneEffectCleanup, removeListener, runCleanup, isTouchListener,
    isDesktopListener, isWalkListener, isOrbitListener, h0, h1, h2, h3, h4, h5, hk0, hk, h7, h8, h9]

/-- The teardown of the scene effect leaves no listener of either mode, from a
Walk-shaped scene. -/
theorem walk_cleanup_detaches (w : Scene) (h : WalkShape w) :
    ((sceneEffectCleanup w).listeners.any fun l => isOrbitListener l || isWalkListener l)
      = false := by
  obtain ⟨i, r, a, b, c, e, k, h1, h0, h2, h3, h4, h5, h6⟩ := h
  rcases h6 with ⟨hm, h7, h8, h9, h10⟩ | ⟨hm, h7, h8, h9, h10⟩ <;>
    simp [sceneEffectCleanup, removeListener, runCleanup, isTouchListener,
      isDesktopListener, isWalkListener, isOrbitListener, h0, h1, h2, h3, h4, h5, h7, h8, h9,
      h10, hm]

/-- An Orbit-shaped scene has the orbit controls as its only scheme and no
listener of the Walk setup. -/
theorem orbitShape_wiring (o : Scene) (h : OrbitShape o) :
    wiringInvariant o = true ∧ o.listeners.any isWalkListener = false
      ∧ o.listeners.any isOrbitListener = true
      ∧ o.controls.isSome = true ∧ o.pointerLockControls = none := by
  obtain ⟨i, r, c, k, h1, h0, h2, h3, h4, h5, h6, h7, h8, h9⟩ := h
  obtain ⟨k0, hk0, hk⟩ := Option.map_eq_some'.1 h6
  simp [wiringInvariant, oneSchemeLive, oneAdapter, modesSeparated, isTouchListener,
    isDesktopListener, isWalkListener, isOrbitListener, h0, h1, h2, h3, h4, h5, hk0, hk, h7, h8,
    h9]

/-- A Walk-shaped scene has exactly the adapter of its device class and no
listener of the Orbit setup. -/
theorem walkShape_wiring (w : Scene) (h : WalkShape w) :
    wiringInvariant w = true ∧ w.listeners.any isTouchListener = w.isMobile
      ∧ w.listeners.any isDesktopListener = !w.isMobile
      ∧ w.pointerLockControls.isSome = !w.isMobile
      ∧ w.listeners.any isOrbitListener = false
      ∧ w.controls = none := by
  obtain ⟨i, r, a, b, c, e, k, h1, h0, h2, h3, h4, h5, h6⟩ := h
  rcases h6 with ⟨hm, h7, h8, h9, h10⟩ | ⟨hm, h7, h8, h9, h10⟩ <;>
    simp [wiringInvariant, oneSchemeLive, oneAdapter, modesSeparated, isTouchListener,
      isDesktopListener, isWalkListener, isOrbitListener, h0, h1, h2, h3, h4, h5, h7, h8, h9,
      h10, hm]

/-- The list of points of a mode switch ends with the scene the switch leaves. -/
theorem setIsFirstPersonTrace_last (v : Bool) (d : Draws) (f : Frame) (s : Scene) :
    (setIsFirstPersonTrace v d f s).getLast? = some (setIsFirstPerson v d f s) := by
  unfold setIsFirstPersonTrace
  by_cases h : v = s.isFirstPerson
  · rw [if_pos h]
    unfold setIsFirstPerson
    rw [if_pos h]
    rfl
  · rw [if_neg h]
    exact List.getLast?_concat _

/-- C11: in every scene the effect leaves (Orbit-shaped or Walk-shaped), and at
every point passed through by the switch to the other mode, by the re-run of
the setup after a change of the device class, and by the first setup, the orbit
controls and the pointer-lock controls are never both set and at most one
control object is connected, touch listeners are registered only on a mobile
device and keyboard and pointer-lock listeners only otherwise, and no listener
of the Orbit setup is registered together with one of the Walk setup.  The
teardown that opens a switch leaves no listener of either setup, so the
listeners of the previous mode are gone before any of the new mode is
attached; the switch ends in a scene of the other shape.  In Walk mode touch
listeners are registered iff the device is mobile, and keyboard and
pointer-lock listeners (and the pointer-lock controls) iff it is not. -/
theorem C11_one_scheme_one_adapter (s : Scene) (h : OrbitShape s ∨ WalkShape s) (d : Draws)
    (f : Frame) :
    wiringInvariant s = true
      ∧ (∀ t ∈ setIsFirstPersonTrace (!s.isFirstPerson) d f s, wiringInvariant t = true)
      ∧ (∀ t ∈ setIsMobileTrace (!s.isMobile) d f s, wiringInvariant t = true)
      ∧ (∀ t ∈ mountTrace d f, wiringInvariant t = true)
      ∧ (setIsFirstPersonTrace (!s.isFirstPerson) d f s).getLast?
          = some (setIsFirstPerson (!s.isFirstPerson) d f s)
      ∧ ((sceneEffectCleanup s).listeners.any fun l => isOrbitListener l || isWalkListener l)
          = false
      ∧ (OrbitShape (setIsFirstPerson (!s.isFirstPerson) d f s)
          ∨ WalkShape (setIsFirstPerson (!s.isFirstPerson) d f s))
      ∧ (s.isFirstPerson = true →
          s.listeners.any isTouchListener = s.isMobile
            ∧ s.listeners.any isDesktopListener = !s.isMobile
            ∧ s.pointerLockControls.isSome = !s.isMobile
            ∧ s.controls = none
            ∧ s.listeners.any isOrbitListener = false)
      ∧ (s.isFirstPerson = false →
          s.listeners.any isWalkListener = false
            ∧ s.pointerLockControls = none
            ∧ s.controls.isSome = true) := by
  rcases h with h | h
  · have hm := h.orbitMode
    have hw := orbitShape_wiring s h
    refine ⟨hw.1, ?_, orbit_device_points s h d f, mount_points d f,
      setIsFirstPersonTrace_last _ d f s, orbit_cleanup_detaches s h, ?_, ?_, ?_⟩
    · rw [hm]; exact orbit_to_walk_points s h d f
    · rw [hm]; exact Or.inr (enterWalk_shape s h d f).1
    · intro h1; rw [hm] at h1; exact absurd h1 (by decide)
    · intro _; exact ⟨hw.2.1, hw.2.2.2.2, hw.2.2.2.1⟩
  · have hm := h.walkMode.1
    have hw := walkShape_wiring s h
    refine ⟨hw.1, ?_, walk_device_points s h d f, mount_points d f,
      setIsFirstPersonTrace_last _ d f s, walk_cleanup_detaches s h, ?_, ?_, ?_⟩
    · rw [hm]; exact walk_to_orbit_points s h d f
    · rw [hm]; exact Or.inl (enterOrbit_shape s h d f).1
    · intro _; exact ⟨hw.2.1, hw.2.2.1, hw.2.2.2.1, hw.2.2.2.2.2, hw.2.2.2.2.1⟩
    · intro h1; rw [hm] at h1; exact absurd h1 (by decide)

/-- C11 at the page as loaded on a desktop: the guarantees hold at every point
of the first switch to Walk. -/
theorem C11_one_scheme_one_adapter_witness :
    (OrbitShape (loadPage false sampleDraws poleFrame)
        ∨ WalkShape (loadPage false sampleDraws poleFrame))
      ∧ ∀ t ∈ setIsFirstPersonTrace (!(loadPage false sampleDraws poleFrame).isFirstPerson)
          sampleDraws poleFrame (loadPage false sampleDraws poleFrame),
          wiringInvariant t = true :=
  ⟨Or.inl (loadPage_orbitShape false sampleDraws poleFrame),
    (C11_one_scheme_one_adapter (loadPage false sampleDraws poleFrame)
      (Or.inl (loadPage_orbitShape false sampleDraws poleFrame)) sampleDraws poleFrame).2.1⟩

/-! ## The ceiling clamp -/

/-- The ceiling clamp: above `R + maxJumpHeight` it zeroes the vertical
velocity, otherwise it does nothing. -/
theorem ceilingStep_cases (s : Scene) :
    (s.cameraPosition.length > moonRadius + maxJumpHeight →
        activeVerticalVelocity (ceilingStep s) = 0)
      ∧ (¬ s.cameraPosition.length > moonRadius + maxJumpHeight → ceilingStep s = s) := by
  unfold ceilingStep
  constructor
  · intro h
    rw [if_pos h]
    exact activeVerticalVelocity_setVV _ _
  · intro h
    rw [if_neg h]

/-- C22: the ceiling clamp is the last step of a Walk tick and does not move
the camera, so after the tick: if the camera is farther than
`R + maxJumpHeight = 515` from the centre the vertical velocity is `0`, and if
it is not, the clamp has changed nothing (the vertical velocity is the one the
grounding step left). -/
theorem C22_ceiling_clamp (f : Frame) (s : Scene) (hwalk : s.isFirstPerson = true) :
    (animate f s).cameraPosition = (groundingStep f (probeState f s)).cameraPosition
      ∧ ((animate f s).cameraPosition.length > moonRadius + maxJumpHeight →
          activeVerticalVelocity (animate f s) = 0)
      ∧ (¬ (animate f s).cameraPosition.length > moonRadius + maxJumpHeight →
          animate f s = groundingStep f (probeState f s)
            ∧ activeVerticalVelocity (animate f s)
              = activeVerticalVelocity (groundingStep f (probeState f s)))
      ∧ moonRadius + maxJumpHeight = 515 := by
  obtain ⟨c1, c2⟩ := ceilingStep_cases (groundingStep f (probeState f s))
  rw [animate_walk f s hwalk, cameraPosition_ceilingStep]
  refine ⟨rfl, c1, ?_, ?_⟩
  · intro h
    rw [c2 h]
    exact ⟨rfl, rfl⟩
  · unfold moonRadius maxJumpHeight
    norm_num

/-- C22 at a concrete input: the desktop observer standing on the pole. -/
theorem C22_ceiling_clamp_witness :
    walkSample.isFirstPerson = true
      ∧ ((animate poleFrame walkSample).cameraPosition.length > moonRadius + maxJumpHeight →
          activeVerticalVelocity (animate poleFrame walkSample) = 0) :=
  ⟨rfl, (C22_ceiling_clamp poleFrame walkSample rfl).2.1⟩

/-! ## Blend rates of a grounded observer -/

/-- The gravity step leaves a grounded observer alone. -/
theorem gravityStep_grounded (s : Scene) (hg : activeIsGrounded s = true) :
    gravityStep s = s := by
  unfold gravityStep
  rw [if_pos hg]

/-- The state at the probe of an observer that was grounded before the tick:
only the movement step has run, and the jump state is as before the tick. -/
theorem probeState_grounded (f : Frame) (s : Scene) (hg : activeIsGrounded s = true) :
    probeState f s = moveStep f (setControlsEnabled s false)
      ∧ activeIsGrounded (probeState f s) = true
      ∧ activeVerticalVelocity (probeState f s) = activeVerticalVelocity s := by
  obtain ⟨m1, m2, _⟩ := moveStep_active f (setControlsEnabled s false)
  obtain ⟨c1, c2, _⟩ := setControlsEnabled_active s false
  have hg1 : activeIsGrounded (moveStep f (setControlsEnabled s false)) = true := by
    rw [m2, c2, hg]
  have e : probeState f s = moveStep f (setControlsEnabled s false) := by
    unfold probeState
    exact gravityStep_grounded _ hg1
  rw [e]
  exact ⟨rfl, hg1, m1.trans c1⟩

/-- The blend of a Walk tick for an observer that was grounded before the tick
(so its vertical velocity is zero) and whose probe hits: within
`eyeHeight + 0.5` of the hit the landing branch runs again and the camera is
blended toward the target at the rate 0.5; farther away the camera is blended
at the rate 0.4.  In both cases the observer stays grounded. -/
theorem C21_grounded_blend (f : Frame) (s : Scene) (hit : Hit)
    (hwalk : s.isFirstPerson = true) (hg : activeIsGrounded s = true)
    (hv : activeVerticalVelocity s = 0)
    (hhit : groundingProbe f (probeState f s) = some hit) :
    probeState f s = moveStep f (setControlsEnabled s false)
      ∧ ((probeState f s).cameraPosition.distanceTo hit.point ≤ eyeHeight + 0.5 →
          (animate f s).cameraPosition
            = (probeState f s).cameraPosition.lerp (groundTarget (probeState f s) hit) 0.5)
      ∧ (eyeHeight + 0.5 < (probeState f s).cameraPosition.distanceTo hit.point →
          (animate f s).cameraPosition
            = (probeState f s).cameraPosition.lerp (groundTarget (probeState f s) hit) 0.4)
      ∧ activeIsGrounded (animate f s) = true := by
  obtain ⟨e, pg, pv⟩ := probeState_grounded f s hg
  obtain ⟨h1, h2, h3⟩ := groundingStep_hit f (probeState f s) hit hhit
  have hvp : activeVerticalVelocity (probeState f s) ≤ 0 := by rw [pv, hv]
  refine ⟨e, ?_, ?_, ?_⟩
  · intro hd
    rw [animate_walk f s hwalk, cameraPosition_ceilingStep]
    exact h1 ⟨hd, hvp⟩
  · intro hd
    have hl : ¬ landingCondition (probeState f s) hit := fun hl => absurd hl.1 (not_le.2 hd)
    rw [animate_walk f s hwalk, cameraPosition_ceilingStep, h3 hl pg]
  · rw [animate_walk f s hwalk]
    refine (ceilingStep_keeps _).1.trans ?_
    by_cases hl : landingCondition (probeState f s) hit
    · exact (groundingStep_lands f _ hit hhit hl.1 hl.2).1
    · rw [h3 hl pg]
      exact pg

/-- The desktop observer standing on the pole, in a frame whose probe hits a
bump half a unit high: the state at the probe, the distance to the hit and the
target of the blend. -/
theorem bump_probe :
    (probeState bumpFrame walkSample).cameraPosition = ⟨0, 501.7, 0⟩
      ∧ (probeState bumpFrame walkSample).cameraPosition.distanceTo ⟨0, moonRadius + 0.5, 0⟩
        = 1.2
      ∧ groundTarget (probeState bumpFrame walkSample) ⟨⟨0, moonRadius + 0.5, 0⟩, none⟩
        = ⟨0, 502.2, 0⟩ := by
  have hpos : (probeState bumpFrame walkSample).cameraPosition = ⟨0, 501.7, 0⟩ := by
    simp [probeState, gravityStep, moveStep, setControlsEnabled, walkSample, emptyPage,
      activeIsGrounded, moonRadius, eyeHeight]
    norm_num
  refine ⟨hpos, ?_, ?_⟩
  · rw [hpos]
    unfold moonRadius
    rw [distanceTo_axis_y]
    norm_num
  · unfold groundTarget
    simp only [hpos]
    rw [normalize_axis_y _ (by norm_num)]
    simp only [Vec3.add, Vec3.multiplyScalar, moonRadius, eyeHeight, Vec3.mk.injEq]
    refine ⟨by norm_num, by norm_num, by norm_num⟩

/-- C21 (refuted as stated): the desktop observer standing grounded on the
pole, in a frame whose probe hits a bump 1.2 below the camera (within
`eyeHeight + 0.5 = 2.2`), is blended toward the target `(0, 502.2, 0)` at the
rate 0.5, ending at height 501.95, and not at the rate 0.4 (height 501.9): the
landing branch runs for an observer that was grounded already. -/
theorem C21_counterexample :
    walkSample.isFirstPerson = true
      ∧ activeIsGrounded walkSample = true
      ∧ activeVerticalVelocity walkSample = 0
      ∧ groundingProbe bumpFrame (probeState bumpFrame walkSample)
        = some ⟨⟨0, moonRadius + 0.5, 0⟩, none⟩
      ∧ (probeState bumpFrame walkSample).cameraPosition.distanceTo ⟨0, moonRadius + 0.5, 0⟩
        ≤ eyeHeight + 0.5
      ∧ (animate bumpFrame walkSample).cameraPosition = ⟨0, 501.95, 0⟩
      ∧ (probeState bumpFrame walkSample).cameraPosition.lerp
          (groundTarget (probeState bumpFrame walkSample) ⟨⟨0, moonRadius + 0.5, 0⟩, none⟩) 0.4
        = ⟨0, 501.9, 0⟩
      ∧ (animate bumpFrame walkSample).cameraPosition
        ≠ (probeState bumpFrame walkSample).cameraPosition.lerp
            (groundTarget (probeState bumpFrame walkSample) ⟨⟨0, moonRadius + 0.5, 0⟩, none⟩)
            0.4 := by
  obtain ⟨hpos, hd, ht⟩ := bump_probe
  obtain ⟨_, pg, pv⟩ := probeState_grounded bumpFrame walkSample rfl
  have hv0 : activeVerticalVelocity walkSample = 0 := rfl
  have hdl : (probeState bumpFrame walkSample).cameraPosition.distanceTo
      ⟨0, moonRadius + 0.5, 0⟩ ≤ eyeHeight + 0.5 := by
    rw [hd]; unfold eyeHeight; norm_num
  have hl : landingCondition (probeState bumpFrame walkSample)
      ⟨⟨0, moonRadius + 0.5, 0⟩, none⟩ := ⟨hdl, by rw [pv, hv0]⟩
  have h5 : (animate bumpFrame walkSample).cameraPosition = ⟨0, 501.95, 0⟩ := by
    rw [animate_walk bumpFrame walkSample rfl, cameraPosition_ceilingStep,
      (groundingStep_hit bumpFrame _ ⟨⟨0, moonRadius + 0.5, 0⟩, none⟩ rfl).1 hl, ht, hpos]
    simp only [Vec3.lerp, Vec3.mk.injEq]
    refine ⟨by norm_num, by norm_num, by norm_num⟩
  have h4 : (probeState bumpFrame walkSample).cameraPosition.lerp
      (groundTarget (probeState bumpFrame walkSample) ⟨⟨0, moonRadius + 0.5, 0⟩, none⟩) 0.4
      = ⟨0, 501.9, 0⟩ := by
    rw [ht, hpos]
    simp only [Vec3.lerp, Vec3.mk.injEq]
    refine ⟨by norm_num, by norm_num, by norm_num⟩
  refine ⟨rfl, rfl, hv0, rfl, hdl, h5, h4, ?_⟩
  rw [h5, h4]
  intro h
  have := congrArg Vec3.y h
  norm_num at this

/-- The amended C21 at a concrete input: the grounded observer on the pole over
a bump is blended at the rate 0.5. -/
theorem C21_grounded_blend_witness :
    walkSample.isFirstPerson = true
      ∧ activeIsGrounded walkSample = true
      ∧ activeVerticalVelocity walkSample = 0
      ∧ groundingProbe bumpFrame (probeState bumpFrame walkSample)
        = some ⟨⟨0, moonRadius + 0.5, 0⟩, none⟩
      ∧ activeIsGrounded (animate bumpFrame walkSample) = true :=
  ⟨rfl, rfl, rfl, rfl,
    (C21_grounded_blend bumpFrame walkSample ⟨⟨0, moonRadius + 0.5, 0⟩, none⟩ rfl rfl rfl
      rfl).2.2.2⟩

/-! ## The noise pass in exact arithmetic -/

/-- The product of the three trigonometric factors of the noise is at most one
in absolute value. -/
theorem abs_trig_product_le_one (a b c : ℝ) :
    |Real.sin a * Real.cos b * Real.sin c| ≤ 1 := by
  rw [abs_mul, abs_mul]
  have h1 := Real.abs_sin_le_one a
  have h2 := Real.abs_cos_le_one b
  have h3 := Real.abs_sin_le_one c
  have h12 : |Real.sin a| * |Real.cos b| ≤ 1 * 1 :=
    mul_le_mul h1 h2 (abs_nonneg _) (by norm_num)
  calc |Real.sin a| * |Real.cos b| * |Real.sin c|
      ≤ 1 * 1 * 1 := mul_le_mul h12 h3 (abs_nonneg _) (by norm_num)
    _ = 1 := by norm_num

/-- A normalised vector is at most one long. -/
theorem length_normalize_le_one (w : Vec3) : w.normalize.length ≤ 1 := by
  by_cases h : w.length = 0
  · unfold Vec3.normalize Vec3.divideScalar
    rw [if_pos h, length_multiplyScalar, h]
    norm_num
  · exact (length_normalize w h).le

/-- The noise pass gives back every vertex farther than 0.3 from the centre. -/
theorem surfaceNoise_eq (v : Vec3) (hv : 0.3 < v.length) : surfaceNoise v = v := by
  unfold surfaceNoise
  simp only
  have hn := abs_trig_product_le_one (v.x * 0.1) (v.y * 0.1) (v.z * 0.1)
  generalize Real.sin (v.x * 0.1) * Real.cos (v.y * 0.1) * Real.sin (v.z * 0.1) = t at hn
  obtain ⟨ht0, ht1⟩ := abs_le.1 hn
  have hL : v.length ≠ 0 := by linarith
  have hLp : 0 < v.length := by linarith
  have e : v.add (v.normalize.multiplyScalar (t * 0.3))
      = v.multiplyScalar (1 + 1 / v.length * (t * 0.3)) := by
    unfold Vec3.normalize
    rw [if_neg hL]
    simp only [Vec3.add, Vec3.divideScalar, Vec3.multiplyScalar, Vec3.mk.injEq]
    refine ⟨?_, ?_, ?_⟩ <;> ring
  have hk : 0 < 1 + 1 / v.length * (t * 0.3) := by
    have : -1 < 1 / v.length * (t * 0.3) := by
      rw [one_div, lt_inv_mul_iff₀ hLp]
      nlinarith
    linarith
  have hlen : (v.multiplyScalar (1 + 1 / v.length * (t * 0.3))).length
      = (1 + 1 / v.length * (t * 0.3)) * v.length := by
    rw [length_multiplyScalar, abs_of_pos hk]
  have hpos : 0 < (v.multiplyScalar (1 + 1 / v.length * (t * 0.3))).length := by
    rw [hlen]
    exact mul_pos hk hLp
  rw [e, if_pos hpos]
  unfold Vec3.normalize
  rw [if_neg (ne_of_gt hpos), hlen]
  generalize 1 + 1 / v.length * (t * 0.3) = k at hk
  obtain ⟨x, y, z⟩ := v
  simp only [Vec3.divideScalar, Vec3.multiplyScalar, Vec3.mk.injEq]
  refine ⟨?_, ?_, ?_⟩ <;> (field_simp; ring)

/-- The noise offset is radial and at most 0.3 long. -/
theorem noiseOffset_radial (v : Vec3) :
    (noiseOffset v).length ≤ 0.3 ∧ ∃ t : ℝ, noiseOffset v = v.multiplyScalar t := by
  unfold noiseOffset
  simp only
  constructor
  · rw [length_multiplyScalar, abs_mul]
    have h1 := abs_trig_product_le_one (v.x * 0.1) (v.y * 0.1) (v.z * 0.1)
    have h2 := length_normalize_le_one v
    have h3 : 0 ≤ v.normalize.length := length_nonneg _
    rw [show |(0.3 : ℝ)| = 0.3 by rw [abs_of_pos]; norm_num]
    have h4 : |Real.sin (v.x * 0.1) * Real.cos (v.y * 0.1) * Real.sin (v.z * 0.1)| * 0.3
        ≤ 1 * 0.3 := mul_le_mul_of_nonneg_right h1 (by norm_num)
    calc |Real.sin (v.x * 0.1) * Real.cos (v.y * 0.1) * Real.sin (v.z * 0.1)| * 0.3
          * v.normalize.length
        ≤ 1 * 0.3 * 1 := mul_le_mul h4 h2 h3 (by norm_num)
      _ = 0.3 := by norm_num
  · refine ⟨1 / (if v.length = 0 then 1 else v.length)
      * (Real.sin (v.x * 0.1) * Real.cos (v.y * 0.1) * Real.sin (v.z * 0.1) * 0.3), ?_⟩
    unfold Vec3.normalize
    simp only [Vec3.divideScalar, Vec3.multiplyScalar, Vec3.mk.injEq]
    refine ⟨?_, ?_, ?_⟩ <;> ring

/-- C27: in exact real arithmetic the noise pass of `createMoonHoles` gives
back every vertex farther than 0.3 from the centre (the offset it adds is
radial and at most 0.3 long, and the renormalisation to the original distance
undoes it); every carved vertex of the base sphere is farther than 450 from
the centre, so whatever the random draws (each in `[0, 1)`) the final vertex
buffer is the output of the crater-carving pass. -/
theorem C27_noise_pass_identity (rand : Nat → ℝ) (hrand : ∀ n, 0 ≤ rand n ∧ rand n < 1) :
    (∀ v : Vec3, 0.3 < v.length → surfaceNoise v = v)
      ∧ (∀ v : Vec3, (noiseOffset v).length ≤ 0.3 ∧ ∃ t : ℝ, noiseOffset v = v.multiplyScalar t)
      ∧ (∀ v : Vec3, surfaceNoise v
          = if (v.add (noiseOffset v)).length > 0
            then (v.add (noiseOffset v)).normalize.multiplyScalar v.length
            else v.add (noiseOffset v))
      ∧ createMoonHoles rand (sphereGeometry moonRadius 64 64)
        = (sphereGeometry moonRadius 64 64).map fun v => (craterLocations rand).foldl carve v := by
  refine ⟨surfaceNoise_eq, noiseOffset_radial, fun _ => rfl, ?_⟩
  have good : ∀ c ∈ craterLocations rand,
      c.pos.x * c.pos.x + c.pos.y * c.pos.y + c.pos.z * c.pos.z = 500 ^ 2
        ∧ c.radius ≤ 35 ∧ 2 ≤ c.depth ∧ c.depth < 10 := by
    intro c hc
    obtain ⟨h1, _, h3, h4, h5⟩ := craterLocations_ranges rand hrand c hc
    exact ⟨h1, h3.le, h4, h5⟩
  unfold createMoonHoles
  simp only [List.map_map]
  apply List.map_congr_left
  intro v0 hv0
  have h0 := sphereGeometry_length moonRadius 64 64 v0 hv0
  rw [abs_of_pos (by unfold moonRadius; norm_num)] at h0
  have hfar : 450 < ((craterLocations rand).foldl carve v0).length :=
    foldl_carve_far _ v0 good (by rw [h0]; unfold moonRadius; norm_num)
  simp only [Function.comp]
  exact surfaceNoise_eq _ (by linarith)

/-- C27 at a concrete stream of draws (every draw equal to one half). -/
theorem C27_noise_pass_identity_witness :
    (∀ n : Nat, (0 : ℝ) ≤ (fun _ => (1 / 2 : ℝ)) n ∧ (fun _ => (1 / 2 : ℝ)) n < 1)
      ∧ createMoonHoles (fun _ => 1 / 2) (sphereGeometry moonRadius 64 64)
        = (sphereGeometry moonRadius 64 64).map fun v =>
            (craterLocations fun _ => 1 / 2).foldl carve v :=
  ⟨fun _ => ⟨by norm_num, by norm_num⟩,
    (C27_noise_pass_identity (fun _ => 1 / 2) (fun _ => ⟨by norm_num, by norm_num⟩)).2.2.2⟩

/-! ## The band of the rim term -/

/-- The depth of a crater is the base depth minus the rim term, the rim term
being subtracted exactly when the falloff factor lies strictly between 0.7
and 0.95. -/
theorem craterDepth_rim (vertex : Vec3) (crater : Crater) (distance : ℝ) :
    craterDepth vertex crater distance
      = craterBaseDepth vertex crater distance
        - (if 1 - distance / crater.radius > 0.7 ∧ 1 - distance / crater.radius < 0.95
            then rimElevation (1 - distance / crater.radius) else 0) := by
  unfold craterDepth craterBaseDepth rimElevation
  simp only
  split
  · rfl
  · rw [sub_zero]

/-- The band of the rim statement in terms of the normalised distance: the
factor lies strictly between 0.7 and 0.95 exactly when the normalised distance
lies strictly between 0.05 and 0.3. -/
theorem rim_band_normalised (q : ℝ) :
    (1 - q > 0.7 ∧ 1 - q < 0.95) ↔ (0.05 < q ∧ q < 0.3) := by
  constructor
  · rintro ⟨h1, h2⟩
    constructor <;> linarith
  · rintro ⟨h1, h2⟩
    constructor <;> linarith

/-- C23 (refuted for the code): the rim statement tests the falloff factor
`1 - distance / radius`, not the normalised distance.  For a crater of radius
10 anchored at the pole, a vertex at distance 8 from the anchor (normalised
distance 0.8, inside the band `[0.7, 0.95]`) gets no rim term, and a vertex at
distance 2 (normalised distance 0.2, outside the band) gets the rim term,
which is positive there. -/
theorem C23_rim_band_on_factor :
    (Vec3.mk 0 492 0).distanceTo ⟨0, 500, 0⟩ = 8
      ∧ (Vec3.mk 0 498 0).distanceTo ⟨0, 500, 0⟩ = 2
      ∧ craterDepth ⟨0, 492, 0⟩ ⟨⟨0, 500, 0⟩, 10, 4⟩ 8
        = craterBaseDepth ⟨0, 492, 0⟩ ⟨⟨0, 500, 0⟩, 10, 4⟩ 8
      ∧ craterDepth ⟨0, 498, 0⟩ ⟨⟨0, 500, 0⟩, 10, 4⟩ 2
        = craterBaseDepth ⟨0, 498, 0⟩ ⟨⟨0, 500, 0⟩, 10, 4⟩ 2 - rimElevation (1 - 2 / 10)
      ∧ 0 < rimElevation (1 - 2 / 10) := by
  refine ⟨?_, ?_, ?_, ?_, ?_⟩
  · rw [distanceTo_axis_y]; norm_num
  · rw [distanceTo_axis_y]; norm_num
  · rw [craterDepth_rim, if_neg, sub_zero]
    norm_num
  · rw [craterDepth_rim, if_pos]
    norm_num
  · unfold rimElevation
    apply mul_pos _ (by norm_num)
    apply Real.sin_pos_of_pos_of_lt_pi
    · have := Real.pi_pos
      apply div_pos (mul_pos (by norm_num) this) (by norm_num)
    · have := Real.pi_pos
      rw [div_lt_iff₀ (by norm_num)]
      nlinarith

/-! ## Grounded implies no vertical velocity -/

/-- A jump request either changes nothing or leaves the observer airborne. -/
theorem jumpRequest_cases (s : Scene) :
    jumpRequest s = s ∨ activeIsGrounded (jumpRequest s) = false := by
  unfold jumpRequest
  cases hm : s.isMobile
  · simp only [Bool.false_eq_true, if_false]
    unfold onKeyDown
    simp only
    by_cases hc : (s.jumpState.isGrounded && !s.moveState.jump) = true
    · rw [if_pos hc]
      right
      simp [activeIsGrounded, hm]
    · rw [if_neg hc]
      left
      rfl
  · simp only [if_true]
    unfold handleJump
    cases hf : s.isFirstPerson
    · left
      simp [hm]
    · cases hs : s.mobileJumpState with
      | none =>
        left
        simp [hm]
      | some j =>
        by_cases hc : (j.isGrounded && !j.jumping) = true
        · right
          simp [activeIsGrounded, hm, hc]
        · left
          simp [hm, hc]

/-- A jump request keeps the invariant: it either changes nothing or leaves
the observer airborne. -/
theorem jumpRequest_keeps (s : Scene)
    (h : activeIsGrounded s = true → activeVerticalVelocity s = 0) :
    activeIsGrounded (jumpRequest s) = true → activeVerticalVelocity (jumpRequest s) = 0 := by
  rcases jumpRequest_cases s with e | e
  · rw [e]
    exact h
  · intro h1
    rw [e] at h1
    exact absurd h1 (by decide)

/-- The gravity step keeps the invariant. -/
theorem gravityStep_keeps (s : Scene)
    (h : activeIsGrounded s = true → activeVerticalVelocity s = 0) :
    activeIsGrounded (gravityStep s) = true → activeVerticalVelocity (gravityStep s) = 0 := by
  cases hg : activeIsGrounded s
  · intro h1
    rw [(gravityStep_airborne s hg).2.1] at h1
    exact absurd h1 (by decide)
  · intro _
    rw [gravityStep_grounded s hg]
    exact h hg

/-- The grounding step keeps the invariant: it sets grounded only together
with a zero vertical velocity. -/
theorem groundingStep_keeps (f : Frame) (s : Scene)
    (h : activeIsGrounded s = true → activeVerticalVelocity s = 0) :
    activeIsGrounded (groundingStep f s) = true
      → activeVerticalVelocity (groundingStep f s) = 0 := by
  unfold groundingStep
  simp only
  split
  · split
    · intro _
      simp only [activeVerticalVelocity_camera, activeVerticalVelocity_clearJumping,
        activeVerticalVelocity_setVV]
    · split
      · simpa only [activeIsGrounded_camera, activeVerticalVelocity_camera] using h
      · exact h
  · split
    · simpa only [activeIsGrounded_camera, activeVerticalVelocity_camera] using h
    · exact h

/-- The ceiling clamp keeps the invariant. -/
theorem ceilingStep_keeps_zero (s : Scene)
    (h : activeIsGrounded s = true → activeVerticalVelocity s = 0) :
    activeIsGrounded (ceilingStep s) = true → activeVerticalVelocity (ceilingStep s) = 0 := by
  intro hg
  rw [(ceilingStep_keeps s).1] at hg
  exact (ceilingStep_keeps s).2.2 (h hg)

/-- A frame keeps the invariant, in Walk mode and in Orbit mode. -/
theorem animate_keeps (f : Frame) (s : Scene)
    (h : activeIsGrounded s = true → activeVerticalVelocity s = 0) :
    activeIsGrounded (animate f s) = true → activeVerticalVelocity (animate f s) = 0 := by
  obtain ⟨c1, c2, _⟩ := setControlsEnabled_active s false
  obtain ⟨m1, m2, _⟩ := moveStep_active f (setControlsEnabled s false)
  cases hw : s.isFirstPerson
  · obtain ⟨d1, d2, _⟩ := setControlsEnabled_active s true
    have e : animate f s
        = { setControlsEnabled s true with moonRotationY := s.moonRotationY + 0.001 } := by
      unfold animate
      rw [if_neg (by simp [hw])]
    obtain ⟨a1, a2, _⟩ := active_congr (setControlsEnabled s true)
      { setControlsEnabled s true with moonRotationY := s.moonRotationY + 0.001 } rfl rfl rfl rfl
    rw [e, a1, a2, d1, d2]
    exact h
  · rw [animate_walk f s hw]
    apply ceilingStep_keeps_zero
    apply groundingStep_keeps
    unfold probeState
    apply gravityStep_keeps
    rw [m1, m2, c1, c2]
    exact h

/-- Every run of jump requests and frames keeps the invariant. -/
theorem runWalk_keeps (events : List WalkEvent) (s : Scene)
    (h : activeIsGrounded s = true → activeVerticalVelocity s = 0) :
    activeIsGrounded (runWalk s events) = true
      → activeVerticalVelocity (runWalk s events) = 0 := by
  induction events generalizing s with
  | nil => exact h
  | cons e rest ih =>
    have hs : activeIsGrounded (walkStep s e) = true
        → activeVerticalVelocity (walkStep s e) = 0 := by
      cases e with
      | jump => exact jumpRequest_keeps s h
      | tick f => exact animate_keeps f s h
    exact ih (walkStep s e) hs

/-- C25: in every state reached from the state `setupFirstPersonControls`
leaves (from any prior state, on either adapter) by any interleaving of jump
requests and frames, a grounded observer has vertical velocity `0`; so in the
next frame the gravity step does nothing (the state at the probe is the state
after the movement step) and the velocity test of the landing condition
passes. -/
theorem C25_grounded_velocity_zero (s0 : Scene) (events : List WalkEvent) (f : Frame)
    (hg : activeIsGrounded (runWalk (setupFirstPersonControls s0).1 events) = true) :
    activeVerticalVelocity (runWalk (setupFirstPersonControls s0).1 events) = 0
      ∧ gravityStep (moveStep f (setControlsEnabled
          (runWalk (setupFirstPersonControls s0).1 events) false))
        = moveStep f (setControlsEnabled (runWalk (setupFirstPersonControls s0).1 events) false)
      ∧ activeVerticalVelocity (probeState f (runWalk (setupFirstPersonControls s0).1 events))
        = 0
      ∧ activeVerticalVelocity (probeState f (runWalk (setupFirstPersonControls s0).1 events))
        ≤ 0 := by
  have h0 : activeIsGrounded (setupFirstPersonControls s0).1 = true
      → activeVerticalVelocity (setupFirstPersonControls s0).1 = 0 := by
    intro _
    unfold setupFirstPersonControls
    cases hc : s0.controls <;> cases hm : s0.isMobile <;>
      simp [hc, hm, addListener, activeVerticalVelocity]
  have hv := runWalk_keeps events _ h0 hg
  obtain ⟨e, _, pv⟩ := probeState_grounded f _ hg
  refine ⟨hv, ?_, ?_, ?_⟩
  · unfold probeState at e
    exact e
  · rw [pv, hv]
  · rw [pv, hv]

/-- C25 at a concrete input: the state at Walk entry, before any event. -/
theorem C25_grounded_velocity_zero_witness :
    activeIsGrounded (runWalk (setupFirstPersonControls walkSample).1 []) = true
      ∧ activeVerticalVelocity (runWalk (setupFirstPersonControls walkSample).1 []) = 0 :=
  ⟨rfl, (C25_grounded_velocity_zero walkSample [] poleFrame rfl).1⟩

/-! ## Orientation of mountains and hills -/

/-- The length of a vector along the first axis. -/
theorem length_axis_x (x : ℝ) : (Vec3.mk x 0 0).length = |x| := by
  unfold Vec3.length
  simp only [mul_zero, add_zero]
  rw [← sq, Real.sqrt_sq_eq_abs]

/-- The unit vector from the equatorial anchor `(500, 0, 0)` to the centre. -/
theorem equator_direction :
    (Vec3.zero.sub ⟨500, 0, 0⟩).normalize = ⟨-1, 0, 0⟩ := by
  have e : Vec3.zero.sub ⟨500, 0, 0⟩ = ⟨-500, 0, 0⟩ := by
    simp [Vec3.zero, Vec3.sub]
  rw [e]
  unfold Vec3.normalize
  rw [length_axis_x, show |(-500 : ℝ)| = 500 by rw [abs_neg, abs_of_pos]; norm_num]
  simp only [Vec3.divideScalar, Vec3.multiplyScalar, Vec3.mk.injEq]
  refine ⟨by norm_num, by norm_num, by norm_num⟩

/-- The rotation `lookAt` gives an object at the equatorial anchor
`(500, 0, 0)` facing the point one unit toward the centre: the local `+Z` axis
points to the centre, the local `+Y` axis stays the world `+Y` axis. -/
theorem equator_lookAt :
    objectLookAt ⟨500, 0, 0⟩ ((Vec3.mk 500 0 0).add ⟨-1, 0, 0⟩)
      = ⟨⟨0, 0, 1⟩, ⟨0, 1, 0⟩, ⟨-1, 0, 0⟩⟩ := by
  have e0 : ((Vec3.mk 500 0 0).add ⟨-1, 0, 0⟩).sub ⟨500, 0, 0⟩ = ⟨-1, 0, 0⟩ := by
    simp only [Vec3.add, Vec3.sub, Vec3.mk.injEq]
    refine ⟨by norm_num, by norm_num, by norm_num⟩
  have n1 : (Vec3.mk (-1) 0 0).normalize = ⟨-1, 0, 0⟩ := by
    unfold Vec3.normalize
    rw [length_axis_x, show |(-1 : ℝ)| = 1 by rw [abs_neg, abs_one]]
    simp [Vec3.divideScalar, Vec3.multiplyScalar]
  have c1 : (Vec3.mk 0 1 0).cross ⟨-1, 0, 0⟩ = ⟨0, 0, 1⟩ := by
    simp [Vec3.cross]
  have n2 : (Vec3.mk 0 0 1).normalize = ⟨0, 0, 1⟩ := by
    unfold Vec3.normalize
    have : (Vec3.mk 0 0 1).length = 1 := by
      unfold Vec3.length
      simp
    rw [this]
    simp [Vec3.divideScalar, Vec3.multiplyScalar]
  have c2 : (Vec3.mk (-1) 0 0).cross ⟨0, 0, 1⟩ = ⟨0, 1, 0⟩ := by
    simp [Vec3.cross]
  unfold objectLookAt matrixLookAt
  simp only [e0]
  have l1 : (Vec3.mk (-1) 0 0).lengthSq ≠ 0 := by
    simp [Vec3.lengthSq]
  rw [if_neg l1]
  simp only [n1, c1]
  have l2 : (Vec3.mk 0 0 1).lengthSq ≠ 0 := by
    simp [Vec3.lengthSq]
  rw [if_neg l2, if_neg l2]
  simp only [n2, c2]

/-- C24 (refuted for the code): `lookAt` turns the local `+Z` axis of a mesh
toward its target, and the target of a mountain or a hill is one unit toward
the centre.  At the equatorial anchor `(500, 0, 0)` and for every spin, the
local `+Z` axis is mapped to the inward radial `(-1, 0, 0)` and the local up
axis `+Y` (the axis of the cone) to `(0, cos spin, -sin spin)`, a tangent of
the sphere, not to the outward radial `(1, 0, 0)`. -/
theorem C24_feature_axis_tangent :
    surfacePoint 0 (Real.pi / 2) = ⟨500, 0, 0⟩
      ∧ (Vec3.mk 500 0 0).normalize = ⟨1, 0, 0⟩
      ∧ ∀ spin : ℝ,
          (featureOrientation ⟨500, 0, 0⟩ spin).zAxis = ⟨-1, 0, 0⟩
            ∧ (featureOrientation ⟨500, 0, 0⟩ spin).yAxis
              = ⟨0, Real.cos spin, -Real.sin spin⟩
            ∧ (featureOrientation ⟨500, 0, 0⟩ spin).yAxis ≠ (Vec3.mk 500 0 0).normalize
            ∧ (featureOrientation ⟨500, 0, 0⟩ spin).yAxis.dot (Vec3.mk 500 0 0).normalize
              = 0 := by
  have hn : (Vec3.mk 500 0 0).normalize = ⟨1, 0, 0⟩ := by
    unfold Vec3.normalize
    rw [length_axis_x, show |(500 : ℝ)| = 500 by rw [abs_of_pos]; norm_num]
    simp only [Vec3.divideScalar, Vec3.multiplyScalar, Vec3.mk.injEq]
    refine ⟨by norm_num, by norm_num, by norm_num⟩
  refine ⟨?_, hn, ?_⟩
  · simp [surfacePoint, moonRadius]
  · intro spin
    have hy : (featureOrientation ⟨500, 0, 0⟩ spin).yAxis
        = ⟨0, Real.cos spin, -Real.sin spin⟩ := by
      show ((objectLookAt ⟨500, 0, 0⟩
        ((Vec3.mk 500 0 0).add (Vec3.zero.sub ⟨500, 0, 0⟩).normalize)).rotateZ spin).yAxis = _
      rw [equator_direction, equator_lookAt]
      simp only [Orientation.rotateZ, Vec3.sub, Vec3.multiplyScalar, Vec3.mk.injEq]
      refine ⟨by ring, by ring, by ring⟩
    have hz : (featureOrientation ⟨500, 0, 0⟩ spin).zAxis = ⟨-1, 0, 0⟩ := by
      show ((objectLookAt ⟨500, 0, 0⟩
        ((Vec3.mk 500 0 0).add (Vec3.zero.sub ⟨500, 0, 0⟩).normalize)).rotateZ spin).zAxis = _
      rw [equator_direction, equator_lookAt]
      rfl
    refine ⟨hz, hy, ?_, ?_⟩
    · rw [hy, hn]
      intro h
      have := congrArg Vec3.x h
      norm_num at this
    · rw [hy, hn]
      simp [Vec3.dot]

/-- The rotation `lookAt` gives an object at `q` facing the point `q + d`, for
a unit vector `d` off the world `Y` axis: the local `+Z` axis is `d`. -/
theorem objectLookAt_unit (q d : Vec3) (hd : d.length = 1) (hxz : d.x ≠ 0 ∨ d.z ≠ 0) :
    objectLookAt q (q.add d)
      = ⟨((Vec3.mk 0 1 0).cross d).normalize,
          d.cross ((Vec3.mk 0 1 0).cross d).normalize, d⟩ := by
  have e0 : (q.add d).sub q = d := by
    obtain ⟨dx, dy, dz⟩ := d
    simp only [Vec3.add, Vec3.sub, Vec3.mk.injEq]
    refine ⟨by ring, by ring, by ring⟩
  have l1 : d.lengthSq ≠ 0 := by
    have h := length_sq d
    rw [hd] at h
    unfold Vec3.lengthSq
    rw [← h]
    norm_num
  have n1 : d.normalize = d := by
    unfold Vec3.normalize
    rw [hd, if_neg one_ne_zero]
    obtain ⟨dx, dy, dz⟩ := d
    simp [Vec3.divideScalar, Vec3.multiplyScalar]
  have l2 : ((Vec3.mk 0 1 0).cross d).lengthSq ≠ 0 := by
    unfold Vec3.lengthSq Vec3.cross
    simp only [zero_mul, one_mul, sub_zero, zero_sub, sub_self]
    rcases hxz with h | h
    · have := mul_self_pos.2 h
      nlinarith [mul_self_nonneg d.z]
    · have := mul_self_pos.2 h
      nlinarith [mul_self_nonneg d.x]
  unfold objectLookAt matrixLookAt
  simp only [e0]
  rw [if_neg l1]
  simp only [n1]
  rw [if_neg l2, if_neg l2]

/-- For every anchor off the polar axis and every spin, the orientation given
to a mountain or a hill maps the local `+Z` axis to the unit vector toward the
centre and the local up axis `+Y` to a vector orthogonal to the radial. -/
theorem feature_up_tangent (p : Vec3) (hp : p.x ≠ 0 ∨ p.z ≠ 0) (spin : ℝ) :
    (featureOrientation p spin).zAxis = (Vec3.zero.sub p).normalize
      ∧ (featureOrientation p spin).yAxis.dot p = 0 := by
  have hL : (Vec3.zero.sub p).length = p.length := by
    unfold Vec3.length Vec3.sub Vec3.zero
    simp only [zero_sub, neg_mul_neg]
  have hpos : 0 < p.length := by
    have h := length_sq p
    have h0 := length_nonneg p
    rcases hp with h1 | h1
    · have := mul_self_pos.2 h1
      nlinarith [mul_self_nonneg p.y, mul_self_nonneg p.z]
    · have := mul_self_pos.2 h1
      nlinarith [mul_self_nonneg p.y, mul_self_nonneg p.x]
  have hne : (Vec3.zero.sub p).length ≠ 0 := by rw [hL]; exact ne_of_gt hpos
  have hd1 := length_normalize _ hne
  have hdx : (Vec3.zero.sub p).normalize
      = ⟨-p.x * (1 / p.length), -p.y * (1 / p.length), -p.z * (1 / p.length)⟩ := by
    unfold Vec3.normalize
    rw [if_neg hne, hL]
    simp [Vec3.divideScalar, Vec3.multiplyScalar, Vec3.sub, Vec3.zero]
  have hxz : (Vec3.zero.sub p).normalize.x ≠ 0 ∨ (Vec3.zero.sub p).normalize.z ≠ 0 := by
    rw [hdx]
    have hinv : (1 / p.length) ≠ 0 := by positivity
    rcases hp with h1 | h1
    · left; exact mul_ne_zero (neg_ne_zero.2 h1) hinv
    · right; exact mul_ne_zero (neg_ne_zero.2 h1) hinv
  have e := objectLookAt_unit p _ hd1 hxz
  constructor
  · show ((objectLookAt p (p.add (Vec3.zero.sub p).normalize)).rotateZ spin).zAxis = _
    rw [e]
    rfl
  · show ((objectLookAt p (p.add (Vec3.zero.sub p).normalize)).rotateZ spin).yAxis.dot p = 0
    rw [e]
    rw [hdx]
    unfold Vec3.normalize
    generalize (if ((Vec3.mk 0 1 0).cross
      ⟨-p.x * (1 / p.length), -p.y * (1 / p.length), -p.z * (1 / p.length)⟩).length = 0
      then (1 : ℝ) else ((Vec3.mk 0 1 0).cross
      ⟨-p.x * (1 / p.length), -p.y * (1 / p.length), -p.z * (1 / p.length)⟩).length) = m
    simp only [Orientation.rotateZ, Vec3.dot, Vec3.sub, Vec3.cross, Vec3.multiplyScalar,
      Vec3.divideScalar]
    ring

/-! ## The arc of a jump -/

/-- The directional flags of the active adapter are not written by the
movement step nor by the write of `controls.enabled`. -/
theorem activeMoveState_moveStep (f : Frame) (s : Scene) (e : Bool) :
    activeMoveState (moveStep f (setControlsEnabled s e)) = activeMoveState s := by
  have h1 : activeMoveState (setControlsEnabled s e) = activeMoveState s := by
    unfold setControlsEnabled
    cases s.controls <;> rfl
  rw [← h1]
  unfold moveStep
  simp only
  split <;> rfl

/-- With no horizontal velocity and no directional intent the movement step
leaves the camera where it is and the horizontal velocity zero. -/
theorem moveStep_still (f : Frame) (s : Scene) (hx : s.velocity.x = 0) (hz : s.velocity.z = 0)
    (hm : activeMoveState s = ⟨false, false, false, false⟩) :
    (moveStep f (setControlsEnabled s false)).cameraPosition = s.cameraPosition
      ∧ (moveStep f (setControlsEnabled s false)).velocity.x = 0
      ∧ (moveStep f (setControlsEnabled s false)).velocity.z = 0 := by
  have h1 : activeMoveState (setControlsEnabled s false) = activeMoveState s := by
    unfold setControlsEnabled
    cases s.controls <;> rfl
  have hv : (setControlsEnabled s false).velocity = s.velocity := by
    unfold setControlsEnabled
    cases s.controls <;> rfl
  have hp : (setControlsEnabled s false).cameraPosition = s.cameraPosition := by
    unfold setControlsEnabled
    cases s.controls <;> rfl
  have hc : max (-moveSpeed) (min moveSpeed (0 - 0 * 0.1)) = 0 := by
    unfold moveSpeed
    rw [show (0 : ℝ) - 0 * 0.1 = 0 by norm_num, min_eq_right (by norm_num),
      max_eq_right (by norm_num)]
  generalize setControlsEnabled s false = t at h1 hv hp
  rw [← hp]
  rw [← hv] at hx hz
  rw [← h1] at hm
  have hmul : ∀ a : Vec3, a.multiplyScalar 0 = ⟨0, 0, 0⟩ := by
    intro a
    simp [Vec3.multiplyScalar]
  have hadd : ∀ p : Vec3, p.add ⟨0, 0, 0⟩ = p := by
    intro p
    obtain ⟨px, py, pz⟩ := p
    simp [Vec3.add]
  unfold moveStep
  simp only [hm, hx, hz, Bool.or_self, Bool.false_eq_true, if_false, hc]
  split
  · refine ⟨?_, rfl, rfl⟩
    cases t.isMobile <;> cases t.pointerLockControls <;>
      simp [hmul, hadd, Vec3.zero]
  · exact ⟨rfl, hx, hz⟩

/-- Normalising a positive multiple of a unit vector gives the unit vector. -/
theorem normalize_scaled_unit (u : Vec3) (hu : u.length = 1) (r : ℝ) (hr : 0 < r) :
    (u.multiplyScalar r).normalize = u := by
  unfold Vec3.normalize
  have hl : (u.multiplyScalar r).length = r := by
    rw [length_multiplyScalar, hu, mul_one, abs_of_pos hr]
  rw [hl, if_neg (ne_of_gt hr)]
  obtain ⟨x, y, z⟩ := u
  simp only [Vec3.divideScalar, Vec3.multiplyScalar, Vec3.mk.injEq]
  refine ⟨?_, ?_, ?_⟩ <;> field_simp

/-- The state at the probe of an observer in vertical flight: gravity has
lowered the vertical velocity and the camera has moved along its radial by the
new velocity. -/
theorem inFlight_probeState (f : Frame) (s : Scene) (u : Vec3) (r v : ℝ)
    (h : InFlight s u r v) (hu : u.length = 1) (hr : 0 < r) :
    InFlight (probeState f s) u (r + (v - moonGravity)) (v - moonGravity) := by
  obtain ⟨h1, h2, h3, h4, h5, h6, h7⟩ := h
  obtain ⟨p1, p2, p3⟩ := moveStep_still f s h2 h3 h4
  obtain ⟨m1, m2, _⟩ := moveStep_active f (setControlsEnabled s false)
  obtain ⟨c1, c2, _⟩ := setControlsEnabled_active s false
  have hg1 : activeIsGrounded (moveStep f (setControlsEnabled s false)) = false := by
    rw [m2, c2, h7]
  obtain ⟨g1, g2, _⟩ := gravityStep_airborne _ hg1
  have hpos := gravityStep_airborne_position _ hg1
  unfold probeState
  refine ⟨?_, ?_, ?_, ?_, ?_, ?_, g2⟩
  · have := congrArg Wiring.isFirstPerson
      ((wiring_gravityStep (moveStep f (setControlsEnabled s false))).trans
        ((wiring_moveStep f _).trans (wiring_setControlsEnabled s false)))
    exact this.trans h1
  · rw [velocity_gravityStep]; exact p2
  · rw [velocity_gravityStep]; exact p3
  · have e : activeMoveState (gravityStep (moveStep f (setControlsEnabled s false)))
        = activeMoveState (moveStep f (setControlsEnabled s false)) := by
      unfold gravityStep
      split
      · rfl
      · unfold setActiveVerticalVelocity
        split <;> rfl
    rw [e, activeMoveState_moveStep]
    exact h4
  · rw [hpos, p1, h5, normalize_scaled_unit u hu r hr, m1, c1, h6]
    obtain ⟨x, y, z⟩ := u
    simp only [Vec3.add, Vec3.multiplyScalar, Vec3.mk.injEq]
    refine ⟨?_, ?_, ?_⟩ <;> ring
  · rw [g1, m1, c1, h6]

/-- The distance between two points is at least the difference of their
distances from the centre. -/
theorem length_sub_le_distanceTo (a b : Vec3) : a.length - b.length ≤ a.distanceTo b := by
  by_cases h : a.length - b.length ≤ 0
  · exact le_trans h (by unfold Vec3.distanceTo; exact Real.sqrt_nonneg _)
  · push_neg at h
    unfold Vec3.distanceTo
    apply Real.le_sqrt_of_sq_le
    unfold Vec3.distanceToSquared
    have ha := length_sq a
    have hb := length_sq b
    have ha0 := length_nonneg a
    have hb0 := length_nonneg b
    have hcs : (a.x * b.x + a.y * b.y + a.z * b.z) ^ 2 ≤ (a.length * b.length) ^ 2 := by
      have : (a.x * b.x + a.y * b.y + a.z * b.z) ^ 2
          ≤ (a.x * a.x + a.y * a.y + a.z * a.z) * (b.x * b.x + b.y * b.y + b.z * b.z) := by
        nlinarith [sq_nonneg (a.x * b.y - a.y * b.x), sq_nonneg (a.x * b.z - a.z * b.x),
          sq_nonneg (a.y * b.z - a.z * b.y)]
      rw [← ha, ← hb] at this
      calc (a.x * b.x + a.y * b.y + a.z * b.z) ^ 2 ≤ a.length ^ 2 * b.length ^ 2 := this
        _ = (a.length * b.length) ^ 2 := by ring
    have hdot : a.x * b.x + a.y * b.y + a.z * b.z ≤ a.length * b.length :=
      (abs_le_of_sq_le_sq' hcs (by positivity)).2
    nlinarith

/-- A frame of an observer in vertical flight that does not land and stays
under the ceiling: the observer stays in vertical flight. -/
theorem inFlight_tick (f : Frame) (s : Scene) (u : Vec3) (r v : ℝ)
    (h : InFlight s u r v) (hu : u.length = 1) (hr : 0 < r)
    (hr1 : 0 ≤ r + (v - moonGravity))
    (hc : r + (v - moonGravity) ≤ moonRadius + maxJumpHeight)
    (hno : ∀ hit, groundingProbe f (probeState f s) = some hit
      → ¬ landingCondition (probeState f s) hit) :
    InFlight (animate f s) u (r + (v - moonGravity)) (v - moonGravity) := by
  have hp := inFlight_probeState f s u r v h hu hr
  rw [animate_walk f s h.1]
  have hg : groundingStep f (probeState f s) = probeState f s := by
    cases hprobe : groundingProbe f (probeState f s) with
    | none => exact (groundingStep_no_hit f _ hprobe).2 hp.2.2.2.2.2.2
    | some hit => exact (groundingStep_hit f _ hit hprobe).2.1 (hno hit hprobe) hp.2.2.2.2.2.2
  rw [hg]
  have hcl : ceilingStep (probeState f s) = probeState f s := by
    unfold ceilingStep
    rw [if_neg]
    rw [hp.2.2.2.2.1, length_multiplyScalar, hu, mul_one, abs_of_nonneg hr1]
    exact not_lt.2 hc
  rw [hcl]
  exact hp

/-- The rise of a jump: from vertical flight at step `j` of the arc, after a
run of frames ending at step at most 39 the observer is in vertical flight at
the height and with the velocity of the arc, whatever the frames. -/
theorem flight_rising (frames : List Frame) (s : Scene) (u : Vec3) (r0 : ℝ) (j : Nat)
    (h : InFlight s u (r0 + 0.4 * j - 0.005 * j * (j + 1)) (0.4 - 0.01 * j))
    (hu : u.length = 1) (hr0 : 0 < r0) (hc : r0 + 7.8 ≤ moonRadius + maxJumpHeight)
    (hk : j + frames.length ≤ 39) :
    InFlight (runWalk s (frames.map WalkEvent.tick)) u
      (r0 + 0.4 * (j + frames.length : Nat) - 0.005 * (j + frames.length : Nat)
        * ((j + frames.length : Nat) + 1))
      (0.4 - 0.01 * (j + frames.length : Nat)) := by
  induction frames generalizing s j with
  | nil =>
    simp only [List.length_nil, Nat.add_zero, List.map_nil]
    exact h
  | cons f rest ih =>
    simp only [List.length_cons] at hk ⊢
    have hj : (j : ℝ) ≤ 38 := by
      have : j ≤ 38 := by omega
      exact_mod_cast this
    have hj0 : (0 : ℝ) ≤ j := Nat.cast_nonneg j
    have e : runWalk s ((f :: rest).map WalkEvent.tick)
        = runWalk (animate f s) (rest.map WalkEvent.tick) := rfl
    have ey : r0 + 0.4 * ((j + 1 : Nat) : ℝ) - 0.005 * ((j + 1 : Nat) : ℝ)
          * (((j + 1 : Nat) : ℝ) + 1)
        = (r0 + 0.4 * j - 0.005 * j * (j + 1)) + ((0.4 - 0.01 * j) - moonGravity) := by
      unfold moonGravity
      push_cast
      ring
    have ev : 0.4 - 0.01 * ((j + 1 : Nat) : ℝ) = (0.4 - 0.01 * j) - moonGravity := by
      unfold moonGravity
      push_cast
      ring
    have hv : 0 < (0.4 - 0.01 * (j : ℝ)) - moonGravity := by
      unfold moonGravity; linarith
    have hstep := inFlight_tick f s u _ _ h hu (by nlinarith)
      (by unfold moonGravity; nlinarith)
      (by
        unfold moonGravity
        have := mul_nonneg (show (0 : ℝ) ≤ 38 - j by linarith) (show (0 : ℝ) ≤ 39 - j by linarith)
        nlinarith)
      (by
        intro hit _ hl
        have hp := inFlight_probeState f s u _ _ h hu (by nlinarith)
        have := hl.2
        rw [hp.2.2.2.2.2.1] at this
        linarith)
    rw [← ey, ← ev] at hstep
    have := ih (animate f s) (j + 1) hstep (by omega)
    rw [e]
    have en : j + (rest.length + 1) = j + 1 + rest.length := by omega
    rw [en]
    exact this

/-- The three outcomes of a jump request: nothing, the write of the desktop
handler, or the write of the mobile handler. -/
theorem jumpRequest_outcomes (s : Scene) :
    jumpRequest s = s
      ∨ jumpRequest s = { s with
          moveState := { s.moveState with jump := true }
          jumpState := ⟨jumpSpeed, false⟩ }
      ∨ jumpRequest s = { s with mobileJumpState := some ⟨true, 0.4, false⟩ } := by
  unfold jumpRequest
  by_cases hm : s.isMobile = true
  · rw [if_pos hm]
    unfold handleJump
    by_cases hf : (!s.isMobile || !s.isFirstPerson) = true
    · rw [if_pos hf]
      left; rfl
    · rw [if_neg hf]
      cases hs : s.mobileJumpState with
      | none => left; rfl
      | some j =>
        simp only
        by_cases hc : (j.isGrounded && !j.jumping) = true
        · rw [if_pos hc]
          right; right; rfl
        · rw [if_neg hc]
          left; rfl
  · rw [if_neg hm]
    unfold onKeyDown
    simp only
    by_cases hc : (s.jumpState.isGrounded && !s.moveState.jump) = true
    · rw [if_pos hc]
      right; left; rfl
    · rw [if_neg hc]
      left; rfl

/-- A jump request writes neither the mode, the horizontal velocity, the
camera position nor the directional flags. -/
theorem jumpRequest_frame (s : Scene) :
    (jumpRequest s).isFirstPerson = s.isFirstPerson
      ∧ (jumpRequest s).velocity = s.velocity
      ∧ (jumpRequest s).cameraPosition = s.cameraPosition
      ∧ activeMoveState (jumpRequest s) = activeMoveState s := by
  rcases jumpRequest_outcomes s with e | e | e <;> rw [e] <;> exact ⟨rfl, rfl, rfl, rfl⟩

/-- A vector of non-zero length is its length times its normalisation. -/
theorem normalize_mul_length (p : Vec3) (hp : 0 < p.length) :
    p.normalize.multiplyScalar p.length = p ∧ p.normalize.length = 1 := by
  refine ⟨?_, length_normalize p (ne_of_gt hp)⟩
  unfold Vec3.normalize
  rw [if_neg (ne_of_gt hp)]
  generalize p.length = l at hp
  obtain ⟨x, y, z⟩ := p
  simp only [Vec3.divideScalar, Vec3.multiplyScalar, Vec3.mk.injEq]
  refine ⟨?_, ?_, ?_⟩ <;> field_simp

/-- C26 (refuted as stated): a jump honoured on high terrain is cut short by
the ceiling clamp.  The desktop observer standing grounded 514.7 from the
centre jumps (vertical velocity 0.4); the first frame lifts the camera to
515.09, beyond `R + maxJumpHeight = 515`, and the clamp leaves the vertical
velocity at `0`, not at `0.4 - 0.01 * 1`. -/
theorem C26_counterexample :
    walkReady summitSample = true
      ∧ activeIsGrounded summitSample = true
      ∧ activeJumping summitSample = false
      ∧ summitSample.velocity = ⟨0, 0, 0⟩
      ∧ activeMoveState summitSample = ⟨false, false, false, false⟩
      ∧ summitSample.cameraPosition.length = 514.7
      ∧ activeVerticalVelocity (jumpRequest summitSample) = 0.4
      ∧ (animate summitFrame (jumpRequest summitSample)).cameraPosition = ⟨0, 515.09, 0⟩
      ∧ activeVerticalVelocity (animate summitFrame (jumpRequest summitSample)) = 0
      ∧ activeVerticalVelocity (animate summitFrame (jumpRequest summitSample))
        ≠ 0.4 - 0.01 * 1 := by
  have hw : walkReady summitSample = true := rfl
  have hg : activeIsGrounded summitSample = true := rfl
  have hj : activeJumping summitSample = false := rfl
  have hlen : summitSample.cameraPosition.length = 514.7 :=
    length_axis_y 514.7 (by norm_num)
  obtain ⟨j1, _, _⟩ := jumpRequest_honoured summitSample hw hg hj
  obtain ⟨f1, f2, f3, f4⟩ := jumpRequest_frame summitSample
  obtain ⟨_, t2, t3⟩ := tick_after_jump summitFrame summitSample hw hg hj
  obtain ⟨p1, _, _⟩ := moveStep_still summitFrame (jumpRequest summitSample)
    (by rw [f2]; rfl) (by rw [f2]; rfl) (by rw [f4]; rfl)
  have hpos : (animate summitFrame (jumpRequest summitSample)).cameraPosition
      = ⟨0, 515.09, 0⟩ := by
    rw [t3, p1, f3]
    show (Vec3.mk 0 514.7 0).add ((Vec3.mk 0 514.7 0).normalize.multiplyScalar
      (jumpSpeed - moonGravity)) = _
    rw [normalize_axis_y _ (by norm_num)]
    simp only [Vec3.add, Vec3.multiplyScalar, jumpSpeed, moonGravity, Vec3.mk.injEq]
    refine ⟨by norm_num, by norm_num, by norm_num⟩
  have hv : activeVerticalVelocity (animate summitFrame (jumpRequest summitSample)) = 0 := by
    rw [t2, hpos, length_axis_y _ (by norm_num), if_pos]
    unfold moonRadius maxJumpHeight
    norm_num
  refine ⟨hw, hg, hj, rfl, rfl, hlen, j1, hpos, hv, ?_⟩
  rw [hv]
  norm_num

/-- The amended C26: a jump honoured with no horizontal velocity and no
directional intent, at a distance `r0` from the centre with
`r0 + 7.8 ≤ R + maxJumpHeight`.  After `k ≤ 39` following frames, whatever
their probes, the observer is airborne with vertical velocity `0.4 - 0.01 k`
on its radial at distance `r0 + 0.4 k - 0.005 k (k + 1)`, which is `r0 + 7.8`
at `k = 39`; in frame 40, when the terrain under the camera is no farther from
the centre than `r0`, the velocity reaches `0` and the observer stays airborne
at the peak `r0 + 7.8`.  From the canonical height the peak is
`R + 9.5 < R + maxJumpHeight`. -/
theorem C26_jump_arc (s : Scene) (frames : List Frame) (f40 : Frame)
    (hw : walkReady s = true) (hg : activeIsGrounded s = true) (hj : activeJumping s = false)
    (hvx : s.velocity.x = 0) (hvz : s.velocity.z = 0)
    (hm : activeMoveState s = ⟨false, false, false, false⟩)
    (hr0 : 0 < s.cameraPosition.length)
    (hc : s.cameraPosition.length + 7.8 ≤ moonRadius + maxJumpHeight)
    (hk : frames.length ≤ 39) :
    activeVerticalVelocity (runWalk (jumpRequest s) (frames.map WalkEvent.tick))
        = 0.4 - 0.01 * frames.length
      ∧ activeIsGrounded (runWalk (jumpRequest s) (frames.map WalkEvent.tick)) = false
      ∧ (runWalk (jumpRequest s) (frames.map WalkEvent.tick)).cameraPosition
        = s.cameraPosition.normalize.multiplyScalar
            (s.cameraPosition.length + 0.4 * frames.length
              - 0.005 * frames.length * (frames.length + 1))
      ∧ (runWalk (jumpRequest s) (frames.map WalkEvent.tick)).cameraPosition.length
        = s.cameraPosition.length + 0.4 * frames.length
            - 0.005 * frames.length * (frames.length + 1)
      ∧ (frames.length = 39 →
          (runWalk (jumpRequest s) (frames.map WalkEvent.tick)).cameraPosition.length
              = s.cameraPosition.length + 7.8
            ∧ ((∀ hit, groundingProbe f40
                  (probeState f40 (runWalk (jumpRequest s) (frames.map WalkEvent.tick)))
                    = some hit → hit.point.length ≤ s.cameraPosition.length) →
                activeVerticalVelocity
                    (animate f40 (runWalk (jumpRequest s) (frames.map WalkEvent.tick))) = 0
                  ∧ activeIsGrounded
                    (animate f40 (runWalk (jumpRequest s) (frames.map WalkEvent.tick))) = false
                  ∧ (animate f40
                      (runWalk (jumpRequest s) (frames.map WalkEvent.tick))).cameraPosition.length
                    = s.cameraPosition.length + 7.8))
      ∧ moonRadius + eyeHeight + 7.8 = moonRadius + 9.5
      ∧ moonRadius + 9.5 < moonRadius + maxJumpHeight := by
  obtain ⟨j1, j2, _⟩ := jumpRequest_honoured s hw hg hj
  obtain ⟨f1, f2, f3, f4⟩ := jumpRequest_frame s
  obtain ⟨hu1, hu⟩ := normalize_mul_length s.cameraPosition hr0
  have hfp : s.isFirstPerson = true := by
    unfold walkReady at hw
    simp only [Bool.and_eq_true] at hw
    exact hw.1
  have h0 : InFlight (jumpRequest s) s.cameraPosition.normalize
      (s.cameraPosition.length + 0.4 * (0 : Nat) - 0.005 * (0 : Nat) * ((0 : Nat) + 1))
      (0.4 - 0.01 * (0 : Nat)) := by
    refine ⟨f1.trans hfp, by rw [f2]; exact hvx, by rw [f2]; exact hvz, f4.trans hm, ?_, ?_, j2⟩
    · rw [f3]
      simp only [Nat.cast_zero, mul_zero, zero_mul, add_zero, sub_zero]
      exact hu1.symm
    · rw [j1]
      simp
  have hfl := flight_rising frames (jumpRequest s) s.cameraPosition.normalize
    s.cameraPosition.length 0 h0 hu hr0 hc (by omega)
  simp only [Nat.zero_add] at hfl
  generalize runWalk (jumpRequest s) (frames.map WalkEvent.tick) = t at hfl ⊢
  have hk' : (frames.length : ℝ) ≤ 39 := by exact_mod_cast hk
  have hk0 : (0 : ℝ) ≤ frames.length := Nat.cast_nonneg _
  have hrad : 0 ≤ s.cameraPosition.length + 0.4 * (frames.length : ℝ)
      - 0.005 * frames.length * (frames.length + 1) := by nlinarith
  have hlen : t.cameraPosition.length = s.cameraPosition.length + 0.4 * frames.length
      - 0.005 * frames.length * (frames.length + 1) := by
    rw [hfl.2.2.2.2.1, length_multiplyScalar, hu, mul_one, abs_of_nonneg hrad]
  refine ⟨hfl.2.2.2.2.2.1, hfl.2.2.2.2.2.2, hfl.2.2.2.2.1, hlen, ?_, ?_, ?_⟩
  · intro h39
    have e39 : (frames.length : ℝ) = 39 := by exact_mod_cast h39
    have hpeak : s.cameraPosition.length + 0.4 * (frames.length : ℝ)
        - 0.005 * frames.length * (frames.length + 1) = s.cameraPosition.length + 7.8 := by
      rw [e39]; ring
    have hvel : 0.4 - 0.01 * (frames.length : ℝ) = 0.01 := by
      rw [e39]; norm_num
    rw [hpeak, hvel] at hfl
    refine ⟨hlen.trans hpeak, ?_⟩
    intro hter
    have hp := inFlight_probeState f40 t _ _ _ hfl hu (by linarith)
    have hz : (0.01 : ℝ) - moonGravity = 0 := by unfold moonGravity; norm_num
    have hstep := inFlight_tick f40 t _ _ _ hfl hu (by linarith)
      (by rw [hz]; linarith) (by rw [hz]; linarith)
      (by
        intro hit hprobe hl
        have h1 := hl.1
        have h2 := length_sub_le_distanceTo (probeState f40 t).cameraPosition hit.point
        have h3 := hter hit hprobe
        have h4 : (probeState f40 t).cameraPosition.length
            = s.cameraPosition.length + 7.8 + 0 := by
          rw [hp.2.2.2.2.1, length_multiplyScalar, hu, mul_one, hz,
            abs_of_nonneg (by linarith)]
        unfold eyeHeight at h1
        linarith)
    rw [hz] at hstep
    refine ⟨hstep.2.2.2.2.2.1, hstep.2.2.2.2.2.2, ?_⟩
    rw [hstep.2.2.2.2.1, length_multiplyScalar, hu, mul_one, abs_of_nonneg (by linarith)]
    ring
  · unfold eyeHeight
    ring
  · unfold maxJumpHeight
    norm_num

/-- The amended C26 at a concrete input: the desktop observer on the pole
jumps and 39 frames pass; the camera is at the peak `R + 9.5 = 509.5`. -/
theorem C26_jump_arc_witness :
    walkReady walkSample = true
      ∧ activeIsGrounded walkSample = true
      ∧ activeJumping walkSample = false
      ∧ 0 < walkSample.cameraPosition.length
      ∧ walkSample.cameraPosition.length + 7.8 ≤ moonRadius + maxJumpHeight
      ∧ (runWalk (jumpRequest walkSample)
          ((List.replicate 39 poleFrame).map WalkEvent.tick)).cameraPosition.length
        = walkSample.cameraPosition.length + 7.8 := by
  have hlen : walkSample.cameraPosition.length = moonRadius + eyeHeight :=
    length_axis_y _ (by unfold moonRadius eyeHeight; norm_num)
  have h0 : 0 < walkSample.cameraPosition.length := by
    rw [hlen]; unfold moonRadius eyeHeight; norm_num
  have hc : walkSample.cameraPosition.length + 7.8 ≤ moonRadius + maxJumpHeight := by
    rw [hlen]; unfold moonRadius eyeHeight maxJumpHeight; norm_num
  exact ⟨rfl, rfl, rfl, h0, hc,
    ((C26_jump_arc walkSample (List.replicate 39 poleFrame) poleFrame rfl rfl rfl rfl rfl rfl
      h0 hc (by rw [List.length_replicate])).2.2.2.2.1 (List.length_replicate 39 poleFrame)).1⟩

/-! ## The branch for an empty probe result -/

/-- The amended C15: in a Walk tick whose grounding probe finds nothing, an
observer that was grounded before the tick is blended at the rate 0.4 toward
the point at distance `R + eyeHeight` on its outward radial and stays
grounded; an observer that was airborne is left by the grounding step as the
gravity step left it (position, grounded flag false, vertical velocity lowered
by the gravity once), whatever its height: the branch has no landing. -/
theorem C15_no_hit_fallback (f : Frame) (s : Scene) (hwalk : s.isFirstPerson = true)
    (hmiss : groundingProbe f (probeState f s) = none) :
    (activeIsGrounded s = true →
        (animate f s).cameraPosition
            = (probeState f s).cameraPosition.lerp
                ((probeState f s).cameraPosition.normalize.multiplyScalar
                  (moonRadius + eyeHeight)) 0.4
          ∧ activeIsGrounded (animate f s) = true)
      ∧ (activeIsGrounded s = false →
          groundingStep f (probeState f s) = probeState f s
            ∧ (animate f s).cameraPosition = (probeState f s).cameraPosition
            ∧ activeIsGrounded (animate f s) = false
            ∧ activeVerticalVelocity (groundingStep f (probeState f s))
              = activeVerticalVelocity s - moonGravity) := by
  obtain ⟨n1, n2⟩ := groundingStep_no_hit f (probeState f s) hmiss
  rw [animate_walk f s hwalk, cameraPosition_ceilingStep]
  constructor
  · intro hg
    obtain ⟨_, pg, _⟩ := probeState_grounded f s hg
    rw [n1 pg]
    exact ⟨rfl, (ceilingStep_keeps _).1.trans pg⟩
  · intro hair
    obtain ⟨m1, m2, _⟩ := moveStep_active f (setControlsEnabled s false)
    obtain ⟨c1, c2, _⟩ := setControlsEnabled_active s false
    have hg1 : activeIsGrounded (moveStep f (setControlsEnabled s false)) = false := by
      rw [m2, c2, hair]
    obtain ⟨g1, g2, _⟩ := gravityStep_airborne _ hg1
    have hp : activeIsGrounded (probeState f s) = false := g2
    rw [n2 hp]
    refine ⟨rfl, rfl, (ceilingStep_keeps _).1.trans hp, ?_⟩
    unfold probeState
    rw [g1, m1, c1]

/-- The amended C15 at concrete inputs: with an empty probe result the falling
desktop observer stays airborne and the standing one stays grounded. -/
theorem C15_no_hit_fallback_witness :
    fallingSample.isFirstPerson = true
      ∧ groundingProbe missFrame (probeState missFrame fallingSample) = none
      ∧ activeIsGrounded fallingSample = false
      ∧ activeIsGrounded (animate missFrame fallingSample) = false
      ∧ activeIsGrounded walkSample = true
      ∧ activeIsGrounded (animate missFrame walkSample) = true :=
  ⟨rfl, rfl, rfl, ((C15_no_hit_fallback missFrame fallingSample rfl rfl).2 rfl).2.2.1, rfl,
    ((C15_no_hit_fallback missFrame walkSample rfl rfl).1 rfl).2⟩

end Moon
